import Mathlib

/-!
3D Scene: camera controller and input glue.

A shallow embedding of `3DScene/3DScene/Source.cpp`.

* `float`/`double` values are embedded as elements of a linearly ordered field `α`
  (no NaN, no infinities); every definition is executable at `α = ℚ`. The arithmetic of the
  modelled camera and of the matrix functions is exact; where `Source.cpp` itself stores a
  `double` in a `float` or subtracts machine numbers (`UMousePositionCallback`, the frame
  timing), the result is rounded through `FloatRounding α`, which on `ℚ` is IEEE 754
  binary32/binary64 rounding.
* `cos`, `sin`, `sqrt` and `π` are supplied through `MathOps α`; `realOps` is the instance over `ℝ`.
* The class `Camera` is declared in `camera.h`, which `Source.cpp` includes but which is not in
  the source tree; its members are modelled from the specification, under the names that
  `Source.cpp` calls them by.
* The global variables of `Source.cpp` form the record `Globals`; the calls made on `gCamera`
  are additionally recorded, in order, in the ghost field `calls`.
-/

namespace Scene

/-! ## glm vectors -/

/-- A `glm::vec3`. -/
structure Vec3 (α : Type) where
  x : α
  y : α
  z : α
deriving DecidableEq, Repr

namespace Vec3

variable {α : Type} [LinearOrderedField α]

/-- Componentwise sum, `a + b`. -/
def add (a b : Vec3 α) : Vec3 α := ⟨a.x + b.x, a.y + b.y, a.z + b.z⟩

/-- Componentwise difference, `a - b`. -/
def sub (a b : Vec3 α) : Vec3 α := ⟨a.x - b.x, a.y - b.y, a.z - b.z⟩

/-- Vector times scalar, `v * k`. -/
def scale (v : Vec3 α) (k : α) : Vec3 α := ⟨v.x * k, v.y * k, v.z * k⟩

/-- Unary minus, `-v`. -/
def neg (v : Vec3 α) : Vec3 α := ⟨-v.x, -v.y, -v.z⟩

/-- Scalar product, `glm::dot`. -/
def dot (a b : Vec3 α) : α := a.x * b.x + a.y * b.y + a.z * b.z

/-- Vector product, `glm::cross`. -/
def cross (a b : Vec3 α) : Vec3 α :=
  ⟨a.y * b.z - a.z * b.y, a.z * b.x - a.x * b.z, a.x * b.y - a.y * b.x⟩

end Vec3

/-- The elementary functions the camera takes from `<cmath>` and glm. -/
structure MathOps (α : Type) where
  cos : α → α
  sin : α → α
  sqrt : α → α
  pi : α

namespace MathOps

variable {α : Type} [LinearOrderedField α]

/-- Degrees to radians, `glm::radians`. -/
def radians (m : MathOps α) (degrees : α) : α := degrees * (m.pi / 180)

/-- Euclidean length, `glm::length`. -/
def length (m : MathOps α) (v : Vec3 α) : α := m.sqrt (Vec3.dot v v)

/-- Unit vector of `v`, `glm::normalize`: `v` times the inverse square root of `dot(v, v)`. -/
def normalize (m : MathOps α) (v : Vec3 α) : Vec3 α := v.scale (1 / m.sqrt (Vec3.dot v v))

end MathOps

/-- The elementary functions over the real numbers. -/
noncomputable def realOps : MathOps ℝ := ⟨Real.cos, Real.sin, Real.sqrt, Real.pi⟩

/-! ## Conversion to `float` and `double` -/

/-- The integer nearest to `x`, ties to the even one. -/
def roundEven (x : ℚ) : ℤ :=
  if x - ⌊x⌋ < 1 / 2 then ⌊x⌋
  else if 1 / 2 < x - ⌊x⌋ then ⌊x⌋ + 1
  else if ⌊x⌋ % 2 = 0 then ⌊x⌋
  else ⌊x⌋ + 1

/-- The binary exponent that a magnitude `a` has in a format whose smallest normal exponent is
`emin`: the `e` with `2 ^ e ≤ a < 2 ^ (e + 1)`, and `emin` in the subnormal range. -/
def floatExponent (emin : ℤ) (a : ℚ) : ℤ := max (Int.log 2 a) emin

/-- The magnitude `a ≥ 0` rounded to the nearest magnitude of a binary format with `p` stored
fraction bits: a multiple of `2 ^ (e - p)` for the exponent `e` of `a`, ties to even. -/
def roundMagnitude (p : ℕ) (emin : ℤ) (a : ℚ) : ℚ :=
  (roundEven (a / 2 ^ (floatExponent emin a - p)) : ℚ) * 2 ^ (floatExponent emin a - p)

/-- The rational `q` rounded to the nearest value of an IEEE 754 binary format with `p` stored
fraction bits and smallest normal exponent `emin` (round to nearest, ties to even, with
subnormals). Magnitudes beyond the range of the format, which round to an infinity, are not
modelled: the exponent is not bounded above. -/
def roundFloat (p : ℕ) (emin : ℤ) (q : ℚ) : ℚ :=
  if q < 0 then -roundMagnitude p emin (-q) else roundMagnitude p emin q

/-- The value of a rational converted to `float` (binary32: 23 fraction bits, smallest normal
exponent -126). -/
def float32 (q : ℚ) : ℚ := roundFloat 23 (-126) q

/-- The value of a rational rounded to `double` (binary64: 52 fraction bits, smallest normal
exponent -1022). -/
def float64 (q : ℚ) : ℚ := roundFloat 52 (-1022) q

/-- The roundings of the machine arithmetic on the scalars: `toFloat x` is the value that `x`
has after it is stored in a `float` variable, `toDouble x` the value of a result computed in
`double`; the arguments of type `double` that GLFW passes are taken as they are. -/
class FloatRounding (α : Type) where
  toFloat : α → α
  toDouble : α → α

/-- On the rationals the roundings are those of binary32 and binary64. -/
instance : FloatRounding ℚ := ⟨float32, float64⟩

open FloatRounding (toFloat toDouble)

/-- The properties of the roundings on which the sign statements rest: zero is a `float` and a
`double`, and both roundings are monotone. -/
def FloatLaws (α : Type) [LinearOrderedField α] [FloatRounding α] : Prop :=
  toFloat (0 : α) = 0 ∧ toDouble (0 : α) = 0 ∧
    (∀ a b : α, a ≤ b → toFloat a ≤ toFloat b) ∧
    (∀ a b : α, a ≤ b → toDouble a ≤ toDouble b)

/-! ## The camera (`camera.h`) -/

/-- The movement directions passed to `ProcessKeyboard`. -/
inductive Camera_Movement where
  | FORWARD
  | BACKWARD
  | LEFT
  | RIGHT
  | UP
  | DOWN
deriving DecidableEq, Repr

open Camera_Movement

/-- Modelled from the spec: the fields of class `Camera` (declared in `camera.h`, which is not
among the sources): position, the derived basis `front`, `up`, `right`, the fixed `worldUp`,
`yaw` and `pitch` in degrees, `movementSpeed`, `mouseSensitivity` and `zoom`. -/
structure Camera (α : Type) where
  Position : Vec3 α
  Front : Vec3 α
  Up : Vec3 α
  Right : Vec3 α
  WorldUp : Vec3 α
  Yaw : α
  Pitch : α
  MovementSpeed : α
  MouseSensitivity : α
  Zoom : α
deriving DecidableEq, Repr

namespace Camera

variable {α : Type} [LinearOrderedField α]

/-- Modelled from the spec: the recomputation of `front`, `right`, `up` from `yaw` and `pitch`
(`camera.h` is not among the sources): `front` from the spherical-to-Cartesian formula,
normalized; `right = normalize(cross(front, worldUp))`; `up = normalize(cross(right, front))`. -/
def updateCameraVectors (m : MathOps α) (c : Camera α) : Camera α :=
  let front : Vec3 α :=
    m.normalize
      ⟨m.cos (m.radians c.Yaw) * m.cos (m.radians c.Pitch),
       m.sin (m.radians c.Pitch),
       m.sin (m.radians c.Yaw) * m.cos (m.radians c.Pitch)⟩
  let right := m.normalize (Vec3.cross front c.WorldUp)
  let up := m.normalize (Vec3.cross right front)
  { c with Front := front, Right := right, Up := up }

/-- Modelled from the spec: the constructor `Camera(position)` (`camera.h` is not among the
sources): caller-supplied position, `worldUp = (0, 1, 0)`, `yaw = -90`, `pitch = 0`, `zoom = 45`,
the basis derived from these. The spec gives no values for the movement speed and the mouse
sensitivity, which are parameters here. -/
def new (m : MathOps α) (position : Vec3 α) (speed sensitivity : α) : Camera α :=
  updateCameraVectors m
    { Position := position
      Front := ⟨0, 0, -1⟩
      Up := ⟨0, 1, 0⟩
      Right := ⟨1, 0, 0⟩
      WorldUp := ⟨0, 1, 0⟩
      Yaw := -90
      Pitch := 0
      MovementSpeed := speed
      MouseSensitivity := sensitivity
      Zoom := 45 }

/-- Modelled from the spec: `processKeyboardMovement(direction, deltaTimeSeconds)`
(`camera.h` is not among the sources): moves `position` along the basis vector of the direction,
scaled by `movementSpeed * deltaTimeSeconds`; Forward/Backward along `front`, Left/Right along
`right`, Up/Down along `worldUp`. -/
def ProcessKeyboard (direction : Camera_Movement) (deltaTime : α) (c : Camera α) : Camera α :=
  let velocity := c.MovementSpeed * deltaTime
  match direction with
  | FORWARD => { c with Position := c.Position.add (c.Front.scale velocity) }
  | BACKWARD => { c with Position := c.Position.sub (c.Front.scale velocity) }
  | LEFT => { c with Position := c.Position.sub (c.Right.scale velocity) }
  | RIGHT => { c with Position := c.Position.add (c.Right.scale velocity) }
  | UP => { c with Position := c.Position.add (c.WorldUp.scale velocity) }
  | DOWN => { c with Position := c.Position.sub (c.WorldUp.scale velocity) }

/-- Modelled from the spec: `processMouseMovement(xOffset, yOffset, constrainPitch)`
(`camera.h` is not among the sources): adds `xOffset * mouseSensitivity` to `yaw` and
`yOffset * mouseSensitivity` to `pitch`, clamps `pitch` at 89 and -89 when `constrainPitch`
is set, and recomputes `front`, `right`, `up`. -/
def ProcessMouseMovement (m : MathOps α) (xoffset yoffset : α) (constrainPitch : Bool)
    (c : Camera α) : Camera α :=
  let xoffset := xoffset * c.MouseSensitivity
  let yoffset := yoffset * c.MouseSensitivity
  let yaw := c.Yaw + xoffset
  let pitch := c.Pitch + yoffset
  let pitch :=
    if constrainPitch then
      (if pitch > 89 then 89 else if pitch < -89 then -89 else pitch)
    else pitch
  updateCameraVectors m { c with Yaw := yaw, Pitch := pitch }

/-- Modelled from the spec: `processMouseScroll(yOffset)` (`camera.h` is not among the
sources): decrements `zoom` by `yOffset` and clamps the result to `[1, 45]`. -/
def ProcessMouseScroll (yoffset : α) (c : Camera α) : Camera α :=
  let zoom := c.Zoom - yoffset
  let zoom := if zoom < 1 then 1 else zoom
  let zoom := if zoom > 45 then 45 else zoom
  { c with Zoom := zoom }

end Camera

/-! ## Globals of `Source.cpp` -/

/-- A call made on `gCamera`, with its arguments. -/
inductive CameraCall (α : Type) where
  | keyboard (direction : Camera_Movement) (deltaTime : α)
  | mouseMovement (xoffset yoffset : α)
  | mouseScroll (yoffset : α)
deriving DecidableEq, Repr

/-- Window width, `WINDOW_WIDTH`. -/
def WINDOW_WIDTH : Int := 800

/-- Window height, `WINDOW_HEIGHT`. -/
def WINDOW_HEIGHT : Int := 600

/-- The mutable globals of the unnamed namespace that the input code reads and writes, the
should-close flag of `gWindow`, and the ghost list `calls` of the calls made on `gCamera`. -/
structure Globals (α : Type) where
  gCamera : Camera α
  gLastX : α
  gLastY : α
  gFirstMouse : Bool
  gDeltaTime : α
  gLastFrame : α
  windowShouldClose : Bool
  calls : List (CameraCall α)
deriving DecidableEq, Repr

/-- Key code `GLFW_KEY_ESCAPE`. -/
def GLFW_KEY_ESCAPE : Int := 256
/-- Key code `GLFW_KEY_W`. -/
def GLFW_KEY_W : Int := 87
/-- Key code `GLFW_KEY_S`. -/
def GLFW_KEY_S : Int := 83
/-- Key code `GLFW_KEY_A`. -/
def GLFW_KEY_A : Int := 65
/-- Key code `GLFW_KEY_D`. -/
def GLFW_KEY_D : Int := 68
/-- Key code `GLFW_KEY_Q`. -/
def GLFW_KEY_Q : Int := 81
/-- Key code `GLFW_KEY_E`. -/
def GLFW_KEY_E : Int := 69

namespace Globals

variable {α : Type} [LinearOrderedField α]

/-- The globals as initialized at program start: `gCamera(glm::vec3(0, 0, 10))`,
`gLastX = WINDOW_WIDTH / 2`, `gLastY = WINDOW_HEIGHT / 2`, `gFirstMouse = true`, both timing
variables zero. -/
def init (m : MathOps α) (speed sensitivity : α) : Globals α :=
  { gCamera := Camera.new m ⟨0, 0, 10⟩ speed sensitivity
    gLastX := (WINDOW_WIDTH : α) / 2
    gLastY := (WINDOW_HEIGHT : α) / 2
    gFirstMouse := true
    gDeltaTime := 0
    gLastFrame := 0
    windowShouldClose := false
    calls := [] }

/-- The statement `gCamera.ProcessKeyboard(direction, gDeltaTime);`. -/
def processKeyboard (direction : Camera_Movement) (g : Globals α) : Globals α :=
  { g with
    gCamera := g.gCamera.ProcessKeyboard direction g.gDeltaTime
    calls := g.calls ++ [CameraCall.keyboard direction g.gDeltaTime] }

end Globals

section Callbacks

variable {α : Type} [LinearOrderedField α]

/-- The function `UProcessInput`; `pressed key` stands for
`glfwGetKey(window, key) == GLFW_PRESS`. -/
def UProcessInput (pressed : Int → Bool) (g : Globals α) : Globals α :=
  let g := if pressed GLFW_KEY_ESCAPE then { g with windowShouldClose := true } else g
  let g := if pressed GLFW_KEY_W then g.processKeyboard FORWARD else g
  let g := if pressed GLFW_KEY_S then g.processKeyboard BACKWARD else g
  let g := if pressed GLFW_KEY_A then g.processKeyboard LEFT else g
  let g := if pressed GLFW_KEY_D then g.processKeyboard RIGHT else g
  let g := if pressed GLFW_KEY_Q then g.processKeyboard UP else g
  let g := if pressed GLFW_KEY_E then g.processKeyboard DOWN else g
  g

/-- The function `UMousePositionCallback`; `xpos` and `ypos` are `double`, `gLastX`, `gLastY`,
`xoffset` and `yoffset` are `float`: the two subtractions are made in `double` and every
assignment converts to `float`; the call `gCamera.ProcessMouseMovement(xoffset, yoffset)` uses
the default `constrainPitch = true`. -/
def UMousePositionCallback [FloatRounding α] (m : MathOps α) (xpos ypos : α) (g : Globals α) :
    Globals α :=
  let g :=
    if g.gFirstMouse then
      { g with gLastX := toFloat xpos, gLastY := toFloat ypos, gFirstMouse := false }
    else g
  let xoffset := toFloat (toDouble (xpos - g.gLastX))
  let yoffset := toFloat (toDouble (g.gLastY - ypos))
  let g := { g with gLastX := toFloat xpos, gLastY := toFloat ypos }
  { g with
    gCamera := g.gCamera.ProcessMouseMovement m xoffset yoffset true
    calls := g.calls ++ [CameraCall.mouseMovement xoffset yoffset] }

/-- The function `UMouseScrollCallback`. -/
def UMouseScrollCallback (_xoffset yoffset : α) (g : Globals α) : Globals α :=
  { g with
    gCamera := g.gCamera.ProcessMouseScroll yoffset
    calls := g.calls ++ [CameraCall.mouseScroll yoffset] }

end Callbacks

/-! ## View matrix -/

section View

variable {α : Type} [LinearOrderedField α]

/-- The right-handed `glm::lookAt(eye, center, up)`, written in mathematical (row, column)
layout. -/
def lookAt (m : MathOps α) (eye center up : Vec3 α) : Matrix (Fin 4) (Fin 4) α :=
  let f := m.normalize (center.sub eye)
  let s := m.normalize (Vec3.cross f up)
  let u := Vec3.cross s f
  !![s.x, s.y, s.z, -(Vec3.dot s eye);
     u.x, u.y, u.z, -(Vec3.dot u eye);
     -f.x, -f.y, -f.z, Vec3.dot f eye;
     0, 0, 0, 1]

/-- The translation matrix `glm::translate(v)`, in (row, column) layout. -/
def translate (v : Vec3 α) : Matrix (Fin 4) (Fin 4) α :=
  !![1, 0, 0, v.x;
     0, 1, 0, v.y;
     0, 0, 1, v.z;
     0, 0, 0, 1]

/-- Modelled from the spec: `getViewMatrix()` (`camera.h` is not among the sources): the
look-at transform built from `position`, `position + front` and `up`. -/
def Camera.GetViewMatrix (m : MathOps α) (c : Camera α) : Matrix (Fin 4) (Fin 4) α :=
  lookAt m c.Position (c.Position.add c.Front) c.Up

end View

/-! ## Event sequences -/

section Sequences

variable {α : Type} [LinearOrderedField α]

/-- The scroll events `(xoffset, yoffset)` of a list, delivered in order to
`UMouseScrollCallback`. -/
def scrollEvents (events : List (α × α)) (g : Globals α) : Globals α :=
  events.foldl (fun g e => UMouseScrollCallback e.1 e.2 g) g

/-- The calls `ProcessMouseMovement(xOffset, yOffset)` of a list, made in order with
`constrainPitch = true`. -/
def mouseMoves (m : MathOps α) (moves : List (α × α)) (c : Camera α) : Camera α :=
  moves.foldl (fun c e => c.ProcessMouseMovement m e.1 e.2 true) c

/-- The cursor positions `(xpos, ypos)` of a list, delivered in order to
`UMousePositionCallback`. -/
def cursorEvents [FloatRounding α] (m : MathOps α) (events : List (α × α))
    (g : Globals α) : Globals α :=
  events.foldl (fun g e => UMousePositionCallback m e.1 e.2 g) g

/-- The keys of `UProcessInput` with the direction each one is mapped to, in the order in
which the function tests them. -/
def keyMap : List (Int × Camera_Movement) :=
  [(GLFW_KEY_W, FORWARD), (GLFW_KEY_S, BACKWARD), (GLFW_KEY_A, LEFT),
   (GLFW_KEY_D, RIGHT), (GLFW_KEY_Q, UP), (GLFW_KEY_E, DOWN)]

/-- The unit direction of a movement, as the claim on `ProcessKeyboard` names it. -/
def Camera.direction (c : Camera α) : Camera_Movement → Vec3 α
  | FORWARD => c.Front
  | BACKWARD => c.Front.neg
  | LEFT => c.Right.neg
  | RIGHT => c.Right
  | UP => c.WorldUp
  | DOWN => c.WorldUp.neg

/-- The three vectors are of unit length and pairwise orthogonal. -/
def Orthonormal (m : MathOps α) (a b c : Vec3 α) : Prop :=
  m.length a = 1 ∧ m.length b = 1 ∧ m.length c = 1 ∧
    Vec3.dot a b = 0 ∧ Vec3.dot a c = 0 ∧ Vec3.dot b c = 0

end Sequences

/-! ## The scenario of the specification, over `ℚ` -/

/-- The camera of the concrete scenario: position `(0, 0, 10)`, `yaw = -90`, `pitch = 0`,
`zoom = 45`, looking down the negative z axis; speed `5/2` and sensitivity `1/10` are sample
values. -/
def scenarioCamera : Camera ℚ :=
  { Position := ⟨0, 0, 10⟩
    Front := ⟨0, 0, -1⟩
    Up := ⟨0, 1, 0⟩
    Right := ⟨1, 0, 0⟩
    WorldUp := ⟨0, 1, 0⟩
    Yaw := -90
    Pitch := 0
    MovementSpeed := 5 / 2
    MouseSensitivity := 1 / 10
    Zoom := 45 }

/-- The globals of the scenario: `scenarioCamera` with the initial values of the other
variables. -/
def scenarioGlobals : Globals ℚ :=
  { gCamera := scenarioCamera
    gLastX := 400
    gLastY := 300
    gFirstMouse := true
    gDeltaTime := 0
    gLastFrame := 0
    windowShouldClose := false
    calls := [] }

/-- Sample elementary functions over `ℚ`, exact only at the angles 0 and -90 degrees and at the
square roots of 0 and 1 (`pi` is taken as `2`, so that -90 degrees is the argument -1); they
make the functions that take a `MathOps` executable on rational inputs. -/
def sampleOps : MathOps ℚ :=
  { cos := fun t => if t = 0 then 1 else 0
    sin := fun t => if t = 0 then 0 else if t < 0 then -1 else 1
    sqrt := fun t => t
    pi := 2 }

/-! ## Mesh data and mesh creation -/

section Meshes

variable {α : Type} [LinearOrderedField α]

/-- The array `verts` of `UCreateMeshPlane`, the plane: one row of the source per line, three
position floats and four colour floats. -/
def UCreateMeshPlane.verts : List α :=
  [-2.0, -2.0, -2.0, 0.59, 0.29, 0.0, 1.0,
   2.0, -2.0, -2.0, 0.59, 0.29, 0.0, 1.0,
   2.0, -2.0, 2.0, 0.59, 0.29, 0.0, 1.0,
   2.0, -2.0, 2.0, 0.59, 0.29, 0.0, 1.0,
   -2.0, -2.0, 2.0, 0.59, 0.29, 0.0, 1.0,
   -2.0, -2.0, -2.0, 0.59, 0.29, 0.0, 1.0]

/-- The array `verts` of `UCreateMeshPyr`, the pyramid (pencil tip): one row of the source per
line, three position floats and four colour floats. -/
def UCreateMeshPyr.verts : List α :=
  [-0.5, -0.5, -0.5, 1.0, 1.0, 1.0, 1.0,
   0.5, -0.5, -0.5, 1.0, 1.0, 1.0, 1.0,
   0.0, 0.5, 0.0, 1.0, 1.0, 1.0, 1.0,
   -0.5, -0.5, 0.5, 1.0, 1.0, 1.0, 1.0,
   0.5, -0.5, 0.5, 1.0, 1.0, 1.0, 1.0,
   0.0, 0.5, 0.0, 1.0, 1.0, 1.0, 1.0,
   -0.5, -0.5, -0.5, 1.0, 1.0, 1.0, 1.0,
   -0.5, -0.5, 0.5, 1.0, 1.0, 1.0, 1.0,
   0.0, 0.5, 0.0, 1.0, 1.0, 1.0, 1.0,
   0.5, -0.5, -0.5, 1.0, 1.0, 1.0, 1.0,
   0.5, -0.5, 0.5, 1.0, 1.0, 1.0, 1.0,
   0.0, 0.5, 0.0, 1.0, 1.0, 1.0, 1.0,
   -0.5, -0.5, -0.5, 1.0, 1.0, 1.0, 1.0,
   0.5, -0.5, 0.5, 1.0, 1.0, 1.0, 1.0,
   -0.5, -0.5, 0.5, 1.0, 1.0, 1.0, 1.0,
   0.5, -0.5, -0.5, 1.0, 1.0, 1.0, 1.0,
   -0.5, -0.5, -0.5, 1.0, 1.0, 1.0, 1.0,
   0.5, -0.5, 0.5, 1.0, 1.0, 1.0, 1.0]

/-- The array `verts` of `UCreateMeshCube`, the cube: one row of the source per line, three
position floats and four colour floats. -/
def UCreateMeshCube.verts : List α :=
  [-0.5, -0.5, -0.5, 0.0, 1.0, 0.0, 1.0,
   0.5, -0.5, -0.5, 0.0, 1.0, 0.0, 1.0,
   0.5, 0.5, -0.5, 0.0, 1.0, 0.0, 1.0,
   0.5, 0.5, -0.5, 0.0, 1.0, 0.0, 1.0,
   -0.5, 0.5, -0.5, 0.0, 1.0, 0.0, 1.0,
   -0.5, -0.5, -0.5, 0.0, 1.0, 0.0, 1.0,
   -0.5, -0.5, 0.5, 0.0, 0.0, 1.0, 1.0,
   0.5, -0.5, 0.5, 0.0, 0.0, 1.0, 1.0,
   0.5, 0.5, 0.5, 0.0, 0.0, 1.0, 1.0,
   0.5, 0.5, 0.5, 0.0, 0.0, 1.0, 1.0,
   -0.5, 0.5, 0.5, 0.0, 0.0, 1.0, 1.0,
   -0.5, -0.5, 0.5, 0.0, 0.0, 1.0, 1.0,
   -0.5, 0.5, 0.5, 1.0, 0.0, 1.0, 1.0,
   -0.5, 0.5, -0.5, 1.0, 0.0, 1.0, 1.0,
   -0.5, -0.5, -0.5, 1.0, 0.0, 1.0, 1.0,
   -0.5, -0.5, -0.5, 1.0, 0.0, 1.0, 1.0,
   -0.5, -0.5, 0.5, 1.0, 0.0, 1.0, 1.0,
   -0.5, 0.5, 0.5, 1.0, 0.0, 1.0, 1.0,
   0.5, 0.5, 0.5, 1.0, 0.0, 0.0, 1.0,
   0.5, 0.5, -0.5, 1.0, 0.0, 0.0, 1.0,
   0.5, -0.5, -0.5, 1.0, 0.0, 0.0, 1.0,
   0.5, -0.5, -0.5, 1.0, 0.0, 0.0, 1.0,
   0.5, -0.5, 0.5, 1.0, 0.0, 0.0, 1.0,
   0.5, 0.5, 0.5, 1.0, 0.0, 0.0, 1.0,
   -0.5, -0.5, -0.5, 1.0, 1.0, 1.0, 1.0,
   0.5, -0.5, -0.5, 1.0, 1.0, 1.0, 1.0,
   0.5, -0.5, 0.5, 1.0, 1.0, 1.0, 1.0,
   0.5, -0.5, 0.5, 1.0, 1.0, 1.0, 1.0,
   -0.5, -0.5, 0.5, 1.0, 1.0, 1.0, 1.0,
   -0.5, -0.5, -0.5, 1.0, 1.0, 1.0, 1.0,
   -0.5, 0.5, -0.5, 1.0, 1.0, 0.0, 1.0,
   0.5, 0.5, -0.5, 1.0, 1.0, 0.0, 1.0,
   0.5, 0.5, 0.5, 1.0, 1.0, 0.0, 1.0,
   0.5, 0.5, 0.5, 1.0, 1.0, 0.0, 1.0,
   -0.5, 0.5, 0.5, 1.0, 1.0, 0.0, 1.0,
   -0.5, 0.5, -0.5, 1.0, 1.0, 0.0, 1.0]

/-- The array `verts` of `UCreateMeshRec`, the box `Rec` (tablet): one row of the source per line, three
position floats and four colour floats. -/
def UCreateMeshRec.verts : List α :=
  [-0.5, -0.25, -0.5, 0.33, 0.33, 0.33, 1.0,
   0.5, -0.25, -0.5, 0.33, 0.33, 0.33, 1.0,
   0.5, 0.25, -0.5, 0.33, 0.33, 0.33, 1.0,
   0.5, 0.25, -0.5, 0.33, 0.33, 0.33, 1.0,
   -0.5, 0.25, -0.5, 0.33, 0.33, 0.33, 1.0,
   -0.5, -0.25, -0.5, 0.33, 0.33, 0.33, 1.0,
   -0.5, -0.25, 0.5, 0.33, 0.33, 0.33, 1.0,
   0.5, -0.25, 0.5, 0.33, 0.33, 0.33, 1.0,
   0.5, 0.25, 0.5, 0.33, 0.33, 0.33, 1.0,
   0.5, 0.25, 0.5, 0.33, 0.33, 0.33, 1.0,
   -0.5, 0.25, 0.5, 0.33, 0.33, 0.33, 1.0,
   -0.5, -0.25, 0.5, 0.33, 0.33, 0.33, 1.0,
   -0.5, 0.25, 0.5, 0.33, 0.33, 0.33, 1.0,
   -0.5, 0.25, -0.5, 0.33, 0.33, 0.33, 1.0,
   -0.5, -0.25, -0.5, 0.33, 0.33, 0.33, 1.0,
   -0.5, -0.25, -0.5, 0.33, 0.33, 0.33, 1.0,
   -0.5, -0.25, 0.5, 0.33, 0.33, 0.33, 1.0,
   -0.5, 0.25, 0.5, 0.33, 0.33, 0.33, 1.0,
   0.5, 0.25, 0.5, 0.33, 0.33, 0.33, 1.0,
   0.5, 0.25, -0.5, 0.33, 0.33, 0.33, 1.0,
   0.5, -0.25, -0.5, 0.33, 0.33, 0.33, 1.0,
   0.5, -0.25, -0.5, 0.33, 0.33, 0.33, 1.0,
   0.5, -0.25, 0.5, 0.33, 0.33, 0.33, 1.0,
   0.5, 0.25, 0.5, 0.33, 0.33, 0.33, 1.0,
   -0.5, -0.25, -0.5, 0.33, 0.33, 0.33, 1.0,
   0.5, -0.25, -0.5, 0.33, 0.33, 0.33, 1.0,
   0.5, -0.25, 0.5, 0.33, 0.33, 0.33, 1.0,
   0.5, -0.25, 0.5, 0.33, 0.33, 0.33, 1.0,
   -0.5, -0.25, 0.5, 0.33, 0.33, 0.33, 1.0,
   -0.5, -0.25, -0.5, 0.33, 0.33, 0.33, 1.0,
   -0.5, 0.25, -0.5, 0.0, 0.0, 0.0, 1.0,
   0.5, 0.25, -0.5, 0.0, 0.0, 0.0, 1.0,
   0.5, 0.25, 0.5, 0.0, 0.0, 0.0, 1.0,
   0.5, 0.25, 0.5, 0.0, 0.0, 0.0, 1.0,
   -0.5, 0.25, 0.5, 0.0, 0.0, 0.0, 1.0,
   -0.5, 0.25, -0.5, 0.0, 0.0, 0.0, 1.0]

/-- The array `verts` of `UCreateMeshRec2`, the box `Rec2` (pencil body): one row of the source per
line, three position floats and four colour floats. -/
def UCreateMeshRec2.verts : List α :=
  [-0.5, -0.25, -0.5, 1.0, 1.0, 1.0, 1.0,
   0.5, -0.25, -0.5, 1.0, 1.0, 1.0, 1.0,
   0.5, 0.25, -0.5, 1.0, 1.0, 1.0, 1.0,
   0.5, 0.25, -0.5, 1.0, 1.0, 1.0, 1.0,
   -0.5, 0.25, -0.5, 1.0, 1.0, 1.0, 1.0,
   -0.5, -0.25, -0.5, 1.0, 1.0, 1.0, 1.0,
   -0.5, -0.25, 0.5, 1.0, 1.0, 1.0, 1.0,
   0.5, -0.25, 0.5, 1.0, 1.0, 1.0, 1.0,
   0.5, 0.25, 0.5, 1.0, 1.0, 1.0, 1.0,
   0.5, 0.25, 0.5, 1.0, 1.0, 1.0, 1.0,
   -0.5, 0.25, 0.5, 1.0, 1.0, 1.0, 1.0,
   -0.5, -0.25, 0.5, 1.0, 1.0, 1.0, 1.0,
   -0.5, 0.25, 0.5, 1.0, 1.0, 1.0, 1.0,
   -0.5, 0.25, -0.5, 1.0, 1.0, 1.0, 1.0,
   -0.5, -0.25, -0.5, 1.0, 1.0, 1.0, 1.0,
   -0.5, -0.25, -0.5, 1.0, 1.0, 1.0, 1.0,
   -0.5, -0.25, 0.5, 1.0, 1.0, 1.0, 1.0,
   -0.5, 0.25, 0.5, 1.0, 1.0, 1.0, 1.0,
   0.5, 0.25, 0.5, 1.0, 1.0, 1.0, 1.0,
   0.5, 0.25, -0.5, 1.0, 1.0, 1.0, 1.0,
   0.5, -0.25, -0.5, 1.0, 1.0, 1.0, 1.0,
   0.5, -0.25, -0.5, 1.0, 1.0, 1.0, 1.0,
   0.5, -0.25, 0.5, 1.0, 1.0, 1.0, 1.0,
   0.5, 0.25, 0.5, 1.0, 1.0, 1.0, 1.0,
   -0.5, -0.25, -0.5, 1.0, 1.0, 1.0, 1.0,
   0.5, -0.25, -0.5, 1.0, 1.0, 1.0, 1.0,
   0.5, -0.25, 0.5, 1.0, 1.0, 1.0, 1.0,
   0.5, -0.25, 0.5, 1.0, 1.0, 1.0, 1.0,
   -0.5, -0.25, 0.5, 1.0, 1.0, 1.0, 1.0,
   -0.5, -0.25, -0.5, 1.0, 1.0, 1.0, 1.0,
   -0.5, 0.25, -0.5, 1.0, 1.0, 1.0, 1.0,
   0.5, 0.25, -0.5, 1.0, 1.0, 1.0, 1.0,
   0.5, 0.25, 0.5, 1.0, 1.0, 1.0, 1.0,
   0.5, 0.25, 0.5, 1.0, 1.0, 1.0, 1.0,
   -0.5, 0.25, 0.5, 1.0, 1.0, 1.0, 1.0,
   -0.5, 0.25, -0.5, 1.0, 1.0, 1.0, 1.0]

/-- The array `verts` of `UCreateMeshRec3`, the box `Rec3` (earphone case): one row of the source
per line, three position floats and four colour floats. -/
def UCreateMeshRec3.verts : List α :=
  [-0.5, -0.25, -0.5, 1.0, 1.0, 1.0, 1.0,
   0.5, -0.25, -0.5, 1.0, 1.0, 1.0, 1.0,
   0.5, 0.25, -0.5, 1.0, 1.0, 1.0, 1.0,
   0.5, 0.25, -0.5, 1.0, 1.0, 1.0, 1.0,
   -0.5, 0.25, -0.5, 1.0, 1.0, 1.0, 1.0,
   -0.5, -0.25, -0.5, 1.0, 1.0, 1.0, 1.0,
   -0.5, -0.25, 0.5, 1.0, 1.0, 1.0, 1.0,
   0.5, -0.25, 0.5, 1.0, 1.0, 1.0, 1.0,
   0.5, 0.25, 0.5, 1.0, 1.0, 1.0, 1.0,
   0.5, 0.25, 0.5, 1.0, 1.0, 1.0, 1.0,
   -0.5, 0.25, 0.5, 1.0, 1.0, 1.0, 1.0,
   -0.5, -0.25, 0.5, 1.0, 1.0, 1.0, 1.0,
   -0.5, 0.25, 0.5, 1.0, 1.0, 1.0, 1.0,
   -0.5, 0.25, -0.5, 1.0, 1.0, 1.0, 1.0,
   -0.5, -0.25, -0.5, 1.0, 1.0, 1.0, 1.0,
   -0.5, -0.25, -0.5, 1.0, 1.0, 1.0, 1.0,
   -0.5, -0.25, 0.5, 1.0, 1.0, 1.0, 1.0,
   -0.5, 0.25, 0.5, 1.0, 1.0, 1.0, 1.0,
   0.5, 0.25, 0.5, 1.0, 1.0, 1.0, 1.0,
   0.5, 0.25, -0.5, 1.0, 1.0, 1.0, 1.0,
   0.5, -0.25, -0.5, 1.0, 1.0, 1.0, 1.0,
   0.5, -0.25, -0.5, 1.0, 1.0, 1.0, 1.0,
   0.5, -0.25, 0.5, 1.0, 1.0, 1.0, 1.0,
   0.5, 0.25, 0.5, 1.0, 1.0, 1.0, 1.0,
   -0.5, -0.25, -0.5, 1.0, 1.0, 1.0, 1.0,
   0.5, -0.25, -0.5, 1.0, 1.0, 1.0, 1.0,
   0.5, -0.25, 0.5, 1.0, 1.0, 1.0, 1.0,
   0.5, -0.25, 0.5, 1.0, 1.0, 1.0, 1.0,
   -0.5, -0.25, 0.5, 1.0, 1.0, 1.0, 1.0,
   -0.5, -0.25, -0.5, 1.0, 1.0, 1.0, 1.0,
   -0.5, 0.25, -0.5, 1.0, 1.0, 1.0, 1.0,
   0.5, 0.25, -0.5, 1.0, 1.0, 1.0, 1.0,
   0.5, 0.25, 0.5, 1.0, 1.0, 1.0, 1.0,
   0.5, 0.25, 0.5, 1.0, 1.0, 1.0, 1.0,
   -0.5, 0.25, 0.5, 1.0, 1.0, 1.0, 1.0,
   -0.5, 0.25, -0.5, 1.0, 1.0, 1.0, 1.0]

/-- The struct `GLMesh`: six vertex-array handles, six buffer handles and the vertex count. -/
structure GLMesh where
  vaoPlane : Nat := 0
  vaoPyr : Nat := 0
  vaoCube : Nat := 0
  vaoRec : Nat := 0
  vaoRec2 : Nat := 0
  vaoRec3 : Nat := 0
  vboPlane : Nat := 0
  vboPyr : Nat := 0
  vboCube : Nat := 0
  vboRec : Nat := 0
  vboRec2 : Nat := 0
  vboRec3 : Nat := 0
  nVertices : Nat := 0
deriving DecidableEq, Repr

/-- The two shader kinds, `GL_VERTEX_SHADER` and `GL_FRAGMENT_SHADER`. -/
inductive ShaderKind where
  | GL_VERTEX_SHADER
  | GL_FRAGMENT_SHADER
deriving DecidableEq, Repr

/-- The uniform matrices of the shader program, by name. -/
inductive Uniform where
  | model
  | view
  | projection
deriving DecidableEq, Repr

/-- The OpenGL (and buffer-swap) calls of `Source.cpp`, with the arguments that vary. Object
names returned by `glGen*` and `glCreate*` are carried as arguments; `glDrawArrays` is always
called with `GL_TRIANGLES`, `glVertexAttribPointer` with `GL_FLOAT`, and
`uniformMatrix4fv name value` stands for `glGetUniformLocation` and `glUniformMatrix4fv`. -/
inductive GLCommand (α : Type) where
  | createProgram (program : Nat)
  | createShader (kind : ShaderKind) (shader : Nat)
  | shaderSource (shader : Nat)
  | compileShader (shader : Nat)
  | attachShader (program shader : Nat)
  | linkProgram (program : Nat)
  | useProgram (program : Nat)
  | genVertexArrays (vao : Nat)
  | bindVertexArray (vao : Nat)
  | genBuffers (vbo : Nat)
  | bindBuffer (vbo : Nat)
  | bufferData (size : Nat) (data : List α)
  | vertexAttribPointer (index size stride offset : Nat)
  | enableVertexAttribArray (index : Nat)
  | enableDepthTest
  | clearColor (r g b a : α)
  | clear (color depth : Bool)
  | uniformMatrix4fv (name : Uniform) (value : Matrix (Fin 4) (Fin 4) α)
  | drawArrays (first count : Nat)
  | viewport (x y width height : Int)
  | swapBuffers
  | deleteVertexArrays (vao : Nat)
  | deleteBuffers (vbo : Nat)
  | deleteProgram (program : Nat)

/-- The size of a `float` in bytes, `sizeof(float)`. -/
def sizeofFloat : Nat := 4

/-- The constant `floatsPerVertex` of the mesh functions. -/
def floatsPerVertex : Nat := 3

/-- The constant `floatsPerColor` of the mesh functions. -/
def floatsPerColor : Nat := 4

/-- The size in bytes of an array of floats, `sizeof(verts)`. -/
def sizeofVerts (verts : List α) : Nat := sizeofFloat * verts.length

/-- The vertex count the mesh functions compute,
`sizeof(verts) / (sizeof(verts[0]) * (floatsPerVertex + floatsPerColor))`. -/
def vertexCount (verts : List α) : Nat :=
  sizeofVerts verts / (sizeofFloat * (floatsPerVertex + floatsPerColor))

/-- The stride of the mesh functions, `sizeof(float) * (floatsPerVertex + floatsPerColor)`. -/
def stride : Nat := sizeofFloat * (floatsPerVertex + floatsPerColor)

/-- The OpenGL calls that every `UCreateMesh*` function makes after computing `nVertices`, for
the generated names `vao` and `vbo`: generate and bind the vertex array, generate and bind the
buffer, upload `verts`, and set up attribute 0 (position) and attribute 1 (colour). -/
def uploadCommands (vao vbo : Nat) (verts : List α) : List (GLCommand α) :=
  [GLCommand.genVertexArrays vao,
   GLCommand.bindVertexArray vao,
   GLCommand.genBuffers vbo,
   GLCommand.bindBuffer vbo,
   GLCommand.bufferData (sizeofVerts verts) verts,
   GLCommand.vertexAttribPointer 0 floatsPerVertex stride 0,
   GLCommand.enableVertexAttribArray 0,
   GLCommand.vertexAttribPointer 1 floatsPerColor stride (sizeofFloat * floatsPerVertex),
   GLCommand.enableVertexAttribArray 1]

/-- The function `UCreateMeshPlane`; `vao` and `vbo` are the names OpenGL generates. -/
def UCreateMeshPlane (vao vbo : Nat) (meshPlane : GLMesh) : GLMesh × List (GLCommand α) :=
  let verts : List α := UCreateMeshPlane.verts
  ({ meshPlane with nVertices := vertexCount verts, vaoPlane := vao, vboPlane := vbo },
   uploadCommands vao vbo verts)

/-- The function `UCreateMeshPyr`; `vao` and `vbo` are the names OpenGL generates. -/
def UCreateMeshPyr (vao vbo : Nat) (meshPyr : GLMesh) : GLMesh × List (GLCommand α) :=
  let verts : List α := UCreateMeshPyr.verts
  ({ meshPyr with nVertices := vertexCount verts, vaoPyr := vao, vboPyr := vbo },
   uploadCommands vao vbo verts)

/-- The function `UCreateMeshCube`; `vao` and `vbo` are the names OpenGL generates. -/
def UCreateMeshCube (vao vbo : Nat) (meshCube : GLMesh) : GLMesh × List (GLCommand α) :=
  let verts : List α := UCreateMeshCube.verts
  ({ meshCube with nVertices := vertexCount verts, vaoCube := vao, vboCube := vbo },
   uploadCommands vao vbo verts)

/-- The function `UCreateMeshRec`; `vao` and `vbo` are the names OpenGL generates. -/
def UCreateMeshRec (vao vbo : Nat) (meshRec : GLMesh) : GLMesh × List (GLCommand α) :=
  let verts : List α := UCreateMeshRec.verts
  ({ meshRec with nVertices := vertexCount verts, vaoRec := vao, vboRec := vbo },
   uploadCommands vao vbo verts)

/-- The function `UCreateMeshRec2`; `vao` and `vbo` are the names OpenGL generates. -/
def UCreateMeshRec2 (vao vbo : Nat) (meshRec2 : GLMesh) : GLMesh × List (GLCommand α) :=
  let verts : List α := UCreateMeshRec2.verts
  ({ meshRec2 with nVertices := vertexCount verts, vaoRec2 := vao, vboRec2 := vbo },
   uploadCommands vao vbo verts)

/-- The function `UCreateMeshRec3`; `vao` and `vbo` are the names OpenGL generates. -/
def UCreateMeshRec3 (vao vbo : Nat) (meshRec3 : GLMesh) : GLMesh × List (GLCommand α) :=
  let verts : List α := UCreateMeshRec3.verts
  ({ meshRec3 with nVertices := vertexCount verts, vaoRec3 := vao, vboRec3 := vbo },
   uploadCommands vao vbo verts)

end Meshes

/-! ## Program state, rendering and the main loop -/

section Program

variable {α : Type} [LinearOrderedField α]

/-- The state of the running program: the globals read and written by the input code, the six
mesh globals, `gProgramId`, and three ghost fields: the OpenGL calls made so far (`gl`), the
lines written to the output streams (`out`), and the number of completed iterations of the
render loop. -/
structure App (α : Type) where
  globals : Globals α
  gMeshPlane : GLMesh
  gMeshPyr : GLMesh
  gMeshCube : GLMesh
  gMeshRec : GLMesh
  gMeshRec2 : GLMesh
  gMeshRec3 : GLMesh
  gProgramId : Nat
  gl : List (GLCommand α)
  out : List String
  iterations : Nat

/-- The program state before `main` runs: globals as initialized, zeroed meshes and program id,
nothing issued or printed. -/
def App.init (m : MathOps α) (speed sensitivity : α) : App α :=
  { globals := Globals.init m speed sensitivity
    gMeshPlane := {}
    gMeshPyr := {}
    gMeshCube := {}
    gMeshRec := {}
    gMeshRec2 := {}
    gMeshRec3 := {}
    gProgramId := 0
    gl := []
    out := []
    iterations := 0 }

/-- The given OpenGL calls, made in order. -/
def App.emit (commands : List (GLCommand α)) (s : App α) : App α :=
  { s with gl := s.gl ++ commands }

/-- A line written to `std::cout` or `std::cerr`. -/
def App.print (line : String) (s : App α) : App α :=
  { s with out := s.out ++ [line] }

/-- The scaling matrix `glm::scale(v)`, in (row, column) layout. -/
def scale (v : Vec3 α) : Matrix (Fin 4) (Fin 4) α :=
  !![v.x, 0, 0, 0;
     0, v.y, 0, 0;
     0, 0, v.z, 0;
     0, 0, 0, 1]

/-- The rotation matrix `glm::rotate(angle, v)` (angle in radians, axis normalized by the
function), in (row, column) layout. -/
def rotate (m : MathOps α) (angle : α) (v : Vec3 α) : Matrix (Fin 4) (Fin 4) α :=
  let c := m.cos angle
  let s := m.sin angle
  let axis := m.normalize v
  let temp := axis.scale (1 - c)
  !![c + temp.x * axis.x, temp.y * axis.x - s * axis.z, temp.z * axis.x + s * axis.y, 0;
     temp.x * axis.y + s * axis.z, c + temp.y * axis.y, temp.z * axis.y - s * axis.x, 0;
     temp.x * axis.z - s * axis.y, temp.y * axis.z + s * axis.x, c + temp.z * axis.z, 0;
     0, 0, 0, 1]

/-- The right-handed projection matrix `glm::perspective(fovy, aspect, zNear, zFar)` with depth
range -1 to 1, in (row, column) layout; the tangent is taken as sine over cosine. -/
def perspective (m : MathOps α) (fovy aspect zNear zFar : α) : Matrix (Fin 4) (Fin 4) α :=
  let tanHalfFovy := m.sin (fovy / 2) / m.cos (fovy / 2)
  !![1 / (aspect * tanHalfFovy), 0, 0, 0;
     0, 1 / tanHalfFovy, 0, 0;
     0, 0, -(zFar + zNear) / (zFar - zNear), -(2 * zFar * zNear) / (zFar - zNear);
     0, 0, -1, 0]

/-- The part that the six render functions have in common, after `glEnable(GL_DEPTH_TEST)`
(and the clear): the model matrix `translation * rotation * scale`, the view matrix of
`gCamera`, the perspective projection with field of view `gCamera.Zoom` and aspect
`WINDOW_WIDTH / WINDOW_HEIGHT`, then `glUseProgram`, the three uniform uploads, the bind of
the vertex array and the draw call. -/
def drawObject (m : MathOps α) (scaleBy : Vec3 α) (angle : α) (axis position : Vec3 α)
    (vao nVertices : Nat) (s : App α) : App α :=
  let scale := scale scaleBy
  let rotation := rotate m angle axis
  let translation := translate position
  let model := translation * rotation * scale
  let view := s.globals.gCamera.GetViewMatrix m
  let projection :=
    perspective m (m.radians s.globals.gCamera.Zoom)
      ((WINDOW_WIDTH : α) / (WINDOW_HEIGHT : α)) 0.1 100
  s.emit
    [GLCommand.useProgram s.gProgramId,
     GLCommand.uniformMatrix4fv Uniform.model model,
     GLCommand.uniformMatrix4fv Uniform.view view,
     GLCommand.uniformMatrix4fv Uniform.projection projection,
     GLCommand.bindVertexArray vao,
     GLCommand.drawArrays 0 nVertices]

/-- The function `URenderPlane`. -/
def URenderPlane (m : MathOps α) (s : App α) : App α :=
  let s := s.emit
    [GLCommand.enableDepthTest, GLCommand.clearColor 0 0 0 1, GLCommand.clear true true]
  drawObject m ⟨2.0, 2.0, 2.0⟩ 0.0 ⟨1.0, 1.0, 1.0⟩ ⟨0.0, 0.0, 0.0⟩
    s.gMeshPlane.vaoPlane s.gMeshPlane.nVertices s

/-- The function `URenderPyr`. -/
def URenderPyr (m : MathOps α) (s : App α) : App α :=
  let s := s.emit [GLCommand.enableDepthTest]
  drawObject m ⟨0.25, 0.5, 0.25⟩ 45.5 ⟨1.0, 0.0, 0.0⟩ ⟨-2.5, -3.86, 2.0⟩
    s.gMeshPyr.vaoPyr s.gMeshPyr.nVertices s

/-- The function `URenderCube`. -/
def URenderCube (m : MathOps α) (s : App α) : App α :=
  let s := s.emit [GLCommand.enableDepthTest]
  drawObject m ⟨1.0, 1.0, 1.0⟩ 10.0 ⟨0.0, 1.0, 0.0⟩ ⟨2.5, -3.5, -1.0⟩
    s.gMeshCube.vaoCube s.gMeshCube.nVertices s

/-- The function `URenderRec`. -/
def URenderRec (m : MathOps α) (s : App α) : App α :=
  let s := s.emit [GLCommand.enableDepthTest]
  drawObject m ⟨3.0, 0.5, 5.0⟩ 0.0 ⟨1.0, 1.0, 1.0⟩ ⟨0.0, -3.9, 0.0⟩
    s.gMeshRec.vaoRec s.gMeshRec.nVertices s

/-- The function `URenderRec2`. -/
def URenderRec2 (m : MathOps α) (s : App α) : App α :=
  let s := s.emit [GLCommand.enableDepthTest]
  drawObject m ⟨0.25, 0.5, 3.0⟩ 0.0 ⟨1.0, 1.0, 1.0⟩ ⟨-2.5, -3.88, 0.25⟩
    s.gMeshRec2.vaoRec2 s.gMeshRec2.nVertices s

/-- The function `URenderRec3`, which ends the frame: unbind the vertex array and swap the
buffers. -/
def URenderRec3 (m : MathOps α) (s : App α) : App α :=
  let s := s.emit [GLCommand.enableDepthTest]
  let s := drawObject m ⟨0.65, 0.65, 1.2⟩ 10.0 ⟨0.0, 1.0, 0.0⟩ ⟨2.5, -3.84, 0.78⟩
    s.gMeshRec3.vaoRec3 s.gMeshRec3.nVertices s
  s.emit [GLCommand.bindVertexArray 0, GLCommand.swapBuffers]

/-- The six render calls of one iteration of the loop, in the order of `main`. -/
def renderAll (m : MathOps α) (s : App α) : App α :=
  URenderRec3 m (URenderRec2 m (URenderRec m (URenderCube m (URenderPyr m (URenderPlane m s)))))

/-- The function `UResizeWindow`. -/
def UResizeWindow (width height : Int) (s : App α) : App α :=
  s.emit [GLCommand.viewport 0 0 width height]

/-- Button code `GLFW_MOUSE_BUTTON_LEFT`. -/
def GLFW_MOUSE_BUTTON_LEFT : Int := 0
/-- Button code `GLFW_MOUSE_BUTTON_RIGHT`. -/
def GLFW_MOUSE_BUTTON_RIGHT : Int := 1
/-- Button code `GLFW_MOUSE_BUTTON_MIDDLE`. -/
def GLFW_MOUSE_BUTTON_MIDDLE : Int := 2
/-- Action code `GLFW_PRESS`. -/
def GLFW_PRESS : Int := 1

/-- The function `UMouseButtonCallback`. -/
def UMouseButtonCallback (button action _mods : Int) (s : App α) : App α :=
  if button = GLFW_MOUSE_BUTTON_LEFT then
    if action = GLFW_PRESS then s.print "Left mouse button pressed"
    else s.print "Left mouse button released"
  else if button = GLFW_MOUSE_BUTTON_MIDDLE then
    if action = GLFW_PRESS then s.print "Middle mouse button pressed"
    else s.print "Middle mouse button released"
  else if button = GLFW_MOUSE_BUTTON_RIGHT then
    if action = GLFW_PRESS then s.print "Right mouse button pressed"
    else s.print "Right mouse button released"
  else s.print "Unhandled mouse button event"

/-- An event that `glfwPollEvents` delivers: to one of the four callbacks that `UInitialize`
registers, or a request to close the window, which sets its should-close flag. -/
inductive Event (α : Type) where
  | cursorPos (xpos ypos : α)
  | scroll (xoffset yoffset : α)
  | framebufferSize (width height : Int)
  | mouseButton (button action mods : Int)
  | windowClose

/-- The callback that an event is dispatched to. -/
def dispatch [FloatRounding α] (m : MathOps α) (e : Event α) (s : App α) : App α :=
  match e with
  | Event.cursorPos xpos ypos =>
    { s with globals := UMousePositionCallback m xpos ypos s.globals }
  | Event.scroll xoffset yoffset =>
    { s with globals := UMouseScrollCallback xoffset yoffset s.globals }
  | Event.framebufferSize width height => UResizeWindow width height s
  | Event.mouseButton button action mods => UMouseButtonCallback button action mods s
  | Event.windowClose => { s with globals := { s.globals with windowShouldClose := true } }

/-- The call `glfwPollEvents()`: the pending events, dispatched in order. -/
def glfwPollEvents [FloatRounding α] (m : MathOps α) (events : List (Event α))
    (s : App α) : App α :=
  events.foldl (fun s e => dispatch m e s) s

/-- What the environment supplies to one iteration of the render loop: the value of
`glfwGetTime()`, the key states seen by `glfwGetKey`, and the events of `glfwPollEvents`. -/
structure FrameInput (α : Type) where
  currentFrame : α
  pressed : Int → Bool
  events : List (Event α)

/-- The per-frame timing statements of the loop body, for the value `time` that
`glfwGetTime()` returns: `float currentFrame = glfwGetTime()` converts the `double` to `float`,
and `gDeltaTime = currentFrame - gLastFrame` is a `float` subtraction, rounded to `float`. -/
def frameTiming [FloatRounding α] (time : α) (g : Globals α) : Globals α :=
  let currentFrame := toFloat time
  { g with gDeltaTime := toFloat (currentFrame - g.gLastFrame), gLastFrame := currentFrame }

/-- The state in which the render calls of an iteration start: after the timing statements
and `UProcessInput`. -/
def frameInput [FloatRounding α] (f : FrameInput α) (s : App α) : App α :=
  { s with globals := UProcessInput f.pressed (frameTiming f.currentFrame s.globals) }

/-- One iteration of the render loop: timing, `UProcessInput`, the six render calls,
`glfwPollEvents`. -/
def frame [FloatRounding α] (m : MathOps α) (f : FrameInput α) (s : App α) : App α :=
  let s := frameInput f s
  let s := renderAll m s
  let s := glfwPollEvents m f.events s
  { s with iterations := s.iterations + 1 }

/-- The render loop `while (!glfwWindowShouldClose(gWindow))`, run on the inputs of the
successive iterations; it stops when the window is flagged to close or the inputs end. -/
def renderLoop [FloatRounding α] (m : MathOps α) : List (FrameInput α) → App α → App α
  | [], s => s
  | f :: rest, s => if s.globals.windowShouldClose then s else renderLoop m rest (frame m f s)

end Program

/-! ## Initialization, shader program and `main` -/

section Main

variable {α : Type} [LinearOrderedField α]

/-- What the platform decides during start-up: whether the window is created, whether
`glewInit` succeeds, whether each shader compiles and the program links, the object names that
OpenGL hands out, and the texts it reports. -/
structure Env where
  windowCreated : Bool
  glewInitOk : Bool
  vertexCompiled : Bool
  fragmentCompiled : Bool
  linked : Bool
  programId : Nat
  vertexShaderId : Nat
  fragmentShaderId : Nat
  vaoPlane : Nat
  vboPlane : Nat
  vaoPyr : Nat
  vboPyr : Nat
  vaoCube : Nat
  vboCube : Nat
  vaoRec : Nat
  vboRec : Nat
  vaoRec2 : Nat
  vboRec2 : Nat
  vaoRec3 : Nat
  vboRec3 : Nat
  glewErrorString : String
  glVersion : String
  infoLog : String

/-- Exit status `EXIT_FAILURE`. -/
def EXIT_FAILURE : Int := 1

/-- Exit status `EXIT_SUCCESS`. -/
def EXIT_SUCCESS : Int := 0

/-- The function `UInitialize`: its return value and the state it leaves. The GLFW calls that
configure the window and register the callbacks have no effect on the modelled state. -/
def UInitialize (env : Env) (s : App α) : Bool × App α :=
  if !env.windowCreated then
    (false, s.print "Failed to create GLFW window")
  else if !env.glewInitOk then
    (false, s.print env.glewErrorString)
  else
    (true, s.print ("INFO: OpenGL Version: " ++ env.glVersion))

/-- The function `UCreateShaderProgram`, called with `gProgramId` as `programId`: its return
value and the state it leaves. -/
def UCreateShaderProgram (env : Env) (s : App α) : Bool × App α :=
  let s := { s with gProgramId := env.programId }
  let s := s.emit
    [GLCommand.createProgram env.programId,
     GLCommand.createShader ShaderKind.GL_VERTEX_SHADER env.vertexShaderId,
     GLCommand.createShader ShaderKind.GL_FRAGMENT_SHADER env.fragmentShaderId,
     GLCommand.shaderSource env.vertexShaderId,
     GLCommand.shaderSource env.fragmentShaderId,
     GLCommand.compileShader env.vertexShaderId]
  if !env.vertexCompiled then
    (false, s.print ("ERROR::SHADER::VERTEX::COMPILATION_FAILED\n" ++ env.infoLog))
  else
    let s := s.emit [GLCommand.compileShader env.fragmentShaderId]
    if !env.fragmentCompiled then
      (false, s.print ("ERROR::SHADER::FRAGMENT::COMPILATION_FAILED\n" ++ env.infoLog))
    else
      let s := s.emit
        [GLCommand.attachShader env.programId env.vertexShaderId,
         GLCommand.attachShader env.programId env.fragmentShaderId,
         GLCommand.linkProgram env.programId]
      if !env.linked then
        (false, s.print ("ERROR::SHADER::PROGRAM::LINKING_FAILED\n" ++ env.infoLog))
      else
        (true, s.emit [GLCommand.useProgram env.programId])

/-- The six `UCreateMesh*` calls of `main`, in order. -/
def createMeshes (env : Env) (s : App α) : App α :=
  let r := UCreateMeshPlane env.vaoPlane env.vboPlane s.gMeshPlane
  let s := { s with gMeshPlane := r.1, gl := s.gl ++ r.2 }
  let r := UCreateMeshPyr env.vaoPyr env.vboPyr s.gMeshPyr
  let s := { s with gMeshPyr := r.1, gl := s.gl ++ r.2 }
  let r := UCreateMeshCube env.vaoCube env.vboCube s.gMeshCube
  let s := { s with gMeshCube := r.1, gl := s.gl ++ r.2 }
  let r := UCreateMeshRec env.vaoRec env.vboRec s.gMeshRec
  let s := { s with gMeshRec := r.1, gl := s.gl ++ r.2 }
  let r := UCreateMeshRec2 env.vaoRec2 env.vboRec2 s.gMeshRec2
  let s := { s with gMeshRec2 := r.1, gl := s.gl ++ r.2 }
  let r := UCreateMeshRec3 env.vaoRec3 env.vboRec3 s.gMeshRec3
  { s with gMeshRec3 := r.1, gl := s.gl ++ r.2 }

/-- The six `UDestroyMesh*` calls and `UDestroyShaderProgram`, in the order of `main`. -/
def destroyAll (s : App α) : App α :=
  s.emit
    [GLCommand.deleteVertexArrays s.gMeshPlane.vaoPlane,
     GLCommand.deleteBuffers s.gMeshPlane.vboPlane,
     GLCommand.deleteVertexArrays s.gMeshPyr.vaoPyr,
     GLCommand.deleteBuffers s.gMeshPyr.vboPyr,
     GLCommand.deleteVertexArrays s.gMeshCube.vaoCube,
     GLCommand.deleteBuffers s.gMeshCube.vboCube,
     GLCommand.deleteVertexArrays s.gMeshRec.vaoRec,
     GLCommand.deleteBuffers s.gMeshRec.vboRec,
     GLCommand.deleteVertexArrays s.gMeshRec2.vaoRec2,
     GLCommand.deleteBuffers s.gMeshRec2.vboRec2,
     GLCommand.deleteVertexArrays s.gMeshRec3.vaoRec3,
     GLCommand.deleteBuffers s.gMeshRec3.vboRec3,
     GLCommand.deleteProgram s.gProgramId]

/-- The result of running `main` on finitely many loop inputs: the final state, and the exit
status, or `none` when the loop is still running after the last input. -/
structure Run (α : Type) where
  app : App α
  status : Option Int

/-- The function `main`, for a camera with the given speed and sensitivity. -/
def main [FloatRounding α] (m : MathOps α) (speed sensitivity : α) (env : Env)
    (frames : List (FrameInput α)) : Run α :=
  let s := App.init m speed sensitivity
  let r := UInitialize env s
  if !r.1 then ⟨r.2, some EXIT_FAILURE⟩
  else
    let s := createMeshes env r.2
    let r := UCreateShaderProgram env s
    if !r.1 then ⟨r.2, some EXIT_FAILURE⟩
    else
      let s := r.2.emit [GLCommand.clearColor 0.0 0.0 0.0 1.0]
      let s := renderLoop m frames s
      if s.globals.windowShouldClose then ⟨destroyAll s, some EXIT_SUCCESS⟩
      else ⟨s, none⟩

end Main

/-! ## Views of the command list -/

section Views

variable {α : Type} [LinearOrderedField α]

/-- Whether a command is `glClear`, `glBindVertexArray`, `glDrawArrays` or the buffer swap. -/
def GLCommand.isDrawStep : GLCommand α → Bool
  | GLCommand.clear _ _ => true
  | GLCommand.bindVertexArray _ => true
  | GLCommand.drawArrays _ _ => true
  | GLCommand.swapBuffers => true
  | _ => false

/-- The matrix that a command uploads to the given uniform, if it is such an upload. -/
def GLCommand.upload (name : Uniform) : GLCommand α → Option (Matrix (Fin 4) (Fin 4) α)
  | GLCommand.uniformMatrix4fv name2 value => if name2 = name then some value else none
  | _ => none

/-- The view matrices uploaded by a list of commands, in order. -/
def viewUploads (commands : List (GLCommand α)) : List (Matrix (Fin 4) (Fin 4) α) :=
  commands.filterMap (GLCommand.upload Uniform.view)

/-- The projection matrices uploaded by a list of commands, in order. -/
def projectionUploads (commands : List (GLCommand α)) : List (Matrix (Fin 4) (Fin 4) α) :=
  commands.filterMap (GLCommand.upload Uniform.projection)

/-- The model matrices uploaded by a list of commands, in order. -/
def modelUploads (commands : List (GLCommand α)) : List (Matrix (Fin 4) (Fin 4) α) :=
  commands.filterMap (GLCommand.upload Uniform.model)

/-- Whether a command is `glCompileShader`, `glLinkProgram` or `glUseProgram`. -/
def GLCommand.isBuildStep : GLCommand α → Bool
  | GLCommand.compileShader _ => true
  | GLCommand.linkProgram _ => true
  | GLCommand.useProgram _ => true
  | _ => false

/-- The bytes `[first, first + count)` of a buffer. -/
def byteRange (first count : Nat) : List Nat := List.range' first count

/-- The bytes that an attribute set up by `glVertexAttribPointer(index, size, GL_FLOAT,
GL_FALSE, stride, offset)` reads for vertex `i`: `size` floats starting at
`offset + stride * i`. -/
def attribBytes (size stride offset i : Nat) : List Nat :=
  byteRange (offset + stride * i) (sizeofFloat * size)

/-- The position of vertex `i` in an array of interleaved vertex data. -/
def vertexPosition (verts : List α) (i : Nat) : Vec3 α :=
  ⟨verts.getD (7 * i) 0, verts.getD (7 * i + 1) 0, verts.getD (7 * i + 2) 0⟩

/-- The image of a point under a 4x4 matrix: the first three coordinates of the matrix applied
to `(x, y, z, 1)`. -/
def transformPoint (M : Matrix (Fin 4) (Fin 4) α) (v : Vec3 α) : Vec3 α :=
  ⟨M 0 0 * v.x + M 0 1 * v.y + M 0 2 * v.z + M 0 3,
   M 1 0 * v.x + M 1 1 * v.y + M 1 2 * v.z + M 1 3,
   M 2 0 * v.x + M 2 1 * v.y + M 2 2 * v.z + M 2 3⟩

/-- The sum of the horizontal offsets of the `ProcessMouseMovement` calls in a list. -/
def xOffsetSum : List (CameraCall α) → α
  | [] => 0
  | CameraCall.mouseMovement xoffset _ :: rest => xoffset + xOffsetSum rest
  | _ :: rest => xOffsetSum rest

/-- The sum of the vertical offsets of the `ProcessMouseMovement` calls in a list. -/
def yOffsetSum : List (CameraCall α) → α
  | [] => 0
  | CameraCall.mouseMovement _ yoffset :: rest => yoffset + yOffsetSum rest
  | _ :: rest => yOffsetSum rest

/-- The time deltas of the successive iterations of the loop, for the values that
`glfwGetTime` returns in them: in each iteration `gDeltaTime` after the timing statements. -/
def frameDeltas [FloatRounding α] : List α → Globals α → List α
  | [], _ => []
  | t :: rest, g => (frameTiming t g).gDeltaTime :: frameDeltas rest (frameTiming t g)

/-- The frame times `ts`, read after the time `previous`, are `float` values whose successive
differences are `float` values too: the timing statements then round nothing. -/
def ExactTimes [FloatRounding α] : α → List α → Prop
  | _, [] => True
  | previous, t :: rest =>
    toFloat t = t ∧ toFloat (t - previous) = t - previous ∧ ExactTimes t rest

/-- The cursor positions `moves`, reported after the position `previous`, have `float`
coordinates, and the successive differences, computed in `double`, are `float` values too:
`UMousePositionCallback` then rounds nothing. -/
def ExactMoves [FloatRounding α] : α × α → List (α × α) → Prop
  | _, [] => True
  | previous, e :: rest =>
    toFloat e.1 = e.1 ∧ toFloat e.2 = e.2 ∧
      toFloat (toDouble (e.1 - previous.1)) = e.1 - previous.1 ∧
      toFloat (toDouble (previous.2 - e.2)) = previous.2 - e.2 ∧ ExactMoves e rest

/-- The OpenGL calls made by `glfwPollEvents` for a list of events: one `glViewport` for each
framebuffer-size event, from `UResizeWindow`. -/
def resizeCommands : List (Event α) → List (GLCommand α)
  | [] => []
  | Event.framebufferSize width height :: rest =>
    GLCommand.viewport 0 0 width height :: resizeCommands rest
  | _ :: rest => resizeCommands rest

/-- The OpenGL calls that the six render calls make when started in state `s`. -/
def renderCommands (m : MathOps α) (s : App α) : List (GLCommand α) :=
  (renderAll m { s with gl := [] }).gl

/-- The OpenGL calls that one iteration of the render loop makes when started in state `s`. -/
def frameCommands [FloatRounding α] (m : MathOps α) (f : FrameInput α) (s : App α) :
    List (GLCommand α) :=
  (frame m f { s with gl := [] }).gl

/-- A sequence of framebuffer resizes, delivered in order to `UResizeWindow`. -/
def resizes (sizes : List (Int × Int)) (s : App α) : App α :=
  sizes.foldl (fun s size => UResizeWindow size.1 size.2 s) s

/-- The layout of an uploaded buffer of `bufferSize` bytes holding `n` vertices is exact: for
every vertex below `n`, attribute 0 reads the 12 bytes from `28 i` and attribute 1 the 16 bytes
from `28 i + 12`, the two ranges are disjoint and inside the buffer; every byte of the buffer is
read by some vertex below `n`; and no byte is read for two different vertices. -/
def LayoutExact (bufferSize n : Nat) : Prop :=
  (∀ i, i < n →
    attribBytes floatsPerVertex stride 0 i = byteRange (28 * i) 12 ∧
    attribBytes floatsPerColor stride (sizeofFloat * floatsPerVertex) i =
      byteRange (28 * i + 12) 16 ∧
    (∀ b, b ∈ attribBytes floatsPerVertex stride 0 i →
      b ∉ attribBytes floatsPerColor stride (sizeofFloat * floatsPerVertex) i) ∧
    (∀ b, b ∈ attribBytes floatsPerVertex stride 0 i ∨
        b ∈ attribBytes floatsPerColor stride (sizeofFloat * floatsPerVertex) i →
      b < bufferSize)) ∧
  (∀ b, b < bufferSize →
    ∃ i, i < n ∧ (b ∈ attribBytes floatsPerVertex stride 0 i ∨
      b ∈ attribBytes floatsPerColor stride (sizeofFloat * floatsPerVertex) i)) ∧
  (∀ b i j,
    (b ∈ attribBytes floatsPerVertex stride 0 i ∨
      b ∈ attribBytes floatsPerColor stride (sizeofFloat * floatsPerVertex) i) →
    (b ∈ attribBytes floatsPerVertex stride 0 j ∨
      b ∈ attribBytes floatsPerColor stride (sizeofFloat * floatsPerVertex) j) →
    i = j)

end Views

/-! ## Triangle meshes -/

section Triangles

variable {α : Type} [LinearOrderedField α]

/-- The three edges of a triangle, as pairs of corners. -/
def triangleEdges {β : Type} (t : β × β × β) : List (β × β) :=
  [(t.1, t.2.1), (t.2.1, t.2.2), (t.2.2, t.1)]

/-- Whether two pairs of points are the same undirected edge. -/
def sameEdge {β : Type} [DecidableEq β] (e f : β × β) : Bool :=
  decide ((e.1 = f.1 ∧ e.2 = f.2) ∨ (e.1 = f.2 ∧ e.2 = f.1))

/-- Whether the undirected edge `e` is one of the edges of the triangle `t`. -/
def hasEdge {β : Type} [DecidableEq β] (e : β × β) (t : β × β × β) : Bool :=
  (triangleEdges t).any (sameEdge e)

/-- The number of triangles of a mesh that the undirected edge `e` belongs to. -/
def edgeCount {β : Type} [DecidableEq β] (ts : List (β × β × β)) (e : β × β) : Nat :=
  ts.countP (hasEdge e)

/-- Whether the three corners of a triangle are distinct. -/
def distinctCorners {β : Type} [DecidableEq β] (t : β × β × β) : Bool :=
  decide (t.1 ≠ t.2.1 ∧ t.2.1 ≠ t.2.2 ∧ t.1 ≠ t.2.2)

/-- Whether a list of triangles is a closed surface: every triangle has three distinct corners
and every edge of a triangle belongs to exactly two triangles of the list. -/
def closedSurface {β : Type} [DecidableEq β] (ts : List (β × β × β)) : Bool :=
  ts.all fun t => distinctCorners t && (triangleEdges t).all fun e => edgeCount ts e == 2

/-- A triangle with its corners renamed by `f`. -/
def mapTriangle {ι β : Type} (f : ι → β) (t : ι × ι × ι) : β × β × β :=
  (f t.1, f t.2.1, f t.2.2)

/-- The triangles that `glDrawArrays(GL_TRIANGLES, 0, nVertices)` reads from a vertex array:
the positions of vertices `3 k`, `3 k + 1`, `3 k + 2` for `k < nVertices / 3`. -/
def triangles (verts : List α) : List (Vec3 α × Vec3 α × Vec3 α) :=
  (List.range (vertexCount verts / 3)).map fun k =>
    (vertexPosition verts (3 * k), vertexPosition verts (3 * k + 1),
      vertexPosition verts (3 * k + 2))

/-- The eight corners of the box with half extents `hx`, `hy`, `hz` around the origin, numbered
by the signs of their coordinates. -/
def boxCorner (hx hy hz : α) : Fin 8 → Vec3 α
  | 0 => ⟨-hx, -hy, -hz⟩
  | 1 => ⟨hx, -hy, -hz⟩
  | 2 => ⟨-hx, hy, -hz⟩
  | 3 => ⟨hx, hy, -hz⟩
  | 4 => ⟨-hx, -hy, hz⟩
  | 5 => ⟨hx, -hy, hz⟩
  | 6 => ⟨-hx, hy, hz⟩
  | 7 => ⟨hx, hy, hz⟩

/-- The corner numbers of the twelve triangles of `UCreateMeshCube`, `UCreateMeshRec`,
`UCreateMeshRec2` and `UCreateMeshRec3`, in the order of the arrays: back, front, left, right,
bottom and top face, two triangles each. -/
def boxTriangles : List (Fin 8 × Fin 8 × Fin 8) :=
  [(0, 1, 3), (3, 2, 0), (4, 5, 7), (7, 6, 4), (6, 2, 0), (0, 4, 6),
   (7, 3, 1), (1, 5, 7), (0, 1, 5), (5, 4, 0), (2, 3, 7), (7, 6, 2)]

/-- The five corners of the pyramid of `UCreateMeshPyr`: the four base corners and the apex
`(0, 0.5, 0)`. -/
def pyramidCorner : Fin 5 → Vec3 α
  | 0 => ⟨-0.5, -0.5, -0.5⟩
  | 1 => ⟨0.5, -0.5, -0.5⟩
  | 2 => ⟨-0.5, -0.5, 0.5⟩
  | 3 => ⟨0.5, -0.5, 0.5⟩
  | 4 => ⟨0.0, 0.5, 0.0⟩

/-- The corner numbers of the six triangles of `UCreateMeshPyr`, in the order of the array:
four sides and the two halves of the base. -/
def pyramidTriangles : List (Fin 5 × Fin 5 × Fin 5) :=
  [(0, 1, 4), (2, 3, 4), (0, 2, 4), (1, 3, 4), (0, 3, 2), (1, 0, 3)]

end Triangles

/-! ## Rounding to `float` and `double` -/

section Rounding

theorem floor_le_roundEven (x : ℚ) : ⌊x⌋ ≤ roundEven x := by
  unfold roundEven
  split_ifs <;> omega

theorem roundEven_le_floor_add_one (x : ℚ) : roundEven x ≤ ⌊x⌋ + 1 := by
  unfold roundEven
  split_ifs <;> omega

theorem roundEven_mono {x y : ℚ} (h : x ≤ y) : roundEven x ≤ roundEven y := by
  have hf : ⌊x⌋ ≤ ⌊y⌋ := Int.floor_le_floor h
  rcases lt_or_eq_of_le hf with hlt | heq
  · have h1 := roundEven_le_floor_add_one x
    have h2 := floor_le_roundEven y
    omega
  · unfold roundEven
    rw [heq]
    split_ifs <;> first
      | omega
      | (exfalso; linarith)

theorem roundEven_intCast (n : ℤ) : roundEven (n : ℚ) = n := by
  simp [roundEven]

theorem roundEven_nonneg {x : ℚ} (h : 0 ≤ x) : 0 ≤ roundEven x :=
  le_trans (Int.floor_nonneg.mpr h) (floor_le_roundEven x)

theorem roundEven_eq_of_near (x : ℚ) (n : ℤ) (h1 : (n : ℚ) - 1 / 2 < x)
    (h2 : x < (n : ℚ) + 1 / 2) : roundEven x = n := by
  rcases lt_or_le x (n : ℚ) with hlt | hge
  · have hfl : ⌊x⌋ = n - 1 := by
      rw [Int.floor_eq_iff]
      push_cast
      constructor <;> linarith
    unfold roundEven
    rw [hfl]
    push_cast
    have hgt : (1 : ℚ) / 2 < x - ((n : ℚ) - 1) := by linarith
    have hnot : ¬ (x - ((n : ℚ) - 1) < 1 / 2) := by linarith
    rw [if_neg hnot, if_pos hgt]
    omega
  · have hfl : ⌊x⌋ = n := by
      rw [Int.floor_eq_iff]
      constructor <;> linarith
    unfold roundEven
    rw [hfl]
    have hlt : x - (n : ℚ) < 1 / 2 := by linarith
    rw [if_pos hlt]

theorem two_zpow_pos (k : ℤ) : (0 : ℚ) < 2 ^ k := zpow_pos (by norm_num) k

theorem two_zpow_le {j k : ℤ} (h : j ≤ k) : (2 : ℚ) ^ j ≤ 2 ^ k :=
  zpow_le_zpow_right₀ (by norm_num) h

theorem log_two_bounds {a : ℚ} (ha : 0 < a) :
    (2 : ℚ) ^ Int.log 2 a ≤ a ∧ a < (2 : ℚ) ^ (Int.log 2 a + 1) := by
  have h1 := Int.zpow_log_le_self (b := 2) (r := a) (by norm_num) ha
  have h2 := Int.lt_zpow_succ_log_self (b := 2) (by norm_num) a
  push_cast at h1 h2
  exact ⟨h1, h2⟩

theorem log_two_eq {a : ℚ} {e : ℤ} (h1 : (2 : ℚ) ^ e ≤ a) (h2 : a < (2 : ℚ) ^ (e + 1)) :
    Int.log 2 a = e := by
  have ha : 0 < a := lt_of_lt_of_le (two_zpow_pos e) h1
  have hle : e ≤ Int.log 2 a := by
    apply (Int.zpow_le_iff_le_log (b := 2) (by norm_num) ha).mp
    push_cast
    exact h1
  have hlt : Int.log 2 a < e + 1 := by
    apply (Int.lt_zpow_iff_log_lt (b := 2) (by norm_num) ha).mp
    push_cast
    exact h2
  omega

theorem roundMagnitude_zero (p : ℕ) (emin : ℤ) : roundMagnitude p emin 0 = 0 := by
  have h : roundEven (0 : ℚ) = 0 := by
    have := roundEven_intCast 0
    simpa using this
  simp [roundMagnitude, h]

theorem roundMagnitude_nonneg (p : ℕ) (emin : ℤ) {a : ℚ} (ha : 0 ≤ a) :
    0 ≤ roundMagnitude p emin a := by
  unfold roundMagnitude
  have hk := two_zpow_pos (floatExponent emin a - p)
  have hr : 0 ≤ roundEven (a / 2 ^ (floatExponent emin a - p)) :=
    roundEven_nonneg (div_nonneg ha hk.le)
  have hq : (0 : ℚ) ≤ (roundEven (a / 2 ^ (floatExponent emin a - p)) : ℚ) := by
    exact_mod_cast hr
  exact mul_nonneg hq hk.le

theorem roundEven_two_zpow_div (j k : ℤ) (h : k ≤ j) :
    (roundEven ((2 : ℚ) ^ j / 2 ^ k) : ℚ) * 2 ^ k = 2 ^ j := by
  have hd : (2 : ℚ) ^ j / 2 ^ k = 2 ^ (j - k) := by
    rw [zpow_sub₀ (by norm_num : (2 : ℚ) ≠ 0)]
  have hn : (2 : ℚ) ^ (j - k) = (((2 : ℤ) ^ (j - k).toNat : ℤ) : ℚ) := by
    have hj : j - k = ((j - k).toNat : ℤ) := (Int.toNat_of_nonneg (by omega)).symm
    rw [hj, zpow_natCast]
    push_cast
    rw [Int.toNat_of_nonneg (by omega)]
  rw [hd, hn, roundEven_intCast, ← hn, ← zpow_add₀ (by norm_num : (2 : ℚ) ≠ 0)]
  congr 1
  ring

theorem roundMagnitude_mono (p : ℕ) (emin : ℤ) {a b : ℚ} (ha : 0 ≤ a) (hab : a ≤ b) :
    roundMagnitude p emin a ≤ roundMagnitude p emin b := by
  rcases eq_or_lt_of_le ha with h0 | hpos
  · rw [← h0, roundMagnitude_zero]
    exact roundMagnitude_nonneg p emin (le_trans ha hab)
  · have hbpos : 0 < b := lt_of_lt_of_le hpos hab
    have hlog : Int.log 2 a ≤ Int.log 2 b := Int.log_mono_right hpos hab
    have hexp : floatExponent emin a ≤ floatExponent emin b := max_le_max hlog le_rfl
    rcases eq_or_lt_of_le hexp with heq | hlt
    · unfold roundMagnitude
      rw [heq]
      have hk := two_zpow_pos (floatExponent emin b - p)
      have hdiv : a / 2 ^ (floatExponent emin b - p) ≤ b / 2 ^ (floatExponent emin b - p) :=
        div_le_div_of_nonneg_right hab hk.le
      have hr := roundEven_mono hdiv
      have hq : (roundEven (a / 2 ^ (floatExponent emin b - p)) : ℚ) ≤
          (roundEven (b / 2 ^ (floatExponent emin b - p)) : ℚ) := by exact_mod_cast hr
      exact mul_le_mul_of_nonneg_right hq hk.le
    · have hlea : Int.log 2 a ≤ floatExponent emin a := le_max_left _ _
      have ha2 : a < (2 : ℚ) ^ (floatExponent emin a + 1) :=
        lt_of_lt_of_le (log_two_bounds hpos).2 (two_zpow_le (by omega))
      have hbexp : floatExponent emin b = Int.log 2 b := by
        have hmin : emin ≤ floatExponent emin a := le_max_right _ _
        unfold floatExponent at hlt ⊢
        rcases max_cases (Int.log 2 b) emin with ⟨h, _⟩ | ⟨h, _⟩
        · exact h
        · rw [h] at hlt
          unfold floatExponent at hmin
          omega
      have hb2 : (2 : ℚ) ^ floatExponent emin b ≤ b := by
        rw [hbexp]
        exact (log_two_bounds hbpos).1
      have hka := two_zpow_pos (floatExponent emin a - p)
      have hkb := two_zpow_pos (floatExponent emin b - p)
      have hupper : roundMagnitude p emin a ≤ (2 : ℚ) ^ (floatExponent emin a + 1) := by
        have hdiv : a / 2 ^ (floatExponent emin a - p) ≤
            (2 : ℚ) ^ (floatExponent emin a + 1) / 2 ^ (floatExponent emin a - p) :=
          div_le_div_of_nonneg_right ha2.le hka.le
        have hr := roundEven_mono hdiv
        have hq : (roundEven (a / 2 ^ (floatExponent emin a - p)) : ℚ) ≤
            (roundEven ((2 : ℚ) ^ (floatExponent emin a + 1) /
              2 ^ (floatExponent emin a - p)) : ℚ) := by
          exact_mod_cast hr
        calc roundMagnitude p emin a
            = (roundEven (a / 2 ^ (floatExponent emin a - p)) : ℚ) *
                2 ^ (floatExponent emin a - p) := rfl
          _ ≤ (roundEven ((2 : ℚ) ^ (floatExponent emin a + 1) /
                2 ^ (floatExponent emin a - p)) : ℚ) *
              2 ^ (floatExponent emin a - p) := mul_le_mul_of_nonneg_right hq hka.le
          _ = 2 ^ (floatExponent emin a + 1) := roundEven_two_zpow_div _ _ (by omega)
      have hlower : (2 : ℚ) ^ floatExponent emin b ≤ roundMagnitude p emin b := by
        have hdiv : (2 : ℚ) ^ floatExponent emin b / 2 ^ (floatExponent emin b - p) ≤
            b / 2 ^ (floatExponent emin b - p) :=
          div_le_div_of_nonneg_right hb2 hkb.le
        have hr := roundEven_mono hdiv
        have hq : (roundEven ((2 : ℚ) ^ floatExponent emin b /
              2 ^ (floatExponent emin b - p)) : ℚ) ≤
            (roundEven (b / 2 ^ (floatExponent emin b - p)) : ℚ) := by exact_mod_cast hr
        calc (2 : ℚ) ^ floatExponent emin b
            = (roundEven ((2 : ℚ) ^ floatExponent emin b /
                2 ^ (floatExponent emin b - p)) : ℚ) *
              2 ^ (floatExponent emin b - p) := (roundEven_two_zpow_div _ _ (by omega)).symm
          _ ≤ (roundEven (b / 2 ^ (floatExponent emin b - p)) : ℚ) *
              2 ^ (floatExponent emin b - p) := mul_le_mul_of_nonneg_right hq hkb.le
          _ = roundMagnitude p emin b := rfl
      exact le_trans hupper (le_trans (two_zpow_le (by omega)) hlower)

theorem roundFloat_zero (p : ℕ) (emin : ℤ) : roundFloat p emin 0 = 0 := by
  simp [roundFloat, roundMagnitude_zero]

theorem roundFloat_mono (p : ℕ) (emin : ℤ) {x y : ℚ} (h : x ≤ y) :
    roundFloat p emin x ≤ roundFloat p emin y := by
  unfold roundFloat
  by_cases hx : x < 0
  · by_cases hy : y < 0
    · rw [if_pos hx, if_pos hy]
      have := roundMagnitude_mono p emin (a := -y) (b := -x) (by linarith) (by linarith)
      linarith
    · rw [if_pos hx, if_neg hy]
      have h1 := roundMagnitude_nonneg p emin (a := -x) (by linarith)
      have h2 := roundMagnitude_nonneg p emin (a := y) (by linarith)
      linarith
  · have hy : ¬ y < 0 := by
      intro hy
      exact hx (lt_of_le_of_lt h hy)
    rw [if_neg hx, if_neg hy]
    exact roundMagnitude_mono p emin (not_lt.mp hx) h

theorem roundFloat_neg (p : ℕ) (emin : ℤ) (x : ℚ) :
    roundFloat p emin (-x) = -roundFloat p emin x := by
  unfold roundFloat
  rcases lt_trichotomy x 0 with h | h | h
  · rw [if_neg (by linarith : ¬ -x < 0), if_pos h, neg_neg]
  · rw [h]
    simp [roundMagnitude_zero]
  · rw [if_pos (by linarith : -x < 0), if_neg (by linarith : ¬ x < 0), neg_neg]

theorem roundFloat_eq_of_near (p : ℕ) (emin : ℤ) (a : ℚ) (e n : ℤ) (h1 : (2 : ℚ) ^ e ≤ a)
    (h2 : a < (2 : ℚ) ^ (e + 1))
    (h3 : (n : ℚ) - 1 / 2 < a / 2 ^ (max e emin - p))
    (h4 : a / 2 ^ (max e emin - p) < (n : ℚ) + 1 / 2) :
    roundFloat p emin a = (n : ℚ) * 2 ^ (max e emin - p) := by
  have ha : 0 < a := lt_of_lt_of_le (two_zpow_pos e) h1
  unfold roundFloat
  rw [if_neg (not_lt.mpr ha.le)]
  unfold roundMagnitude floatExponent
  rw [log_two_eq h1 h2, roundEven_eq_of_near _ n h3 h4]

theorem roundMagnitude_natCast (p : ℕ) (emin : ℤ) (hemin : emin ≤ 0) (n : ℕ)
    (hn : n < 2 ^ (p + 1)) : roundMagnitude p emin (n : ℚ) = n := by
  rcases Nat.eq_zero_or_pos n with h0 | hpos
  · rw [h0]
    simpa using roundMagnitude_zero p emin
  · have hq : (0 : ℚ) < n := by exact_mod_cast hpos
    have hl0 : 0 ≤ Int.log 2 (n : ℚ) := by
      apply (Int.zpow_le_iff_le_log (b := 2) (by norm_num) hq).mp
      simp only [zpow_zero]
      exact_mod_cast hpos
    have hlp : Int.log 2 (n : ℚ) < (p : ℤ) + 1 := by
      apply (Int.lt_zpow_iff_log_lt (b := 2) (by norm_num) hq).mp
      push_cast
      have hlt : (n : ℚ) < 2 ^ (p + 1) := by exact_mod_cast hn
      have he : (2 : ℚ) ^ ((p : ℤ) + 1) = 2 ^ (p + 1) := by
        have : ((p : ℤ) + 1) = ((p + 1 : ℕ) : ℤ) := by push_cast; rfl
        rw [this, zpow_natCast]
      rw [he]
      exact hlt
    have hexp : floatExponent emin (n : ℚ) = Int.log 2 (n : ℚ) := by
      unfold floatExponent
      exact max_eq_left (by omega)
    unfold roundMagnitude
    rw [hexp]
    set l := Int.log 2 (n : ℚ) with hl
    have hd : ((p : ℤ) - l) = (((p : ℤ) - l).toNat : ℤ) :=
      (Int.toNat_of_nonneg (by omega)).symm
    have hdiv : (n : ℚ) / 2 ^ (l - (p : ℤ)) =
        (((n : ℤ) * 2 ^ ((p : ℤ) - l).toNat : ℤ) : ℚ) := by
      have hneg : l - (p : ℤ) = -((p : ℤ) - l) := by ring
      rw [hneg, zpow_neg, div_inv_eq_mul, hd, zpow_natCast]
      push_cast
      rw [Int.toNat_of_nonneg (by omega)]
    rw [hdiv, roundEven_intCast]
    push_cast
    rw [mul_assoc, ← zpow_natCast, ← zpow_add₀ (by norm_num : (2 : ℚ) ≠ 0), ← hd]
    have hz : (p : ℤ) - l + (l - (p : ℤ)) = 0 := by ring
    rw [hz, zpow_zero, mul_one]

theorem roundFloat_intCast (p : ℕ) (emin : ℤ) (hemin : emin ≤ 0) (n : ℤ)
    (h1 : -2 ^ (p + 1) < n) (h2 : n < 2 ^ (p + 1)) : roundFloat p emin (n : ℚ) = n := by
  unfold roundFloat
  by_cases hneg : (n : ℚ) < 0
  · have hn0 : n < 0 := by exact_mod_cast hneg
    rw [if_pos hneg]
    have hcast : (-(n : ℚ)) = ((-n).toNat : ℚ) := by
      have : ((-n).toNat : ℤ) = -n := Int.toNat_of_nonneg (by omega)
      have h2 : (((-n).toNat : ℤ) : ℚ) = ((-n : ℤ) : ℚ) := by rw [this]
      rw [Int.cast_natCast, Int.cast_neg] at h2
      exact h2.symm
    have hlt : (-n).toNat < 2 ^ (p + 1) := by
      have : (((-n).toNat : ℕ) : ℤ) < 2 ^ (p + 1) := by
        rw [Int.toNat_of_nonneg (by omega)]
        omega
      exact_mod_cast this
    rw [hcast, roundMagnitude_natCast p emin hemin _ hlt, ← hcast, neg_neg]
  · have hn0 : 0 ≤ n := by
      have : (0 : ℚ) ≤ n := not_lt.mp hneg
      exact_mod_cast this
    rw [if_neg hneg]
    have hcast : (n : ℚ) = (n.toNat : ℚ) := by
      have : (n.toNat : ℤ) = n := Int.toNat_of_nonneg hn0
      have h2 : ((n.toNat : ℤ) : ℚ) = (n : ℚ) := by rw [this]
      rw [Int.cast_natCast] at h2
      exact h2.symm
    have hlt : n.toNat < 2 ^ (p + 1) := by
      have : ((n.toNat : ℕ) : ℤ) < 2 ^ (p + 1) := by
        rw [Int.toNat_of_nonneg hn0]
        exact h2
      exact_mod_cast this
    rw [hcast, roundMagnitude_natCast p emin hemin _ hlt, ← hcast]

theorem toFloat_rat (q : ℚ) : toFloat q = float32 q := rfl

theorem toDouble_rat (q : ℚ) : toDouble q = float64 q := rfl

theorem float32_zero : float32 0 = 0 := roundFloat_zero 23 (-126)

theorem float64_zero : float64 0 = 0 := roundFloat_zero 52 (-1022)

theorem float32_neg (x : ℚ) : float32 (-x) = -float32 x := roundFloat_neg 23 (-126) x

theorem float64_neg (x : ℚ) : float64 (-x) = -float64 x := roundFloat_neg 52 (-1022) x

theorem float32_intCast (n : ℤ) (h1 : -2 ^ 24 < n) (h2 : n < 2 ^ 24) : float32 (n : ℚ) = n :=
  roundFloat_intCast 23 (-126) (by norm_num) n h1 h2

theorem float64_intCast (n : ℤ) (h1 : -2 ^ 53 < n) (h2 : n < 2 ^ 53) : float64 (n : ℚ) = n :=
  roundFloat_intCast 52 (-1022) (by norm_num) n h1 h2

/-- The value of `float32 a` for a magnitude `a` with `2 ^ e ≤ a < 2 ^ (e + 1)` that lies
nearer to the multiple `n` of the spacing than to its neighbours. -/
theorem float32_eq_of_near (a : ℚ) (e n : ℤ) (h1 : (2 : ℚ) ^ e ≤ a)
    (h2 : a < (2 : ℚ) ^ (e + 1))
    (h3 : (n : ℚ) - 1 / 2 < a / 2 ^ (max e (-126) - 23))
    (h4 : a / 2 ^ (max e (-126) - 23) < (n : ℚ) + 1 / 2) :
    float32 a = (n : ℚ) * 2 ^ (max e (-126) - 23) := by
  have h := roundFloat_eq_of_near 23 (-126) a e n h1 h2 (by simpa using h3) (by simpa using h4)
  simpa [float32] using h

/-- The value of `float64 a`, as for `float32_eq_of_near`. -/
theorem float64_eq_of_near (a : ℚ) (e n : ℤ) (h1 : (2 : ℚ) ^ e ≤ a)
    (h2 : a < (2 : ℚ) ^ (e + 1))
    (h3 : (n : ℚ) - 1 / 2 < a / 2 ^ (max e (-1022) - 52))
    (h4 : a / 2 ^ (max e (-1022) - 52) < (n : ℚ) + 1 / 2) :
    float64 a = (n : ℚ) * 2 ^ (max e (-1022) - 52) := by
  have h := roundFloat_eq_of_near 52 (-1022) a e n h1 h2 (by simpa using h3) (by simpa using h4)
  simpa [float64] using h

/-- The roundings of binary32 and binary64 keep zero and are monotone. -/
theorem floatLaws_rat : FloatLaws ℚ :=
  ⟨float32_zero, float64_zero, fun _ _ h => roundFloat_mono 23 (-126) h,
    fun _ _ h => roundFloat_mono 52 (-1022) h⟩

end Rounding

/-! ## Zoom -/

section Zoom

variable {α : Type} [LinearOrderedField α]

theorem Camera.zoom_ProcessMouseScroll (y : α) (c : Camera α) :
    (c.ProcessMouseScroll y).Zoom =
      if c.Zoom - y < 1 then 1 else if c.Zoom - y > 45 then 45 else c.Zoom - y := by
  unfold Camera.ProcessMouseScroll
  by_cases h : c.Zoom - y < 1
  · have h1 : ¬ ((1 : α) > 45) := by norm_num
    simp [h, h1]
  · simp [h]

theorem Camera.zoom_mem_ProcessMouseScroll (y : α) (c : Camera α) :
    1 ≤ (c.ProcessMouseScroll y).Zoom ∧ (c.ProcessMouseScroll y).Zoom ≤ 45 := by
  rw [Camera.zoom_ProcessMouseScroll]
  split_ifs with h1 h2
  · constructor <;> norm_num
  · constructor <;> norm_num
  · exact ⟨not_lt.mp h1, not_lt.mp h2⟩

theorem scrollEvents_zoom_mem (events : List (α × α)) (g : Globals α)
    (h : 1 ≤ g.gCamera.Zoom ∧ g.gCamera.Zoom ≤ 45) :
    1 ≤ (scrollEvents events g).gCamera.Zoom ∧ (scrollEvents events g).gCamera.Zoom ≤ 45 := by
  induction events generalizing g with
  | nil => exact h
  | cons e rest ih =>
    have step : scrollEvents (e :: rest) g = scrollEvents rest (UMouseScrollCallback e.1 e.2 g) :=
      rfl
    rw [step]
    exact ih _ (Camera.zoom_mem_ProcessMouseScroll e.2 g.gCamera)

/-- C1: from a camera with zoom in `[1, 45]`, after every call of a finite sequence of scroll
events delivered through `UMouseScrollCallback` (that is, after the first `k` events, for every
`k`) the zoom is in `[1, 45]`, whatever the size of the deltas; and one event with any delta,
in particular one larger than 44, brings any zoom into `[1, 45]`. -/
theorem C1_zoom_stays_in_range (g : Globals α) (events : List (α × α)) (k : ℕ)
    (h : 1 ≤ g.gCamera.Zoom ∧ g.gCamera.Zoom ≤ 45) :
    (1 ≤ (scrollEvents (events.take k) g).gCamera.Zoom ∧
      (scrollEvents (events.take k) g).gCamera.Zoom ≤ 45) ∧
    (∀ x y : α, (UMouseScrollCallback x y g).gCamera = g.gCamera.ProcessMouseScroll y ∧
      1 ≤ (UMouseScrollCallback x y g).gCamera.Zoom ∧
      (UMouseScrollCallback x y g).gCamera.Zoom ≤ 45) :=
  ⟨scrollEvents_zoom_mem _ g h,
   fun _ y => ⟨rfl, Camera.zoom_mem_ProcessMouseScroll y g.gCamera⟩⟩

/-- Witness of C1 on the scenario globals, with the deltas 50, -100 and 3. -/
theorem C1_zoom_stays_in_range_witness :
    (1 ≤ scenarioGlobals.gCamera.Zoom ∧ scenarioGlobals.gCamera.Zoom ≤ 45) ∧
    (1 ≤ (scrollEvents ([(0, 50), (0, -100), (0, 3)].take 3) scenarioGlobals).gCamera.Zoom ∧
      (scrollEvents ([(0, 50), (0, -100), (0, 3)].take 3) scenarioGlobals).gCamera.Zoom ≤ 45) :=
  have h : 1 ≤ scenarioGlobals.gCamera.Zoom ∧ scenarioGlobals.gCamera.Zoom ≤ 45 := by
    norm_num [scenarioGlobals, scenarioCamera]
  ⟨h, (C1_zoom_stays_in_range scenarioGlobals [(0, 50), (0, -100), (0, 3)] 3 h).1⟩

/-- C2: `ProcessMouseScroll y` replaces the zoom `z` by `z - y` clamped to `[1, 45]` (1 if
`z - y < 1`, 45 if `z - y > 45`, else `z - y`) and changes no other field; from the initial
camera (zoom 45) a scroll of 50 gives zoom exactly 1 and a following scroll of -100 gives zoom
exactly 45. -/
theorem C2_scroll_sets_clamped_zoom (y : α) (c : Camera α) :
    c.ProcessMouseScroll y =
      { c with
        Zoom := if c.Zoom - y < 1 then 1 else if c.Zoom - y > 45 then 45 else c.Zoom - y } ∧
    (∀ (m : MathOps α) (position : Vec3 α) (speed sensitivity : α),
      (Camera.new m position speed sensitivity).Zoom = 45 ∧
      ((Camera.new m position speed sensitivity).ProcessMouseScroll 50).Zoom = 1 ∧
      (((Camera.new m position speed sensitivity).ProcessMouseScroll 50).ProcessMouseScroll
        (-100)).Zoom = 45) := by
  refine ⟨?_, ?_⟩
  · have hz := Camera.zoom_ProcessMouseScroll y c
    have hrest : c.ProcessMouseScroll y = { c with Zoom := (c.ProcessMouseScroll y).Zoom } := rfl
    rw [hrest, hz]
  · intro m position speed sensitivity
    have h0 : (Camera.new m position speed sensitivity).Zoom = 45 := rfl
    have h1 : ((Camera.new m position speed sensitivity).ProcessMouseScroll 50).Zoom = 1 := by
      rw [Camera.zoom_ProcessMouseScroll, h0]
      norm_num
    refine ⟨h0, h1, ?_⟩
    rw [Camera.zoom_ProcessMouseScroll, h1]
    norm_num

end Zoom

/-! ## Pitch -/

section Pitch

variable {α : Type} [LinearOrderedField α]

theorem Camera.pitch_ProcessMouseMovement (m : MathOps α) (x y : α) (c : Camera α) :
    (c.ProcessMouseMovement m x y true).Pitch =
      if c.Pitch + y * c.MouseSensitivity > 89 then 89
      else if c.Pitch + y * c.MouseSensitivity < -89 then -89
      else c.Pitch + y * c.MouseSensitivity := by
  simp [Camera.ProcessMouseMovement, Camera.updateCameraVectors]

theorem Camera.ProcessMouseMovement_eq (m : MathOps α) (x y : α) (c : Camera α) :
    c.ProcessMouseMovement m x y true =
      Camera.updateCameraVectors m
        { c with
          Yaw := c.Yaw + x * c.MouseSensitivity
          Pitch := (c.ProcessMouseMovement m x y true).Pitch } := rfl

theorem Camera.pitch_mem_ProcessMouseMovement (m : MathOps α) (x y : α) (c : Camera α) :
    -89 ≤ (c.ProcessMouseMovement m x y true).Pitch ∧
      (c.ProcessMouseMovement m x y true).Pitch ≤ 89 := by
  rw [Camera.pitch_ProcessMouseMovement]
  split_ifs with h1 h2
  · constructor <;> norm_num
  · constructor <;> norm_num
  · exact ⟨not_lt.mp h2, not_lt.mp h1⟩

theorem mouseMoves_pitch_mem (m : MathOps α) (moves : List (α × α)) (c : Camera α)
    (h : -89 ≤ c.Pitch ∧ c.Pitch ≤ 89) :
    -89 ≤ (mouseMoves m moves c).Pitch ∧ (mouseMoves m moves c).Pitch ≤ 89 := by
  induction moves generalizing c with
  | nil => exact h
  | cons e rest ih =>
    have step : mouseMoves m (e :: rest) c =
        mouseMoves m rest (c.ProcessMouseMovement m e.1 e.2 true) := rfl
    rw [step]
    exact ih _ (Camera.pitch_mem_ProcessMouseMovement m e.1 e.2 c)

theorem UMousePositionCallback_pitch_mem [FloatRounding α] (m : MathOps α) (xpos ypos : α)
    (g : Globals α) :
    -89 ≤ (UMousePositionCallback m xpos ypos g).gCamera.Pitch ∧
      (UMousePositionCallback m xpos ypos g).gCamera.Pitch ≤ 89 := by
  unfold UMousePositionCallback
  exact Camera.pitch_mem_ProcessMouseMovement m _ _ _

theorem cursorEvents_pitch_mem [FloatRounding α] (m : MathOps α) (events : List (α × α))
    (g : Globals α)
    (h : -89 ≤ g.gCamera.Pitch ∧ g.gCamera.Pitch ≤ 89) :
    -89 ≤ (cursorEvents m events g).gCamera.Pitch ∧
      (cursorEvents m events g).gCamera.Pitch ≤ 89 := by
  induction events generalizing g with
  | nil => exact h
  | cons e rest ih =>
    have step : cursorEvents m (e :: rest) g =
        cursorEvents m rest (UMousePositionCallback m e.1 e.2 g) := rfl
    rw [step]
    exact ih _ (UMousePositionCallback_pitch_mem m e.1 e.2 g)

/-- C3: from a camera with pitch in `[-89, 89]`, after every call of a finite sequence of
`ProcessMouseMovement(xOffset, yOffset)` calls with `constrainPitch = true` (after the first `k`
calls, for every `k`) the pitch is in `[-89, 89]`, however large an offset is, and the same
holds when the calls are made by `UMousePositionCallback` on a sequence of cursor positions;
when `pitch + yOffset * mouseSensitivity` exceeds 89 the new pitch is exactly 89, and when it is
below -89 the new pitch is exactly -89. -/
theorem C3_pitch_stays_in_range [FloatRounding α] (m : MathOps α) (g : Globals α)
    (moves : List (α × α)) (k : ℕ)
    (h : -89 ≤ g.gCamera.Pitch ∧ g.gCamera.Pitch ≤ 89) :
    (-89 ≤ (mouseMoves m (moves.take k) g.gCamera).Pitch ∧
      (mouseMoves m (moves.take k) g.gCamera).Pitch ≤ 89) ∧
    (-89 ≤ (cursorEvents m (moves.take k) g).gCamera.Pitch ∧
      (cursorEvents m (moves.take k) g).gCamera.Pitch ≤ 89) ∧
    (∀ (c : Camera α) (x y : α), c.Pitch + y * c.MouseSensitivity > 89 →
      (c.ProcessMouseMovement m x y true).Pitch = 89) ∧
    (∀ (c : Camera α) (x y : α), c.Pitch + y * c.MouseSensitivity < -89 →
      (c.ProcessMouseMovement m x y true).Pitch = -89) := by
  refine ⟨mouseMoves_pitch_mem m _ _ h, cursorEvents_pitch_mem m _ _ h, ?_, ?_⟩
  · intro c x y hy
    rw [Camera.pitch_ProcessMouseMovement, if_pos hy]
  · intro c x y hy
    have hnot : ¬ (c.Pitch + y * c.MouseSensitivity > 89) := by
      intro hgt
      have : (-89 : α) < 89 := by norm_num
      exact absurd (lt_trans hgt hy) (not_lt.mpr this.le)
    rw [Camera.pitch_ProcessMouseMovement, if_neg hnot, if_pos hy]

/-- Witness of C3 on the scenario globals, with the vertical offsets 100000, -5 and -2000000
(sensitivity `1/10`). -/
theorem C3_pitch_stays_in_range_witness :
    (-89 ≤ scenarioGlobals.gCamera.Pitch ∧ scenarioGlobals.gCamera.Pitch ≤ 89) ∧
    (-89 ≤ (mouseMoves sampleOps ([(3, 100000), (0, -5), (-7, -2000000)].take 2)
        scenarioGlobals.gCamera).Pitch ∧
      (mouseMoves sampleOps ([(3, 100000), (0, -5), (-7, -2000000)].take 2)
        scenarioGlobals.gCamera).Pitch ≤ 89) :=
  have h : -89 ≤ scenarioGlobals.gCamera.Pitch ∧ scenarioGlobals.gCamera.Pitch ≤ 89 := by
    norm_num [scenarioGlobals, scenarioCamera]
  ⟨h, (C3_pitch_stays_in_range sampleOps scenarioGlobals
    [(3, 100000), (0, -5), (-7, -2000000)] 2 h).1⟩

end Pitch

/-! ## Keyboard movement -/

section Keyboard

variable {α : Type} [LinearOrderedField α]

theorem Vec3.add_scale_sub_scale (p v : Vec3 α) (k : α) :
    (p.add (v.scale k)).sub (v.scale k) = p := by
  cases p
  simp [Vec3.add, Vec3.sub, Vec3.scale]

theorem Vec3.sub_scale_eq_add_neg_scale (p v : Vec3 α) (k : α) :
    p.sub (v.scale k) = p.add (v.neg.scale k) := by
  simp only [Vec3.add, Vec3.sub, Vec3.scale, Vec3.neg, Vec3.mk.injEq]
  refine ⟨?_, ?_, ?_⟩ <;> ring

theorem Camera.forward_backward (dt : α) (c : Camera α) :
    (c.ProcessKeyboard FORWARD dt).ProcessKeyboard BACKWARD dt = c := by
  cases c
  simp [Camera.ProcessKeyboard, Vec3.add_scale_sub_scale]

/-- C5: for every camera and every time delta `dt` (of any sign), `ProcessKeyboard(FORWARD, dt)`
followed by `ProcessKeyboard(BACKWARD, dt)` leaves the position (and the whole camera) as it
was; `UProcessInput` issues exactly these two calls, in this order, in a frame in which W and S
are held and A, D, Q, E are not, and the camera position after the frame is the one before. -/
theorem C5_forward_backward_round_trip (dt : α) (c : Camera α) :
    ((c.ProcessKeyboard FORWARD dt).ProcessKeyboard BACKWARD dt).Position = c.Position ∧
    (c.ProcessKeyboard FORWARD dt).ProcessKeyboard BACKWARD dt = c ∧
    (∀ (pressed : Int → Bool) (g : Globals α),
      pressed GLFW_KEY_W = true → pressed GLFW_KEY_S = true →
      pressed GLFW_KEY_A = false → pressed GLFW_KEY_D = false →
      pressed GLFW_KEY_Q = false → pressed GLFW_KEY_E = false →
      (UProcessInput pressed g).calls =
        g.calls ++ [CameraCall.keyboard FORWARD g.gDeltaTime,
          CameraCall.keyboard BACKWARD g.gDeltaTime] ∧
      (UProcessInput pressed g).gCamera.Position = g.gCamera.Position) := by
  have hrt := Camera.forward_backward dt c
  refine ⟨by rw [hrt], hrt, ?_⟩
  intro pressed g hW hS hA hD hQ hE
  constructor
  · cases hesc : pressed GLFW_KEY_ESCAPE <;>
      simp [UProcessInput, hW, hS, hA, hD, hQ, hE, hesc, Globals.processKeyboard]
  · have hcam : (UProcessInput pressed g).gCamera =
        (g.gCamera.ProcessKeyboard FORWARD g.gDeltaTime).ProcessKeyboard BACKWARD
          g.gDeltaTime := by
      cases hesc : pressed GLFW_KEY_ESCAPE <;>
        simp [UProcessInput, hW, hS, hA, hD, hQ, hE, hesc, Globals.processKeyboard]
    rw [hcam, Camera.forward_backward]

/-- Witness of C5 on the scenario camera with `dt = -3/7`, and in a frame with exactly W and S
held. -/
theorem C5_forward_backward_round_trip_witness :
    ((scenarioCamera.ProcessKeyboard FORWARD (-3 / 7)).ProcessKeyboard BACKWARD
        (-3 / 7)).Position = scenarioCamera.Position ∧
    (UProcessInput (fun key => decide (key = GLFW_KEY_W ∨ key = GLFW_KEY_S))
        scenarioGlobals).gCamera.Position = scenarioGlobals.gCamera.Position :=
  have h := C5_forward_backward_round_trip (-3 / 7) scenarioCamera
  ⟨h.1, (h.2.2 (fun key => decide (key = GLFW_KEY_W ∨ key = GLFW_KEY_S)) scenarioGlobals
    (by decide) (by decide) (by decide) (by decide) (by decide) (by decide)).2⟩

/-- C6: `ProcessKeyboard(d, dt)` sets the position to
`position + (movementSpeed * dt) * v`, with `v` equal to `front`, `-front`, `-right`, `right`,
`worldUp`, `-worldUp` for `d` = FORWARD, BACKWARD, LEFT, RIGHT, UP, DOWN, and leaves every other
field (yaw, pitch, zoom, front, right, up, worldUp, speed, sensitivity) unchanged. -/
theorem C6_keyboard_moves_position (d : Camera_Movement) (dt : α) (c : Camera α) :
    c.ProcessKeyboard d dt =
      { c with Position := c.Position.add ((c.direction d).scale (c.MovementSpeed * dt)) } ∧
    c.direction FORWARD = c.Front ∧ c.direction BACKWARD = c.Front.neg ∧
    c.direction LEFT = c.Right.neg ∧ c.direction RIGHT = c.Right ∧
    c.direction UP = c.WorldUp ∧ c.direction DOWN = c.WorldUp.neg := by
  refine ⟨?_, rfl, rfl, rfl, rfl, rfl, rfl⟩
  cases d <;>
    simp only [Camera.ProcessKeyboard, Camera.direction, Vec3.sub_scale_eq_add_neg_scale]

end Keyboard

/-! ## Input glue -/

section Input

variable {α : Type} [LinearOrderedField α]

theorem UMousePositionCallback_gFirstMouse [FloatRounding α] (m : MathOps α) (xpos ypos : α)
    (g : Globals α) :
    (UMousePositionCallback m xpos ypos g).gFirstMouse = false := by
  unfold UMousePositionCallback
  cases h : g.gFirstMouse <;> simp [h]

theorem cursorEvents_gFirstMouse [FloatRounding α] (m : MathOps α) (events : List (α × α))
    (g : Globals α)
    (h : g.gFirstMouse = false) : (cursorEvents m events g).gFirstMouse = false := by
  induction events generalizing g with
  | nil => exact h
  | cons e rest ih =>
    have step : cursorEvents m (e :: rest) g =
        cursorEvents m rest (UMousePositionCallback m e.1 e.2 g) := rfl
    rw [step]
    exact ih _ (UMousePositionCallback_gFirstMouse m e.1 e.2 g)

theorem UMousePositionCallback_first [FloatRounding α] (m : MathOps α) (xpos ypos : α)
    (g : Globals α) (h : g.gFirstMouse = true) :
    (UMousePositionCallback m xpos ypos g).calls =
      g.calls ++ [CameraCall.mouseMovement (toFloat (toDouble (xpos - toFloat xpos)))
        (toFloat (toDouble (toFloat ypos - ypos)))] ∧
    (UMousePositionCallback m xpos ypos g).gCamera =
      g.gCamera.ProcessMouseMovement m (toFloat (toDouble (xpos - toFloat xpos)))
        (toFloat (toDouble (toFloat ypos - ypos))) true ∧
    (UMousePositionCallback m xpos ypos g).gLastX = toFloat xpos ∧
    (UMousePositionCallback m xpos ypos g).gLastY = toFloat ypos ∧
    (UMousePositionCallback m xpos ypos g).gFirstMouse = false := by
  simp [UMousePositionCallback, h]

theorem UMousePositionCallback_later [FloatRounding α] (m : MathOps α) (xpos ypos : α)
    (g : Globals α) (h : g.gFirstMouse = false) :
    (UMousePositionCallback m xpos ypos g).calls =
      g.calls ++ [CameraCall.mouseMovement (toFloat (toDouble (xpos - g.gLastX)))
        (toFloat (toDouble (g.gLastY - ypos)))] ∧
    (UMousePositionCallback m xpos ypos g).gCamera =
      g.gCamera.ProcessMouseMovement m (toFloat (toDouble (xpos - g.gLastX)))
        (toFloat (toDouble (g.gLastY - ypos))) true ∧
    (UMousePositionCallback m xpos ypos g).gLastX = toFloat xpos ∧
    (UMousePositionCallback m xpos ypos g).gLastY = toFloat ypos ∧
    (UMousePositionCallback m xpos ypos g).gFirstMouse = false := by
  simp [UMousePositionCallback, h]

/-- The roundings of an integer below `2 ^ 24` in magnitude leave it unchanged. -/
theorem exact_intCast (n : ℤ) (h1 : -2 ^ 24 < n) (h2 : n < 2 ^ 24) :
    toFloat (n : ℚ) = n ∧ toDouble (n : ℚ) = n :=
  ⟨float32_intCast n h1 h2, float64_intCast n (by omega) (by omega)⟩

/-- C8: on the first call of `UMousePositionCallback` (`gFirstMouse = true`), for every cursor
position and whatever `gLastX` and `gLastY` hold, `gLastX` and `gLastY` become the cursor
position converted to `float`, the offsets passed to `ProcessMouseMovement` are the differences
between the position and its `float` value, `(float)(xpos - (float)xpos)` and
`(float)((float)ypos - ypos)`, and `gFirstMouse` becomes false; it is false after every later
call as well. When `xpos` and `ypos` are `float` values (and zero is kept by the roundings), the
offsets are `(0, 0)` and `gLastX`, `gLastY` are the cursor position itself. -/
theorem C8_first_mouse_event [FloatRounding α] (m : MathOps α) (xpos ypos : α) (g : Globals α)
    (later : List (α × α)) (h : g.gFirstMouse = true) :
    (UMousePositionCallback m xpos ypos g).calls =
      g.calls ++ [CameraCall.mouseMovement (toFloat (toDouble (xpos - toFloat xpos)))
        (toFloat (toDouble (toFloat ypos - ypos)))] ∧
    (UMousePositionCallback m xpos ypos g).gCamera =
      g.gCamera.ProcessMouseMovement m (toFloat (toDouble (xpos - toFloat xpos)))
        (toFloat (toDouble (toFloat ypos - ypos))) true ∧
    (UMousePositionCallback m xpos ypos g).gLastX = toFloat xpos ∧
    (UMousePositionCallback m xpos ypos g).gLastY = toFloat ypos ∧
    (UMousePositionCallback m xpos ypos g).gFirstMouse = false ∧
    (cursorEvents m later (UMousePositionCallback m xpos ypos g)).gFirstMouse = false ∧
    (toFloat (toDouble (0 : α)) = 0 → toFloat xpos = xpos → toFloat ypos = ypos →
      (UMousePositionCallback m xpos ypos g).calls =
        g.calls ++ [CameraCall.mouseMovement 0 0] ∧
      (UMousePositionCallback m xpos ypos g).gCamera =
        g.gCamera.ProcessMouseMovement m 0 0 true ∧
      (UMousePositionCallback m xpos ypos g).gLastX = xpos ∧
      (UMousePositionCallback m xpos ypos g).gLastY = ypos) := by
  obtain ⟨hc, hcam, hx, hy, hf⟩ := UMousePositionCallback_first m xpos ypos g h
  refine ⟨hc, hcam, hx, hy, hf, cursorEvents_gFirstMouse m later _ hf, ?_⟩
  intro h0 ex ey
  rw [hc, hcam, hx, hy, ex, ey, sub_self, sub_self, h0]
  exact ⟨rfl, rfl, rfl, rfl⟩

/-- Witness of C8 on the scenario globals: first cursor position `(123, 456)`, whose
coordinates are `float` values, then two more events. -/
theorem C8_first_mouse_event_witness :
    scenarioGlobals.gFirstMouse = true ∧
    (UMousePositionCallback sampleOps 123 456 scenarioGlobals).calls =
      scenarioGlobals.calls ++ [CameraCall.mouseMovement 0 0] ∧
    (UMousePositionCallback sampleOps 123 456 scenarioGlobals).gLastX = 123 ∧
    (UMousePositionCallback sampleOps 123 456 scenarioGlobals).gLastY = 456 :=
  have h0 : toFloat (toDouble (0 : ℚ)) = 0 := by
    rw [toDouble_rat, float64_zero, toFloat_rat, float32_zero]
  have ex : toFloat (123 : ℚ) = 123 := by
    exact_mod_cast (exact_intCast 123 (by norm_num) (by norm_num)).1
  have ey : toFloat (456 : ℚ) = 456 := by
    exact_mod_cast (exact_intCast 456 (by norm_num) (by norm_num)).1
  have h := (C8_first_mouse_event sampleOps 123 456 scenarioGlobals [(1, 2), (3, 4)]
    rfl).2.2.2.2.2.2 h0 ex ey
  ⟨rfl, h.1, h.2.2.1, h.2.2.2⟩

/-- The claim of C8 fails at the first cursor position `(100 + 2⁻²⁰, 300)`, whose first
coordinate is a `double` but not a `float`: `gLastX` becomes `100`, not `xpos`, and the
horizontal offset passed to `ProcessMouseMovement` is `2⁻²⁰`, not `0`. -/
theorem C8_first_mouse_event_counterexample :
    scenarioGlobals.gFirstMouse = true ∧
    (UMousePositionCallback sampleOps (100 + 1 / 2 ^ 20) 300 scenarioGlobals).calls =
      scenarioGlobals.calls ++ [CameraCall.mouseMovement (1 / 2 ^ 20) 0] ∧
    (UMousePositionCallback sampleOps (100 + 1 / 2 ^ 20) 300 scenarioGlobals).calls ≠
      scenarioGlobals.calls ++ [CameraCall.mouseMovement 0 0] ∧
    (UMousePositionCallback sampleOps (100 + 1 / 2 ^ 20) 300 scenarioGlobals).gLastX = 100 ∧
    (UMousePositionCallback sampleOps (100 + 1 / 2 ^ 20) 300 scenarioGlobals).gLastX ≠
      100 + 1 / 2 ^ 20 := by
  have fx : toFloat (100 + 1 / 2 ^ 20 : ℚ) = 100 := by
    rw [toFloat_rat, float32_eq_of_near (100 + 1 / 2 ^ 20) 6 13107200 (by norm_num)
      (by norm_num) (by norm_num) (by norm_num)]
    norm_num
  have fy : toFloat (300 : ℚ) = 300 := by
    exact_mod_cast (exact_intCast 300 (by norm_num) (by norm_num)).1
  have dx : toDouble (1 / 2 ^ 20 : ℚ) = 1 / 2 ^ 20 := by
    rw [toDouble_rat, float64_eq_of_near (1 / 2 ^ 20) (-20) (2 ^ 52) (by norm_num)
      (by norm_num) (by norm_num) (by norm_num)]
    norm_num
  have sx : toFloat (1 / 2 ^ 20 : ℚ) = 1 / 2 ^ 20 := by
    rw [toFloat_rat, float32_eq_of_near (1 / 2 ^ 20) (-20) (2 ^ 23) (by norm_num)
      (by norm_num) (by norm_num) (by norm_num)]
    norm_num
  have h0 : toFloat (toDouble (0 : ℚ)) = 0 := by
    rw [toDouble_rat, float64_zero, toFloat_rat, float32_zero]
  have e1 : (100 + 1 / 2 ^ 20 : ℚ) - 100 = 1 / 2 ^ 20 := by norm_num
  obtain ⟨hc, _, hx, _, _⟩ :=
    UMousePositionCallback_first sampleOps (100 + 1 / 2 ^ 20) 300 scenarioGlobals rfl
  have hcalls : (UMousePositionCallback sampleOps (100 + 1 / 2 ^ 20) 300 scenarioGlobals).calls =
      scenarioGlobals.calls ++ [CameraCall.mouseMovement (1 / 2 ^ 20) 0] := by
    rw [hc, fx, fy, e1, dx, sx, sub_self, h0]
  refine ⟨rfl, hcalls, ?_, ?_, ?_⟩
  · rw [hcalls]
    norm_num [scenarioGlobals]
  · rw [hx, fx]
  · rw [hx, fx]
    norm_num

/-- C9: on a call of `UMousePositionCallback` with `gFirstMouse = false`, the offsets passed to
`ProcessMouseMovement` are `xpos - gLastX` and `gLastY - ypos`, each computed in `double` and
converted to `float`, and afterwards `gLastX` and `gLastY` are `xpos` and `ypos` converted to
`float`. The vertical sign is inverted: a cursor moved down the window, `ypos > gLastY`, never
gives a positive `yoffset`, and gives `yoffset ≤ -ε < 0` when it moved by at least a distance
`ε` that the roundings keep. When the two differences and the new position are `float` values,
the offsets are exactly `xpos - gLastX` and `gLastY - ypos`, and `gLastX = xpos`,
`gLastY = ypos` afterwards. -/
theorem C9_mouse_offsets [FloatRounding α] (m : MathOps α) (xpos ypos : α) (g : Globals α)
    (h : g.gFirstMouse = false) :
    (UMousePositionCallback m xpos ypos g).calls =
      g.calls ++ [CameraCall.mouseMovement (toFloat (toDouble (xpos - g.gLastX)))
        (toFloat (toDouble (g.gLastY - ypos)))] ∧
    (UMousePositionCallback m xpos ypos g).gCamera =
      g.gCamera.ProcessMouseMovement m (toFloat (toDouble (xpos - g.gLastX)))
        (toFloat (toDouble (g.gLastY - ypos))) true ∧
    (FloatLaws α → g.gLastY < ypos → toFloat (toDouble (g.gLastY - ypos)) ≤ 0) ∧
    (FloatLaws α → ∀ ε : α, 0 < ε → toFloat (toDouble (-ε)) = -ε → g.gLastY + ε ≤ ypos →
      toFloat (toDouble (g.gLastY - ypos)) ≤ -ε ∧ toFloat (toDouble (g.gLastY - ypos)) < 0) ∧
    (UMousePositionCallback m xpos ypos g).gLastX = toFloat xpos ∧
    (UMousePositionCallback m xpos ypos g).gLastY = toFloat ypos ∧
    (toFloat (toDouble (xpos - g.gLastX)) = xpos - g.gLastX →
      toFloat (toDouble (g.gLastY - ypos)) = g.gLastY - ypos →
      toFloat xpos = xpos → toFloat ypos = ypos →
      (UMousePositionCallback m xpos ypos g).calls =
        g.calls ++ [CameraCall.mouseMovement (xpos - g.gLastX) (g.gLastY - ypos)] ∧
      (UMousePositionCallback m xpos ypos g).gCamera =
        g.gCamera.ProcessMouseMovement m (xpos - g.gLastX) (g.gLastY - ypos) true ∧
      (UMousePositionCallback m xpos ypos g).gLastX = xpos ∧
      (UMousePositionCallback m xpos ypos g).gLastY = ypos) := by
  obtain ⟨hc, hcam, hx, hy, _⟩ := UMousePositionCallback_later m xpos ypos g h
  refine ⟨hc, hcam, ?_, ?_, hx, hy, ?_⟩
  · rintro ⟨hf0, hd0, hfm, hdm⟩ hlt
    have h1 : toDouble (g.gLastY - ypos) ≤ 0 := by
      have := hdm (g.gLastY - ypos) 0 (sub_neg.mpr hlt).le
      rwa [hd0] at this
    have h2 := hfm _ 0 h1
    rwa [hf0] at h2
  · rintro ⟨_, _, hfm, hdm⟩ ε hε hexact hle
    have h1 : toDouble (g.gLastY - ypos) ≤ toDouble (-ε) :=
      hdm (g.gLastY - ypos) (-ε) (by linarith)
    have h2 := hfm _ _ h1
    rw [hexact] at h2
    exact ⟨h2, lt_of_le_of_lt h2 (neg_neg_of_pos hε)⟩
  · intro dx dy ex ey
    rw [hc, hcam, hx, hy, dx, dy, ex, ey]
    exact ⟨rfl, rfl, rfl, rfl⟩

/-- Witness of C9: the scenario globals after a first event, stored position `(400, 300)`, new
position `(410, 325)`; the offsets are `(10, -25)`. -/
theorem C9_mouse_offsets_witness :
    ({ scenarioGlobals with gFirstMouse := false } : Globals ℚ).gFirstMouse = false ∧
    (UMousePositionCallback sampleOps 410 325
        { scenarioGlobals with gFirstMouse := false }).calls =
      ({ scenarioGlobals with gFirstMouse := false } : Globals ℚ).calls ++
        [CameraCall.mouseMovement
          (410 - ({ scenarioGlobals with gFirstMouse := false } : Globals ℚ).gLastX)
          (({ scenarioGlobals with gFirstMouse := false } : Globals ℚ).gLastY - 325)] ∧
    toFloat (toDouble
      (({ scenarioGlobals with gFirstMouse := false } : Globals ℚ).gLastY - 325)) < 0 :=
  have f10 : toFloat (toDouble (410 - 400 : ℚ)) = 410 - 400 := by
    have e : (410 - 400 : ℚ) = ((10 : ℤ) : ℚ) := by norm_num
    rw [e, (exact_intCast 10 (by norm_num) (by norm_num)).2,
      (exact_intCast 10 (by norm_num) (by norm_num)).1]
  have f25 : toFloat (toDouble (300 - 325 : ℚ)) = 300 - 325 := by
    have e : (300 - 325 : ℚ) = ((-25 : ℤ) : ℚ) := by norm_num
    rw [e, (exact_intCast (-25) (by norm_num) (by norm_num)).2,
      (exact_intCast (-25) (by norm_num) (by norm_num)).1]
  have g25 : toFloat (toDouble (-25 : ℚ)) = -25 := by
    have e : (-25 : ℚ) = ((-25 : ℤ) : ℚ) := by norm_num
    rw [e, (exact_intCast (-25) (by norm_num) (by norm_num)).2,
      (exact_intCast (-25) (by norm_num) (by norm_num)).1]
  have ex : toFloat (410 : ℚ) = 410 := by
    exact_mod_cast (exact_intCast 410 (by norm_num) (by norm_num)).1
  have ey : toFloat (325 : ℚ) = 325 := by
    exact_mod_cast (exact_intCast 325 (by norm_num) (by norm_num)).1
  have h := C9_mouse_offsets sampleOps 410 325 { scenarioGlobals with gFirstMouse := false } rfl
  ⟨rfl, (h.2.2.2.2.2.2 f10 f25 ex ey).1,
    (h.2.2.2.1 floatLaws_rat 25 (by norm_num) g25 (by norm_num [scenarioGlobals])).2⟩

/-- The claim of C9 fails for the stored position `(400, 300)` and the new position
`(100 + 2⁻²⁰, 300)`: the horizontal offset is `-300`, not `xpos - gLastX`, and afterwards
`gLastX` is `100`, not `xpos`. It fails also for the stored `gLastY = 0` and the new
`ypos = 2⁻²⁰⁰`, a cursor moved down the window: the vertical offset is `0`, not negative. -/
theorem C9_mouse_offsets_counterexample :
    ({ scenarioGlobals with gFirstMouse := false } : Globals ℚ).gFirstMouse = false ∧
    (UMousePositionCallback sampleOps (100 + 1 / 2 ^ 20) 300
        { scenarioGlobals with gFirstMouse := false }).calls =
      ({ scenarioGlobals with gFirstMouse := false } : Globals ℚ).calls ++
        [CameraCall.mouseMovement (-300) 0] ∧
    (100 + 1 / 2 ^ 20 : ℚ) - ({ scenarioGlobals with gFirstMouse := false } : Globals ℚ).gLastX ≠
      -300 ∧
    (UMousePositionCallback sampleOps (100 + 1 / 2 ^ 20) 300
        { scenarioGlobals with gFirstMouse := false }).gLastX = 100 ∧
    (100 : ℚ) ≠ 100 + 1 / 2 ^ 20 ∧
    ({ scenarioGlobals with gFirstMouse := false, gLastY := 0 } : Globals ℚ).gLastY <
      1 / 2 ^ 200 ∧
    (UMousePositionCallback sampleOps 400 (1 / 2 ^ 200)
        { scenarioGlobals with gFirstMouse := false, gLastY := 0 }).calls =
      ({ scenarioGlobals with gFirstMouse := false, gLastY := 0 } : Globals ℚ).calls ++
        [CameraCall.mouseMovement 0 0] := by
  have fx : toFloat (100 + 1 / 2 ^ 20 : ℚ) = 100 := by
    rw [toFloat_rat, float32_eq_of_near (100 + 1 / 2 ^ 20) 6 13107200 (by norm_num)
      (by norm_num) (by norm_num) (by norm_num)]
    norm_num
  have e1 : (100 + 1 / 2 ^ 20 : ℚ) - 400 = -(300 - 1 / 2 ^ 20) := by norm_num
  have dx : toDouble (-(300 - 1 / 2 ^ 20) : ℚ) = -(300 - 1 / 2 ^ 20) := by
    rw [toDouble_rat, float64_neg, float64_eq_of_near (300 - 1 / 2 ^ 20) 8
      (300 * 2 ^ 44 - 2 ^ 24) (by norm_num) (by norm_num) (by norm_num) (by norm_num)]
    norm_num
  have sx : toFloat (-(300 - 1 / 2 ^ 20) : ℚ) = -300 := by
    rw [toFloat_rat, float32_neg, float32_eq_of_near (300 - 1 / 2 ^ 20) 8 9830400
      (by norm_num) (by norm_num) (by norm_num) (by norm_num)]
    norm_num
  have h0 : toFloat (toDouble (0 : ℚ)) = 0 := by
    rw [toDouble_rat, float64_zero, toFloat_rat, float32_zero]
  have e2 : (0 : ℚ) - 1 / 2 ^ 200 = -(1 / 2 ^ 200) := by norm_num
  have dy : toDouble (-(1 / 2 ^ 200) : ℚ) = -(1 / 2 ^ 200) := by
    rw [toDouble_rat, float64_neg, float64_eq_of_near (1 / 2 ^ 200) (-200) (2 ^ 52)
      (by norm_num) (by norm_num) (by norm_num) (by norm_num)]
    norm_num
  have sy : toFloat (-(1 / 2 ^ 200) : ℚ) = 0 := by
    rw [toFloat_rat, float32_neg, float32_eq_of_near (1 / 2 ^ 200) (-200) 0
      (by norm_num) (by norm_num) (by norm_num) (by norm_num)]
    norm_num
  obtain ⟨hc, _, hx, _, _⟩ := UMousePositionCallback_later sampleOps (100 + 1 / 2 ^ 20) 300
    { scenarioGlobals with gFirstMouse := false } rfl
  obtain ⟨hc2, _, _, _, _⟩ := UMousePositionCallback_later sampleOps 400 (1 / 2 ^ 200)
    { scenarioGlobals with gFirstMouse := false, gLastY := 0 } rfl
  refine ⟨rfl, ?_, ?_, ?_, ?_, ?_, ?_⟩
  · rw [hc]
    show _ ++ [CameraCall.mouseMovement (toFloat (toDouble ((100 + 1 / 2 ^ 20 : ℚ) - 400)))
      (toFloat (toDouble ((300 : ℚ) - 300)))] = _
    rw [e1, dx, sx, sub_self, h0]
  · show (100 + 1 / 2 ^ 20 : ℚ) - 400 ≠ -300
    norm_num
  · rw [hx, fx]
  · norm_num
  · show (0 : ℚ) < 1 / 2 ^ 200
    norm_num
  · rw [hc2]
    show _ ++ [CameraCall.mouseMovement (toFloat (toDouble ((400 : ℚ) - 400)))
      (toFloat (toDouble ((0 : ℚ) - 1 / 2 ^ 200)))] = _
    rw [e2, dy, sy, sub_self, h0]

theorem keyMap_keys_ne_escape :
    ∀ p ∈ keyMap, p.1 ≠ GLFW_KEY_ESCAPE := by
  decide

/-- C10: for every set of held keys, `UProcessInput` appends to the calls on `gCamera` exactly
one `ProcessKeyboard(direction, gDeltaTime)` for each held key among W, S, A, D, Q, E (the six
keys are distinct), mapped W to FORWARD, S to BACKWARD, A to LEFT, D to RIGHT, Q to UP, E to
DOWN, in this fixed order, and nothing for any other key; the camera is the result of these
calls; `gDeltaTime` is not changed; the window is asked to close exactly when Escape is held
(or it was asked before), and holding Escape does not change the calls of the frame. -/
theorem C10_process_input_calls (pressed : Int → Bool) (g : Globals α) :
    (UProcessInput pressed g).calls =
      g.calls ++ (keyMap.filter (fun p => pressed p.1)).map
        (fun p => CameraCall.keyboard p.2 g.gDeltaTime) ∧
    (UProcessInput pressed g).gCamera =
      (keyMap.filter (fun p => pressed p.1)).foldl
        (fun c p => c.ProcessKeyboard p.2 g.gDeltaTime) g.gCamera ∧
    keyMap = [(GLFW_KEY_W, FORWARD), (GLFW_KEY_S, BACKWARD), (GLFW_KEY_A, LEFT),
      (GLFW_KEY_D, RIGHT), (GLFW_KEY_Q, UP), (GLFW_KEY_E, DOWN)] ∧
    (keyMap.map Prod.fst).Nodup ∧
    (UProcessInput pressed g).gDeltaTime = g.gDeltaTime ∧
    (UProcessInput pressed g).windowShouldClose =
      (g.windowShouldClose || pressed GLFW_KEY_ESCAPE) ∧
    (UProcessInput (Function.update pressed GLFW_KEY_ESCAPE true) g).calls =
      (UProcessInput pressed g).calls ∧
    (UProcessInput (Function.update pressed GLFW_KEY_ESCAPE true) g).gCamera =
      (UProcessInput pressed g).gCamera ∧
    (UProcessInput (Function.update pressed GLFW_KEY_ESCAPE true) g).windowShouldClose =
      true := by
  have key : ∀ (q : Int → Bool),
      (UProcessInput q g).calls =
          g.calls ++ (keyMap.filter (fun p => q p.1)).map
            (fun p => CameraCall.keyboard p.2 g.gDeltaTime) ∧
      (UProcessInput q g).gCamera =
          (keyMap.filter (fun p => q p.1)).foldl
            (fun c p => c.ProcessKeyboard p.2 g.gDeltaTime) g.gCamera ∧
      (UProcessInput q g).gDeltaTime = g.gDeltaTime ∧
      (UProcessInput q g).windowShouldClose = (g.windowShouldClose || q GLFW_KEY_ESCAPE) := by
    intro q
    simp only [UProcessInput, keyMap, List.filter]
    cases q GLFW_KEY_ESCAPE <;> cases q GLFW_KEY_W <;> cases q GLFW_KEY_S <;>
      cases q GLFW_KEY_A <;> cases q GLFW_KEY_D <;> cases q GLFW_KEY_Q <;>
      cases q GLFW_KEY_E <;> simp [Globals.processKeyboard]
  have agree : (keyMap.filter (fun p => Function.update pressed GLFW_KEY_ESCAPE true p.1)) =
      keyMap.filter (fun p => pressed p.1) := by
    apply List.filter_congr
    intro p hp
    rw [Function.update_noteq (keyMap_keys_ne_escape p hp)]
  obtain ⟨h1, h2, h3, h4⟩ := key pressed
  obtain ⟨u1, u2, _, u4⟩ := key (Function.update pressed GLFW_KEY_ESCAPE true)
  refine ⟨h1, h2, rfl, by decide, h3, h4, ?_, ?_, ?_⟩
  · rw [u1, h1, agree]
  · rw [u2, h2, agree]
  · rw [u4]
    simp

end Input

/-! ## The camera basis over the reals -/

section Basis

theorem realOps_normalize (v : Vec3 ℝ) (l : ℝ) (hl : 0 < l) (h : Vec3.dot v v = l * l) :
    realOps.normalize v = ⟨v.x / l, v.y / l, v.z / l⟩ := by
  simp only [MathOps.normalize, realOps, h, Vec3.scale, Real.sqrt_mul_self hl.le,
    div_eq_mul_inv, one_mul]

theorem realOps_length (v : Vec3 ℝ) (h : Vec3.dot v v = 1) : realOps.length v = 1 := by
  simp only [MathOps.length, realOps, h, Real.sqrt_one]

theorem realOps_cos_radians_pos (pitch : ℝ) (h : |pitch| ≤ 89) :
    0 < realOps.cos (realOps.radians pitch) := by
  have hpi := Real.pi_pos
  obtain ⟨hlo, hhi⟩ := abs_le.mp h
  apply Real.cos_pos_of_mem_Ioo
  simp only [MathOps.radians, realOps]
  constructor <;> nlinarith

/-- The vectors that `updateCameraVectors` computes over the reals when `worldUp = (0, 1, 0)` and
the cosine of the pitch is positive, in closed form. -/
theorem Camera.updateCameraVectors_real (c : Camera ℝ) (hw : c.WorldUp = ⟨0, 1, 0⟩)
    (hc : 0 < Real.cos (realOps.radians c.Pitch)) :
    (c.updateCameraVectors realOps).Front =
        ⟨Real.cos (realOps.radians c.Yaw) * Real.cos (realOps.radians c.Pitch),
         Real.sin (realOps.radians c.Pitch),
         Real.sin (realOps.radians c.Yaw) * Real.cos (realOps.radians c.Pitch)⟩ ∧
    (c.updateCameraVectors realOps).Right =
        ⟨-Real.sin (realOps.radians c.Yaw), 0, Real.cos (realOps.radians c.Yaw)⟩ ∧
    (c.updateCameraVectors realOps).Up =
        ⟨-(Real.cos (realOps.radians c.Yaw) * Real.sin (realOps.radians c.Pitch)),
         Real.cos (realOps.radians c.Pitch),
         -(Real.sin (realOps.radians c.Yaw) * Real.sin (realOps.radians c.Pitch))⟩ := by
  have hy : Real.cos (realOps.radians c.Yaw) ^ 2 + Real.sin (realOps.radians c.Yaw) ^ 2 = 1 :=
    Real.cos_sq_add_sin_sq _
  have hp : Real.cos (realOps.radians c.Pitch) ^ 2 + Real.sin (realOps.radians c.Pitch) ^ 2 = 1 :=
    Real.cos_sq_add_sin_sq _
  set cy := Real.cos (realOps.radians c.Yaw) with hcy
  set sy := Real.sin (realOps.radians c.Yaw) with hsy
  set cp := Real.cos (realOps.radians c.Pitch) with hcp
  set sp := Real.sin (realOps.radians c.Pitch) with hsp
  have hcos : realOps.cos = Real.cos := rfl
  have hsin : realOps.sin = Real.sin := rfl
  have hfront : realOps.normalize (⟨cy * cp, sp, sy * cp⟩ : Vec3 ℝ) = ⟨cy * cp, sp, sy * cp⟩ := by
    rw [realOps_normalize _ 1 one_pos]
    · simp
    · simp only [Vec3.dot]
      linear_combination cp ^ 2 * hy + hp
  have hright : realOps.normalize (Vec3.cross (⟨cy * cp, sp, sy * cp⟩ : Vec3 ℝ) ⟨0, 1, 0⟩) =
      ⟨-sy, 0, cy⟩ := by
    rw [realOps_normalize _ cp hc]
    · simp only [Vec3.cross, Vec3.mk.injEq]
      refine ⟨?_, ?_, ?_⟩ <;> field_simp
    · simp only [Vec3.cross, Vec3.dot]
      linear_combination cp ^ 2 * hy
  have hup : realOps.normalize
      (Vec3.cross (⟨-sy, 0, cy⟩ : Vec3 ℝ) ⟨cy * cp, sp, sy * cp⟩) =
      ⟨-(cy * sp), cp, -(sy * sp)⟩ := by
    rw [realOps_normalize _ 1 one_pos]
    · simp only [Vec3.cross, Vec3.mk.injEq, div_one]
      refine ⟨by ring, ?_, by ring⟩
      linear_combination cp * hy
    · simp only [Vec3.cross, Vec3.dot]
      linear_combination (cp ^ 2 * (cy ^ 2 + sy ^ 2) + cp ^ 2 + sp ^ 2) * hy + hp
  simp only [Camera.updateCameraVectors, hw, hcos, hsin, ← hcy, ← hsy, ← hcp, ← hsp, hfront,
    hright, hup, and_self]

theorem Camera.updateCameraVectors_orthonormal (c : Camera ℝ) (hw : c.WorldUp = ⟨0, 1, 0⟩)
    (hp : |c.Pitch| ≤ 89) :
    Orthonormal realOps (c.updateCameraVectors realOps).Front
      (c.updateCameraVectors realOps).Right (c.updateCameraVectors realOps).Up := by
  obtain ⟨hF, hR, hU⟩ := Camera.updateCameraVectors_real c hw (realOps_cos_radians_pos _ hp)
  have hy : Real.cos (realOps.radians c.Yaw) ^ 2 + Real.sin (realOps.radians c.Yaw) ^ 2 = 1 :=
    Real.cos_sq_add_sin_sq _
  have hq : Real.cos (realOps.radians c.Pitch) ^ 2 + Real.sin (realOps.radians c.Pitch) ^ 2 = 1 :=
    Real.cos_sq_add_sin_sq _
  rw [hF, hR, hU]
  set cy := Real.cos (realOps.radians c.Yaw)
  set sy := Real.sin (realOps.radians c.Yaw)
  set cp := Real.cos (realOps.radians c.Pitch)
  set sp := Real.sin (realOps.radians c.Pitch)
  refine ⟨realOps_length _ ?_, realOps_length _ ?_, realOps_length _ ?_, ?_, ?_, ?_⟩
  · simp only [Vec3.dot]
    linear_combination cp ^ 2 * hy + hq
  · simp only [Vec3.dot]
    linear_combination hy
  · simp only [Vec3.dot]
    linear_combination sp ^ 2 * hy + hq
  · simp only [Vec3.dot]
    ring
  · simp only [Vec3.dot]
    linear_combination (-(cp * sp)) * hy
  · simp only [Vec3.dot]
    ring

/-- C4: over the reals, for every yaw and every pitch with `|pitch| ≤ 89` degrees and
`worldUp = (0, 1, 0)`, the vectors `front`, `right`, `up` recomputed from yaw and pitch (front
from the spherical formula, `right = normalize(cross(front, worldUp))`,
`up = normalize(cross(right, front))`) each have length 1 and pairwise dot product 0; this is
the case after every `ProcessMouseMovement` with `constrainPitch = true`, whatever the offsets
and the pitch before. -/
theorem C4_basis_orthonormal (c : Camera ℝ) (yaw pitch x y : ℝ) (hw : c.WorldUp = ⟨0, 1, 0⟩)
    (hp : |pitch| ≤ 89) :
    Orthonormal realOps
      (Camera.updateCameraVectors realOps { c with Yaw := yaw, Pitch := pitch }).Front
      (Camera.updateCameraVectors realOps { c with Yaw := yaw, Pitch := pitch }).Right
      (Camera.updateCameraVectors realOps { c with Yaw := yaw, Pitch := pitch }).Up ∧
    Orthonormal realOps (c.ProcessMouseMovement realOps x y true).Front
      (c.ProcessMouseMovement realOps x y true).Right
      (c.ProcessMouseMovement realOps x y true).Up := by
  refine ⟨Camera.updateCameraVectors_orthonormal { c with Yaw := yaw, Pitch := pitch } hw hp, ?_⟩
  have hmem := Camera.pitch_mem_ProcessMouseMovement realOps x y c
  rw [Camera.ProcessMouseMovement_eq]
  exact Camera.updateCameraVectors_orthonormal
    { c with
      Yaw := c.Yaw + x * c.MouseSensitivity
      Pitch := (c.ProcessMouseMovement realOps x y true).Pitch } hw (abs_le.mpr hmem)

/-- Witness of C4: the initial camera turned to yaw 30 and pitch -89 degrees, and a mouse
movement by `(12, 100000)`. -/
theorem C4_basis_orthonormal_witness :
    (Camera.new realOps ⟨0, 0, 10⟩ 1 1).WorldUp = ⟨0, 1, 0⟩ ∧ |(-89 : ℝ)| ≤ 89 ∧
    Orthonormal realOps
      ((Camera.new realOps ⟨0, 0, 10⟩ 1 1).ProcessMouseMovement realOps 12 100000 true).Front
      ((Camera.new realOps ⟨0, 0, 10⟩ 1 1).ProcessMouseMovement realOps 12 100000 true).Right
      ((Camera.new realOps ⟨0, 0, 10⟩ 1 1).ProcessMouseMovement realOps 12 100000 true).Up :=
  have hp : |(-89 : ℝ)| ≤ 89 := by norm_num [abs_le]
  ⟨rfl, hp,
    (C4_basis_orthonormal (Camera.new realOps ⟨0, 0, 10⟩ 1 1) 30 (-89) 12 100000 rfl hp).2⟩

theorem realOps_radians_neg_ninety : realOps.radians (-90) = -(Real.pi / 2) := by
  simp only [MathOps.radians, realOps]
  ring

theorem realOps_radians_zero : realOps.radians 0 = 0 := by
  simp [MathOps.radians]

/-- The basis of the camera as constructed, over the reals. -/
theorem Camera.new_real (position : Vec3 ℝ) (speed sensitivity : ℝ) :
    Camera.new realOps position speed sensitivity =
      { Position := position
        Front := ⟨0, 0, -1⟩
        Up := ⟨0, 1, 0⟩
        Right := ⟨1, 0, 0⟩
        WorldUp := ⟨0, 1, 0⟩
        Yaw := -90
        Pitch := 0
        MovementSpeed := speed
        MouseSensitivity := sensitivity
        Zoom := 45 } := by
  have h := Camera.updateCameraVectors_real
    ({ Position := position
       Front := ⟨0, 0, -1⟩
       Up := ⟨0, 1, 0⟩
       Right := ⟨1, 0, 0⟩
       WorldUp := ⟨0, 1, 0⟩
       Yaw := -90
       Pitch := 0
       MovementSpeed := speed
       MouseSensitivity := sensitivity
       Zoom := 45 } : Camera ℝ) rfl
    (by simp only [realOps_radians_zero, Real.cos_zero]; exact one_pos)
  simp only [realOps_radians_neg_ninety, realOps_radians_zero, Real.cos_neg, Real.sin_neg,
    Real.cos_pi_div_two, Real.sin_pi_div_two, Real.cos_zero, Real.sin_zero, mul_one, mul_zero,
    neg_zero, neg_neg] at h
  obtain ⟨hF, hR, hU⟩ := h
  have hrest : Camera.new realOps position speed sensitivity =
      { Position := position
        Front := (Camera.new realOps position speed sensitivity).Front
        Up := (Camera.new realOps position speed sensitivity).Up
        Right := (Camera.new realOps position speed sensitivity).Right
        WorldUp := ⟨0, 1, 0⟩
        Yaw := -90
        Pitch := 0
        MovementSpeed := speed
        MouseSensitivity := sensitivity
        Zoom := 45 } := rfl
  rw [hrest]
  unfold Camera.new
  rw [hF, hR, hU]

theorem lookAt_real_initial :
    lookAt realOps ⟨0, 0, 10⟩ ⟨0, 0, 9⟩ ⟨0, 1, 0⟩ = translate ⟨0, 0, -10⟩ := by
  have hf : realOps.normalize (Vec3.sub (⟨0, 0, 9⟩ : Vec3 ℝ) ⟨0, 0, 10⟩) = ⟨0, 0, -1⟩ := by
    rw [realOps_normalize _ 1 one_pos]
    · simp only [Vec3.sub, Vec3.mk.injEq]
      norm_num
    · simp only [Vec3.sub, Vec3.dot]
      norm_num
  have hs : realOps.normalize (⟨1, 0, 0⟩ : Vec3 ℝ) = ⟨1, 0, 0⟩ := by
    rw [realOps_normalize _ 1 one_pos]
    · simp only [Vec3.mk.injEq]
      norm_num
    · simp only [Vec3.dot]
      norm_num
  simp only [lookAt, translate, hf, Vec3.cross, Vec3.dot]
  norm_num [hs]

/-- C7: over the reals, the global camera as constructed in `Source.cpp` (position
`(0, 0, 10)`, yaw -90 degrees, pitch 0) has `front = (0, 0, -1)` (and `right = (1, 0, 0)`,
`up = (0, 1, 0)`), and its view matrix is the right-handed look-at matrix with eye `(0, 0, 10)`,
target `(0, 0, 9)` and up `(0, 1, 0)`, which is the translation by `(0, 0, -10)`. -/
theorem C7_initial_view_matrix (speed sensitivity : ℝ) :
    (Globals.init realOps speed sensitivity).gCamera.Position = ⟨0, 0, 10⟩ ∧
    (Globals.init realOps speed sensitivity).gCamera.Yaw = -90 ∧
    (Globals.init realOps speed sensitivity).gCamera.Pitch = 0 ∧
    (Globals.init realOps speed sensitivity).gCamera.Front = ⟨0, 0, -1⟩ ∧
    (Globals.init realOps speed sensitivity).gCamera.Right = ⟨1, 0, 0⟩ ∧
    (Globals.init realOps speed sensitivity).gCamera.Up = ⟨0, 1, 0⟩ ∧
    (Globals.init realOps speed sensitivity).gCamera.GetViewMatrix realOps =
      lookAt realOps ⟨0, 0, 10⟩ ⟨0, 0, 9⟩ ⟨0, 1, 0⟩ ∧
    (Globals.init realOps speed sensitivity).gCamera.GetViewMatrix realOps =
      translate ⟨0, 0, -10⟩ := by
  have hcam : (Globals.init realOps speed sensitivity).gCamera =
      Camera.new realOps ⟨0, 0, 10⟩ speed sensitivity := rfl
  have hview : (Globals.init realOps speed sensitivity).gCamera.GetViewMatrix realOps =
      lookAt realOps ⟨0, 0, 10⟩ ⟨0, 0, 9⟩ ⟨0, 1, 0⟩ := by
    rw [hcam, Camera.new_real]
    simp only [Camera.GetViewMatrix, Vec3.add]
    norm_num
  rw [hview, lookAt_real_initial, hcam, Camera.new_real]
  simp

end Basis

/-! ## Frame timing -/

section Timing

variable {α : Type} [LinearOrderedField α]

theorem UProcessInput_timing (pressed : Int → Bool) (g : Globals α) :
    (UProcessInput pressed g).gDeltaTime = g.gDeltaTime ∧
      (UProcessInput pressed g).gLastFrame = g.gLastFrame := by
  simp only [UProcessInput]
  cases pressed GLFW_KEY_ESCAPE <;> cases pressed GLFW_KEY_W <;> cases pressed GLFW_KEY_S <;>
    cases pressed GLFW_KEY_A <;> cases pressed GLFW_KEY_D <;> cases pressed GLFW_KEY_Q <;>
    cases pressed GLFW_KEY_E <;> simp [Globals.processKeyboard]

theorem UProcessInput_calls (pressed : Int → Bool) (g : Globals α) :
    (UProcessInput pressed g).calls =
      g.calls ++ (keyMap.filter (fun p => pressed p.1)).map
        (fun p => CameraCall.keyboard p.2 g.gDeltaTime) := by
  simp only [UProcessInput, keyMap, List.filter]
  cases pressed GLFW_KEY_ESCAPE <;> cases pressed GLFW_KEY_W <;> cases pressed GLFW_KEY_S <;>
    cases pressed GLFW_KEY_A <;> cases pressed GLFW_KEY_D <;> cases pressed GLFW_KEY_Q <;>
    cases pressed GLFW_KEY_E <;> simp [Globals.processKeyboard]

theorem drawObject_globals (m : MathOps α) (scaleBy : Vec3 α) (angle : α)
    (axis position : Vec3 α) (vao nVertices : Nat) (s : App α) :
    (drawObject m scaleBy angle axis position vao nVertices s).globals = s.globals := by
  simp only [drawObject, App.emit]

theorem renderAll_globals (m : MathOps α) (s : App α) : (renderAll m s).globals = s.globals := by
  simp only [renderAll, URenderPlane, URenderPyr, URenderCube, URenderRec, URenderRec2,
    URenderRec3, drawObject_globals, App.emit]

theorem dispatch_timing [FloatRounding α] (m : MathOps α) (e : Event α) (s : App α) :
    (dispatch m e s).globals.gDeltaTime = s.globals.gDeltaTime ∧
      (dispatch m e s).globals.gLastFrame = s.globals.gLastFrame := by
  cases e with
  | cursorPos xpos ypos =>
    cases h : s.globals.gFirstMouse <;> simp [dispatch, UMousePositionCallback, h]
  | scroll xoffset yoffset => exact ⟨rfl, rfl⟩
  | framebufferSize width height => exact ⟨rfl, rfl⟩
  | mouseButton button action mods =>
    simp only [dispatch, UMouseButtonCallback]
    split_ifs <;> exact ⟨rfl, rfl⟩
  | windowClose => exact ⟨rfl, rfl⟩

theorem glfwPollEvents_timing [FloatRounding α] (m : MathOps α) (events : List (Event α))
    (s : App α) :
    (glfwPollEvents m events s).globals.gDeltaTime = s.globals.gDeltaTime ∧
      (glfwPollEvents m events s).globals.gLastFrame = s.globals.gLastFrame := by
  induction events generalizing s with
  | nil => exact ⟨rfl, rfl⟩
  | cons e rest ih =>
    have step : glfwPollEvents m (e :: rest) s = glfwPollEvents m rest (dispatch m e s) := rfl
    rw [step, (ih _).1, (ih _).2]
    exact dispatch_timing m e s

theorem frame_timing [FloatRounding α] (m : MathOps α) (f : FrameInput α) (s : App α) :
    (frame m f s).globals.gDeltaTime =
        toFloat (toFloat f.currentFrame - s.globals.gLastFrame) ∧
      (frame m f s).globals.gLastFrame = toFloat f.currentFrame := by
  have hp := glfwPollEvents_timing m f.events (renderAll m (frameInput f s))
  have hu := UProcessInput_timing f.pressed (frameTiming f.currentFrame s.globals)
  simp only [frame, hp, renderAll_globals]
  simp only [frameInput, hu]
  simp only [frameTiming, and_self]

theorem frameDeltas_eq_zipWith [FloatRounding α] (ts : List α) (g : Globals α) :
    frameDeltas ts g =
      List.zipWith (fun t previous => toFloat (toFloat t - previous)) ts
        (g.gLastFrame :: ts.map toFloat) := by
  induction ts generalizing g with
  | nil => rfl
  | cons t rest ih =>
    simp only [frameDeltas, List.map_cons, List.zipWith_cons_cons, ih]
    simp [frameTiming]

theorem frameDeltas_exact [FloatRounding α] (ts : List α) (g : Globals α)
    (h : ExactTimes g.gLastFrame ts) :
    frameDeltas ts g =
      List.zipWith (fun t previous => t - previous) ts (g.gLastFrame :: ts) := by
  induction ts generalizing g with
  | nil => rfl
  | cons t rest ih =>
    simp only [ExactTimes] at h
    obtain ⟨ht, hd, hrest⟩ := h
    have hlast : (frameTiming t g).gLastFrame = t := by
      simp only [frameTiming]
      exact ht
    have hdelta : (frameTiming t g).gDeltaTime = t - g.gLastFrame := by
      simp only [frameTiming]
      rw [ht, hd]
    simp only [frameDeltas, List.zipWith_cons_cons]
    rw [hdelta, ih (frameTiming t g) (by rw [hlast]; exact hrest), hlast]

theorem zipWith_sub_sum (ts : List α) (previous : α) :
    (List.zipWith (fun t previous => t - previous) ts (previous :: ts)).sum =
      ts.getLastD previous - previous := by
  induction ts generalizing previous with
  | nil => simp
  | cons t rest ih =>
    simp only [List.zipWith_cons_cons, List.sum_cons, ih, List.getLastD_cons]
    ring

theorem frameDeltas_nonneg [FloatRounding α] (hl : FloatLaws α) (ts : List α) (g : Globals α)
    (previous : α) (hp : g.gLastFrame = toFloat previous)
    (h : List.Chain (fun a b => a ≤ b) previous ts) : ∀ d ∈ frameDeltas ts g, 0 ≤ d := by
  induction ts generalizing g previous with
  | nil => simp [frameDeltas]
  | cons t rest ih =>
    obtain ⟨h1, h2⟩ := List.chain_cons.mp h
    obtain ⟨hf0, _, hfm, _⟩ := hl
    intro d hd
    simp only [frameDeltas, List.mem_cons] at hd
    rcases hd with hd | hd
    · rw [hd]
      have hle : toFloat previous ≤ toFloat t := hfm _ _ h1
      have hnn : 0 ≤ toFloat t - g.gLastFrame := by
        rw [hp]
        linarith
      have := hfm _ _ hnn
      rw [hf0] at this
      simpa [frameTiming] using this
    · exact ih (frameTiming t g) t rfl h2 d hd

/-- C11: with `gLastFrame = 0` at program start (`t_0 = 0`), an iteration of the loop that
reads the time `t` sets `gLastFrame` to `t` converted to `float` and `gDeltaTime` to the `float`
difference of this value and the previous `gLastFrame`, nothing else in the iteration changes
them, and every `ProcessKeyboard` call of the iteration is passed this delta; so for frame times
`t_1, ..., t_n` the delta of frame `k` is `(float)((float)t_k - (float)t_(k-1))`, the first one
being computed from the absolute time `t_1`. When the times and the differences of successive
times are `float` values, the delta of frame `k` is `t_k - t_(k-1)`, the first one is `t_1`, and
the deltas sum to `t_n`. If the times `t_0 = 0, t_1, ..., t_n` are non-decreasing, every delta
is `≥ 0`. -/
theorem C11_frame_deltas [FloatRounding α] (m : MathOps α) (speed sensitivity : α)
    (ts : List α) :
    (Globals.init m speed sensitivity).gLastFrame = 0 ∧
    (∀ (f : FrameInput α) (s : App α),
      (frameInput f s).globals.gDeltaTime =
        toFloat (toFloat f.currentFrame - s.globals.gLastFrame) ∧
      (frameInput f s).globals.calls =
        s.globals.calls ++ (keyMap.filter (fun p => f.pressed p.1)).map
          (fun p => CameraCall.keyboard p.2
            (toFloat (toFloat f.currentFrame - s.globals.gLastFrame))) ∧
      (frame m f s).globals.gDeltaTime =
        toFloat (toFloat f.currentFrame - s.globals.gLastFrame) ∧
      (frame m f s).globals.gLastFrame = toFloat f.currentFrame) ∧
    frameDeltas ts (Globals.init m speed sensitivity) =
      List.zipWith (fun t previous => toFloat (toFloat t - previous)) ts
        (0 :: ts.map toFloat) ∧
    (ExactTimes 0 ts →
      frameDeltas ts (Globals.init m speed sensitivity) =
        List.zipWith (fun t previous => t - previous) ts (0 :: ts) ∧
      (∀ t rest, ts = t :: rest →
        (frameDeltas ts (Globals.init m speed sensitivity)).head? = some t) ∧
      (frameDeltas ts (Globals.init m speed sensitivity)).sum = ts.getLastD 0) ∧
    (FloatLaws α → List.Chain (fun a b => a ≤ b) 0 ts →
      ∀ d ∈ frameDeltas ts (Globals.init m speed sensitivity), 0 ≤ d) := by
  have h0 : (Globals.init m speed sensitivity).gLastFrame = 0 := rfl
  refine ⟨h0, ?_, ?_, ?_, ?_⟩
  · intro f s
    have hu := UProcessInput_timing f.pressed (frameTiming f.currentFrame s.globals)
    have hc := UProcessInput_calls f.pressed (frameTiming f.currentFrame s.globals)
    refine ⟨?_, ?_, frame_timing m f s⟩
    · simp only [frameInput, hu]
      simp only [frameTiming]
    · simp only [frameInput, hc]
      simp only [frameTiming]
  · rw [frameDeltas_eq_zipWith, h0]
  · intro hexact
    have he := frameDeltas_exact ts (Globals.init m speed sensitivity)
      (by rw [h0]; exact hexact)
    rw [h0] at he
    refine ⟨he, ?_, ?_⟩
    · intro t rest hts
      rw [he, hts]
      simp
    · rw [he, zipWith_sub_sum, sub_zero]
  · intro hl hchain
    exact frameDeltas_nonneg hl ts _ 0 (by rw [h0]; exact hl.1.symm) hchain

/-- Witness of C11 for the frame times 1/64, 1/32, 1/32, 1/8, which are `float` values with
`float` differences: the four deltas are `≥ 0` and sum to 1/8. -/
theorem C11_frame_deltas_witness :
    ExactTimes (0 : ℚ) [1 / 64, 1 / 32, 1 / 32, 1 / 8] ∧
    List.Chain (fun a b : ℚ => a ≤ b) 0 [1 / 64, 1 / 32, 1 / 32, 1 / 8] ∧
    (∀ d ∈ frameDeltas [1 / 64, 1 / 32, 1 / 32, 1 / 8]
        (Globals.init sampleOps (5 / 2) (1 / 10)), 0 ≤ d) ∧
    (frameDeltas [1 / 64, 1 / 32, 1 / 32, 1 / 8] (Globals.init sampleOps (5 / 2) (1 / 10))).sum =
      ([1 / 64, 1 / 32, 1 / 32, 1 / 8] : List ℚ).getLastD 0 :=
  have f64 : toFloat (1 / 64 : ℚ) = 1 / 64 := by
    rw [toFloat_rat, float32_eq_of_near (1 / 64) (-6) (2 ^ 23) (by norm_num) (by norm_num)
      (by norm_num) (by norm_num)]
    norm_num
  have f32 : toFloat (1 / 32 : ℚ) = 1 / 32 := by
    rw [toFloat_rat, float32_eq_of_near (1 / 32) (-5) (2 ^ 23) (by norm_num) (by norm_num)
      (by norm_num) (by norm_num)]
    norm_num
  have f8 : toFloat (1 / 8 : ℚ) = 1 / 8 := by
    rw [toFloat_rat, float32_eq_of_near (1 / 8) (-3) (2 ^ 23) (by norm_num) (by norm_num)
      (by norm_num) (by norm_num)]
    norm_num
  have f3 : toFloat (3 / 32 : ℚ) = 3 / 32 := by
    rw [toFloat_rat, float32_eq_of_near (3 / 32) (-4) (3 * 2 ^ 22) (by norm_num) (by norm_num)
      (by norm_num) (by norm_num)]
    norm_num
  have f0 : toFloat (0 : ℚ) = 0 := float32_zero
  have hexact : ExactTimes (0 : ℚ) [1 / 64, 1 / 32, 1 / 32, 1 / 8] := by
    simp only [ExactTimes]
    refine ⟨f64, ?_, f32, ?_, f32, ?_, f8, ?_, trivial⟩
    · rw [sub_zero]
      exact f64
    · rw [show (1 / 32 - 1 / 64 : ℚ) = 1 / 64 by norm_num]
      exact f64
    · rw [sub_self]
      exact f0
    · rw [show (1 / 8 - 1 / 32 : ℚ) = 3 / 32 by norm_num]
      exact f3
  have hchain : List.Chain (fun a b : ℚ => a ≤ b) 0 [1 / 64, 1 / 32, 1 / 32, 1 / 8] := by
    norm_num
  have h := C11_frame_deltas sampleOps (5 / 2) (1 / 10) [1 / 64, 1 / 32, 1 / 32, 1 / 8]
  ⟨hexact, hchain, h.2.2.2.2 floatLaws_rat hchain, (h.2.2.2.1 hexact).2.2⟩

/-- The claim of C11 fails for the frame times `100000` and `100000 + 2⁻¹⁰`: both convert to the
`float` `100000`, so the deltas are `100000` and `0`, not `100000` and `2⁻¹⁰`, and they sum to
`100000`, not to the last time. -/
theorem C11_frame_deltas_counterexample :
    frameDeltas [100000, 100000 + 1 / 2 ^ 10] (Globals.init sampleOps (5 / 2) (1 / 10)) =
      [100000, 0] ∧
    List.zipWith (fun t previous : ℚ => t - previous) [100000, 100000 + 1 / 2 ^ 10]
      (0 :: [100000, 100000 + 1 / 2 ^ 10]) = [100000, 1 / 2 ^ 10] ∧
    (frameDeltas [100000, 100000 + 1 / 2 ^ 10] (Globals.init sampleOps (5 / 2) (1 / 10))).sum ≠
      ([100000, 100000 + 1 / 2 ^ 10] : List ℚ).getLastD 0 := by
  have f1 : toFloat (100000 : ℚ) = 100000 := by
    exact_mod_cast (exact_intCast 100000 (by norm_num) (by norm_num)).1
  have f2 : toFloat (100000 + 1 / 2 ^ 10 : ℚ) = 100000 := by
    rw [toFloat_rat, float32_eq_of_near (100000 + 1 / 2 ^ 10) 16 12800000 (by norm_num)
      (by norm_num) (by norm_num) (by norm_num)]
    norm_num
  have f0 : toFloat (0 : ℚ) = 0 := float32_zero
  have hd : frameDeltas [100000, 100000 + 1 / 2 ^ 10]
      (Globals.init sampleOps (5 / 2) (1 / 10)) = [100000, 0] := by
    rw [frameDeltas_eq_zipWith]
    show List.zipWith (fun t previous : ℚ => toFloat (toFloat t - previous))
      [100000, 100000 + 1 / 2 ^ 10]
      (0 :: [toFloat (100000 : ℚ), toFloat (100000 + 1 / 2 ^ 10 : ℚ)]) = _
    simp only [List.zipWith_cons_cons, List.zipWith_nil_left]
    rw [f1, f2, sub_zero, sub_self, f1, f0]
  refine ⟨hd, ?_, ?_⟩
  · norm_num
  · rw [hd]
    norm_num

end Timing

/-! ## Mesh sizes and buffer layout -/

section MeshFacts

variable {α : Type} [LinearOrderedField α]

theorem mem_attribBytes (size stride offset i b : Nat) :
    b ∈ attribBytes size stride offset i ↔
      offset + stride * i ≤ b ∧ b < offset + stride * i + sizeofFloat * size := by
  simp only [attribBytes, byteRange, List.mem_range'_1]

theorem layoutExact_of_size (bufferSize n : Nat) (h : bufferSize = 28 * n) :
    LayoutExact bufferSize n := by
  subst h
  refine ⟨?_, ?_, ?_⟩
  · intro i hi
    have e1 : 0 + stride * i = 28 * i := by
      simp [stride, sizeofFloat, floatsPerVertex, floatsPerColor]
    have e2 : sizeofFloat * floatsPerVertex + stride * i = 28 * i + 12 := by
      simp only [stride, sizeofFloat, floatsPerVertex, floatsPerColor]
      omega
    refine ⟨by simp only [attribBytes, e1]; rfl, by simp only [attribBytes, e2]; rfl, ?_, ?_⟩
    · intro b hb hb2
      rw [mem_attribBytes] at hb hb2
      simp only [stride, sizeofFloat, floatsPerVertex, floatsPerColor] at hb hb2
      omega
    · intro b hb
      simp only [mem_attribBytes, stride, sizeofFloat, floatsPerVertex, floatsPerColor] at hb
      omega
  · intro b hb
    refine ⟨b / 28, by omega, ?_⟩
    simp only [mem_attribBytes, stride, sizeofFloat, floatsPerVertex, floatsPerColor]
    omega
  · intro b i j hi hj
    simp only [mem_attribBytes, stride, sizeofFloat, floatsPerVertex, floatsPerColor] at hi hj
    omega

theorem UCreateMeshPlane_verts_length : (UCreateMeshPlane.verts : List α).length = 42 := by
  simp only [UCreateMeshPlane.verts, List.length_cons, List.length_nil]

theorem UCreateMeshPyr_verts_length : (UCreateMeshPyr.verts : List α).length = 126 := by
  simp only [UCreateMeshPyr.verts, List.length_cons, List.length_nil]

set_option maxRecDepth 8000 in
theorem UCreateMeshCube_verts_length : (UCreateMeshCube.verts : List α).length = 252 := by
  simp only [UCreateMeshCube.verts, List.length_cons, List.length_nil]

set_option maxRecDepth 8000 in
theorem UCreateMeshRec_verts_length : (UCreateMeshRec.verts : List α).length = 252 := by
  simp only [UCreateMeshRec.verts, List.length_cons, List.length_nil]

set_option maxRecDepth 8000 in
theorem UCreateMeshRec2_verts_length : (UCreateMeshRec2.verts : List α).length = 252 := by
  simp only [UCreateMeshRec2.verts, List.length_cons, List.length_nil]

set_option maxRecDepth 8000 in
theorem UCreateMeshRec3_verts_length : (UCreateMeshRec3.verts : List α).length = 252 := by
  simp only [UCreateMeshRec3.verts, List.length_cons, List.length_nil]

/-- C13: for each of the six `UCreateMesh*` functions the length of `verts` is a multiple of 7
floats, `sizeof(verts)` is exactly `nVertices` times the 28 bytes of a vertex (the division
that computes `nVertices` discards no remainder), and `nVertices` is 6 for the plane, 18 for
the pyramid, 36 for the cube and for each of `Rec`, `Rec2`, `Rec3`, every count a multiple
of 3. -/
theorem C13_vertex_counts (vao vbo : Nat) (mesh : GLMesh) :
    ((UCreateMeshPlane.verts : List α).length % 7 = 0 ∧
      (UCreateMeshPlane vao vbo mesh : GLMesh × List (GLCommand α)).1.nVertices = 6 ∧
      (UCreateMeshPlane vao vbo mesh : GLMesh × List (GLCommand α)).1.nVertices =
        vertexCount (UCreateMeshPlane.verts : List α) ∧
      sizeofVerts (UCreateMeshPlane.verts : List α) = 28 * 6 ∧ 6 % 3 = 0) ∧
    ((UCreateMeshPyr.verts : List α).length % 7 = 0 ∧
      (UCreateMeshPyr vao vbo mesh : GLMesh × List (GLCommand α)).1.nVertices = 18 ∧
      (UCreateMeshPyr vao vbo mesh : GLMesh × List (GLCommand α)).1.nVertices =
        vertexCount (UCreateMeshPyr.verts : List α) ∧
      sizeofVerts (UCreateMeshPyr.verts : List α) = 28 * 18 ∧ 18 % 3 = 0) ∧
    ((UCreateMeshCube.verts : List α).length % 7 = 0 ∧
      (UCreateMeshCube vao vbo mesh : GLMesh × List (GLCommand α)).1.nVertices = 36 ∧
      (UCreateMeshCube vao vbo mesh : GLMesh × List (GLCommand α)).1.nVertices =
        vertexCount (UCreateMeshCube.verts : List α) ∧
      sizeofVerts (UCreateMeshCube.verts : List α) = 28 * 36 ∧ 36 % 3 = 0) ∧
    ((UCreateMeshRec.verts : List α).length % 7 = 0 ∧
      (UCreateMeshRec vao vbo mesh : GLMesh × List (GLCommand α)).1.nVertices = 36 ∧
      (UCreateMeshRec vao vbo mesh : GLMesh × List (GLCommand α)).1.nVertices =
        vertexCount (UCreateMeshRec.verts : List α) ∧
      sizeofVerts (UCreateMeshRec.verts : List α) = 28 * 36) ∧
    ((UCreateMeshRec2.verts : List α).length % 7 = 0 ∧
      (UCreateMeshRec2 vao vbo mesh : GLMesh × List (GLCommand α)).1.nVertices = 36 ∧
      (UCreateMeshRec2 vao vbo mesh : GLMesh × List (GLCommand α)).1.nVertices =
        vertexCount (UCreateMeshRec2.verts : List α) ∧
      sizeofVerts (UCreateMeshRec2.verts : List α) = 28 * 36) ∧
    ((UCreateMeshRec3.verts : List α).length % 7 = 0 ∧
      (UCreateMeshRec3 vao vbo mesh : GLMesh × List (GLCommand α)).1.nVertices = 36 ∧
      (UCreateMeshRec3 vao vbo mesh : GLMesh × List (GLCommand α)).1.nVertices =
        vertexCount (UCreateMeshRec3.verts : List α) ∧
      sizeofVerts (UCreateMeshRec3.verts : List α) = 28 * 36) := by
  simp only [UCreateMeshPlane, UCreateMeshPyr, UCreateMeshCube, UCreateMeshRec, UCreateMeshRec2,
    UCreateMeshRec3, vertexCount, sizeofVerts, UCreateMeshPlane_verts_length,
    UCreateMeshPyr_verts_length, UCreateMeshCube_verts_length, UCreateMeshRec_verts_length,
    UCreateMeshRec2_verts_length, UCreateMeshRec3_verts_length, sizeofFloat, floatsPerVertex,
    floatsPerColor]
  decide

omit [LinearOrderedField α] in
theorem uploadCommands_eq (vao vbo : Nat) (verts : List α) :
    uploadCommands vao vbo verts =
      [GLCommand.genVertexArrays vao, GLCommand.bindVertexArray vao,
       GLCommand.genBuffers vbo, GLCommand.bindBuffer vbo,
       GLCommand.bufferData (4 * verts.length) verts,
       GLCommand.vertexAttribPointer 0 3 28 0, GLCommand.enableVertexAttribArray 0,
       GLCommand.vertexAttribPointer 1 4 28 12, GLCommand.enableVertexAttribArray 1] := rfl

/-- C14: each of the six `UCreateMesh*` functions uploads `sizeof(verts) = 28 * nVertices`
bytes and sets up attribute 0 with 3 floats, stride 28, offset 0 and attribute 1 with 4 floats,
stride 28, offset 12; so for every vertex `i < nVertices` attribute 0 reads the bytes
`[28 i, 28 i + 12)` and attribute 1 the bytes `[28 i + 12, 28 i + 28)`, the two ranges are
disjoint and inside the buffer, and over all `i < nVertices` they cover the buffer exactly
(every byte is read, none twice): a draw of `nVertices` vertices reads nothing outside the
buffer. -/
theorem C14_attribute_layout (vao vbo : Nat) (mesh : GLMesh) :
    ((UCreateMeshPlane vao vbo mesh : GLMesh × List (GLCommand α)).2 =
        [GLCommand.genVertexArrays vao, GLCommand.bindVertexArray vao,
         GLCommand.genBuffers vbo, GLCommand.bindBuffer vbo,
         GLCommand.bufferData (28 * 6) UCreateMeshPlane.verts,
         GLCommand.vertexAttribPointer 0 3 28 0, GLCommand.enableVertexAttribArray 0,
         GLCommand.vertexAttribPointer 1 4 28 12, GLCommand.enableVertexAttribArray 1] ∧
      (UCreateMeshPlane vao vbo mesh : GLMesh × List (GLCommand α)).1.nVertices = 6 ∧
      LayoutExact (28 * 6) 6) ∧
    ((UCreateMeshPyr vao vbo mesh : GLMesh × List (GLCommand α)).2 =
        [GLCommand.genVertexArrays vao, GLCommand.bindVertexArray vao,
         GLCommand.genBuffers vbo, GLCommand.bindBuffer vbo,
         GLCommand.bufferData (28 * 18) UCreateMeshPyr.verts,
         GLCommand.vertexAttribPointer 0 3 28 0, GLCommand.enableVertexAttribArray 0,
         GLCommand.vertexAttribPointer 1 4 28 12, GLCommand.enableVertexAttribArray 1] ∧
      (UCreateMeshPyr vao vbo mesh : GLMesh × List (GLCommand α)).1.nVertices = 18 ∧
      LayoutExact (28 * 18) 18) ∧
    ((UCreateMeshCube vao vbo mesh : GLMesh × List (GLCommand α)).2 =
        [GLCommand.genVertexArrays vao, GLCommand.bindVertexArray vao,
         GLCommand.genBuffers vbo, GLCommand.bindBuffer vbo,
         GLCommand.bufferData (28 * 36) UCreateMeshCube.verts,
         GLCommand.vertexAttribPointer 0 3 28 0, GLCommand.enableVertexAttribArray 0,
         GLCommand.vertexAttribPointer 1 4 28 12, GLCommand.enableVertexAttribArray 1] ∧
      (UCreateMeshCube vao vbo mesh : GLMesh × List (GLCommand α)).1.nVertices = 36 ∧
      LayoutExact (28 * 36) 36) ∧
    ((UCreateMeshRec vao vbo mesh : GLMesh × List (GLCommand α)).2 =
        [GLCommand.genVertexArrays vao, GLCommand.bindVertexArray vao,
         GLCommand.genBuffers vbo, GLCommand.bindBuffer vbo,
         GLCommand.bufferData (28 * 36) UCreateMeshRec.verts,
         GLCommand.vertexAttribPointer 0 3 28 0, GLCommand.enableVertexAttribArray 0,
         GLCommand.vertexAttribPointer 1 4 28 12, GLCommand.enableVertexAttribArray 1] ∧
      (UCreateMeshRec vao vbo mesh : GLMesh × List (GLCommand α)).1.nVertices = 36 ∧
      LayoutExact (28 * 36) 36) ∧
    ((UCreateMeshRec2 vao vbo mesh : GLMesh × List (GLCommand α)).2 =
        [GLCommand.genVertexArrays vao, GLCommand.bindVertexArray vao,
         GLCommand.genBuffers vbo, GLCommand.bindBuffer vbo,
         GLCommand.bufferData (28 * 36) UCreateMeshRec2.verts,
         GLCommand.vertexAttribPointer 0 3 28 0, GLCommand.enableVertexAttribArray 0,
         GLCommand.vertexAttribPointer 1 4 28 12, GLCommand.enableVertexAttribArray 1] ∧
      (UCreateMeshRec2 vao vbo mesh : GLMesh × List (GLCommand α)).1.nVertices = 36 ∧
      LayoutExact (28 * 36) 36) ∧
    ((UCreateMeshRec3 vao vbo mesh : GLMesh × List (GLCommand α)).2 =
        [GLCommand.genVertexArrays vao, GLCommand.bindVertexArray vao,
         GLCommand.genBuffers vbo, GLCommand.bindBuffer vbo,
         GLCommand.bufferData (28 * 36) UCreateMeshRec3.verts,
         GLCommand.vertexAttribPointer 0 3 28 0, GLCommand.enableVertexAttribArray 0,
         GLCommand.vertexAttribPointer 1 4 28 12, GLCommand.enableVertexAttribArray 1] ∧
      (UCreateMeshRec3 vao vbo mesh : GLMesh × List (GLCommand α)).1.nVertices = 36 ∧
      LayoutExact (28 * 36) 36) := by
  simp only [UCreateMeshPlane, UCreateMeshPyr, UCreateMeshCube, UCreateMeshRec, UCreateMeshRec2,
    UCreateMeshRec3, uploadCommands_eq, vertexCount, sizeofVerts, UCreateMeshPlane_verts_length,
    UCreateMeshPyr_verts_length, UCreateMeshCube_verts_length, UCreateMeshRec_verts_length,
    UCreateMeshRec2_verts_length, UCreateMeshRec3_verts_length, sizeofFloat, floatsPerVertex,
    floatsPerColor]
  simp only [true_and, and_self]
  exact ⟨layoutExact_of_size _ _ rfl, layoutExact_of_size _ _ rfl, layoutExact_of_size _ _ rfl⟩

end MeshFacts

/-! ## The commands of a frame -/

section Frames

variable {α : Type} [LinearOrderedField α]

theorem renderAll_gl (m : MathOps α) (s : App α) :
    (renderAll m s).gl = s.gl ++ renderCommands m s := by
  simp only [renderCommands, renderAll, URenderPlane, URenderPyr, URenderCube, URenderRec,
    URenderRec2, URenderRec3, drawObject, App.emit, List.append_assoc, List.nil_append,
    List.cons_append]

omit [LinearOrderedField α] in
theorem resizeCommands_cons (e : Event α) (rest : List (Event α)) :
    resizeCommands (e :: rest) = resizeCommands [e] ++ resizeCommands rest := by
  cases e <;> rfl

theorem dispatch_gl [FloatRounding α] (m : MathOps α) (e : Event α) (s : App α) :
    (dispatch m e s).gl = s.gl ++ resizeCommands [e] := by
  cases e with
  | cursorPos xpos ypos => simp [dispatch, resizeCommands]
  | scroll xoffset yoffset => simp [dispatch, resizeCommands]
  | framebufferSize width height => rfl
  | mouseButton button action mods =>
    simp only [dispatch, UMouseButtonCallback, resizeCommands, List.append_nil]
    split_ifs <;> rfl
  | windowClose => simp [dispatch, resizeCommands]

theorem glfwPollEvents_gl [FloatRounding α] (m : MathOps α) (events : List (Event α))
    (s : App α) :
    (glfwPollEvents m events s).gl = s.gl ++ resizeCommands events := by
  induction events generalizing s with
  | nil => simp [glfwPollEvents, resizeCommands]
  | cons e rest ih =>
    have step : glfwPollEvents m (e :: rest) s = glfwPollEvents m rest (dispatch m e s) := rfl
    rw [step, ih, dispatch_gl, resizeCommands_cons e rest, List.append_assoc]

theorem frameCommands_eq [FloatRounding α] (m : MathOps α) (f : FrameInput α) (s : App α) :
    frameCommands m f s = renderCommands m (frameInput f s) ++ resizeCommands f.events := by
  simp only [frameCommands, frame, glfwPollEvents_gl, renderAll_gl]
  simp only [frameInput, List.nil_append, renderCommands]

theorem frame_gl [FloatRounding α] (m : MathOps α) (f : FrameInput α) (s : App α) :
    (frame m f s).gl = s.gl ++ frameCommands m f s := by
  rw [frameCommands_eq]
  simp only [frame, glfwPollEvents_gl, renderAll_gl, List.append_assoc]
  simp only [frameInput]

omit [LinearOrderedField α] in
theorem resizeCommands_filter_isDrawStep (events : List (Event α)) :
    (resizeCommands events).filter GLCommand.isDrawStep = [] := by
  induction events with
  | nil => rfl
  | cons e rest ih =>
    rw [resizeCommands_cons, List.filter_append, ih]
    cases e <;> simp [resizeCommands, GLCommand.isDrawStep]

theorem renderCommands_filter_isDrawStep (m : MathOps α) (s : App α) :
    (renderCommands m s).filter GLCommand.isDrawStep =
      [GLCommand.clear true true,
       GLCommand.bindVertexArray s.gMeshPlane.vaoPlane,
       GLCommand.drawArrays 0 s.gMeshPlane.nVertices,
       GLCommand.bindVertexArray s.gMeshPyr.vaoPyr,
       GLCommand.drawArrays 0 s.gMeshPyr.nVertices,
       GLCommand.bindVertexArray s.gMeshCube.vaoCube,
       GLCommand.drawArrays 0 s.gMeshCube.nVertices,
       GLCommand.bindVertexArray s.gMeshRec.vaoRec,
       GLCommand.drawArrays 0 s.gMeshRec.nVertices,
       GLCommand.bindVertexArray s.gMeshRec2.vaoRec2,
       GLCommand.drawArrays 0 s.gMeshRec2.nVertices,
       GLCommand.bindVertexArray s.gMeshRec3.vaoRec3,
       GLCommand.drawArrays 0 s.gMeshRec3.nVertices,
       GLCommand.bindVertexArray 0,
       GLCommand.swapBuffers] := by
  simp only [renderCommands, renderAll, URenderPlane, URenderPyr, URenderCube, URenderRec,
    URenderRec2, URenderRec3, drawObject, App.emit, List.append_assoc, List.nil_append,
    List.cons_append, List.filter_cons, List.filter_nil, GLCommand.isDrawStep]
  simp

theorem glfwPollEvents_meshes [FloatRounding α] (m : MathOps α) (events : List (Event α))
    (s : App α) :
    (glfwPollEvents m events s).gMeshPlane = s.gMeshPlane ∧
    (glfwPollEvents m events s).gMeshPyr = s.gMeshPyr ∧
    (glfwPollEvents m events s).gMeshCube = s.gMeshCube ∧
    (glfwPollEvents m events s).gMeshRec = s.gMeshRec ∧
    (glfwPollEvents m events s).gMeshRec2 = s.gMeshRec2 ∧
    (glfwPollEvents m events s).gMeshRec3 = s.gMeshRec3 ∧
    (glfwPollEvents m events s).gProgramId = s.gProgramId := by
  induction events generalizing s with
  | nil => exact ⟨rfl, rfl, rfl, rfl, rfl, rfl, rfl⟩
  | cons e rest ih =>
    have step : glfwPollEvents m (e :: rest) s = glfwPollEvents m rest (dispatch m e s) := rfl
    have hd : (dispatch m e s).gMeshPlane = s.gMeshPlane ∧
        (dispatch m e s).gMeshPyr = s.gMeshPyr ∧
        (dispatch m e s).gMeshCube = s.gMeshCube ∧
        (dispatch m e s).gMeshRec = s.gMeshRec ∧
        (dispatch m e s).gMeshRec2 = s.gMeshRec2 ∧
        (dispatch m e s).gMeshRec3 = s.gMeshRec3 ∧
        (dispatch m e s).gProgramId = s.gProgramId := by
      cases e with
      | cursorPos xpos ypos => exact ⟨rfl, rfl, rfl, rfl, rfl, rfl, rfl⟩
      | scroll xoffset yoffset => exact ⟨rfl, rfl, rfl, rfl, rfl, rfl, rfl⟩
      | framebufferSize width height => exact ⟨rfl, rfl, rfl, rfl, rfl, rfl, rfl⟩
      | mouseButton button action mods =>
        simp only [dispatch, UMouseButtonCallback]
        split_ifs <;> exact ⟨rfl, rfl, rfl, rfl, rfl, rfl, rfl⟩
      | windowClose => exact ⟨rfl, rfl, rfl, rfl, rfl, rfl, rfl⟩
    rw [step]
    obtain ⟨i1, i2, i3, i4, i5, i6, i7⟩ := ih (dispatch m e s)
    obtain ⟨d1, d2, d3, d4, d5, d6, d7⟩ := hd
    exact ⟨i1.trans d1, i2.trans d2, i3.trans d3, i4.trans d4, i5.trans d5, i6.trans d6,
      i7.trans d7⟩

theorem renderAll_meshes (m : MathOps α) (s : App α) :
    (renderAll m s).gMeshPlane = s.gMeshPlane ∧
    (renderAll m s).gMeshPyr = s.gMeshPyr ∧
    (renderAll m s).gMeshCube = s.gMeshCube ∧
    (renderAll m s).gMeshRec = s.gMeshRec ∧
    (renderAll m s).gMeshRec2 = s.gMeshRec2 ∧
    (renderAll m s).gMeshRec3 = s.gMeshRec3 ∧
    (renderAll m s).gProgramId = s.gProgramId := by
  simp only [renderAll, URenderPlane, URenderPyr, URenderCube, URenderRec, URenderRec2,
    URenderRec3, drawObject, App.emit, and_self]

theorem frame_meshes [FloatRounding α] (m : MathOps α) (f : FrameInput α) (s : App α) :
    (frame m f s).gMeshPlane = s.gMeshPlane ∧
    (frame m f s).gMeshPyr = s.gMeshPyr ∧
    (frame m f s).gMeshCube = s.gMeshCube ∧
    (frame m f s).gMeshRec = s.gMeshRec ∧
    (frame m f s).gMeshRec2 = s.gMeshRec2 ∧
    (frame m f s).gMeshRec3 = s.gMeshRec3 ∧
    (frame m f s).gProgramId = s.gProgramId := by
  obtain ⟨p1, p2, p3, p4, p5, p6, p7⟩ :=
    glfwPollEvents_meshes m f.events (renderAll m (frameInput f s))
  obtain ⟨r1, r2, r3, r4, r5, r6, r7⟩ := renderAll_meshes m (frameInput f s)
  simp only [frame, p1, p2, p3, p4, p5, p6, p7, r1, r2, r3, r4, r5, r6, r7]
  simp only [frameInput, and_self]

theorem createMeshes_meshes (env : Env) (s : App α) :
    ((createMeshes env s).gMeshPlane.vaoPlane = env.vaoPlane ∧
      (createMeshes env s).gMeshPlane.nVertices = 6) ∧
    ((createMeshes env s).gMeshPyr.vaoPyr = env.vaoPyr ∧
      (createMeshes env s).gMeshPyr.nVertices = 18) ∧
    ((createMeshes env s).gMeshCube.vaoCube = env.vaoCube ∧
      (createMeshes env s).gMeshCube.nVertices = 36) ∧
    ((createMeshes env s).gMeshRec.vaoRec = env.vaoRec ∧
      (createMeshes env s).gMeshRec.nVertices = 36) ∧
    ((createMeshes env s).gMeshRec2.vaoRec2 = env.vaoRec2 ∧
      (createMeshes env s).gMeshRec2.nVertices = 36) ∧
    ((createMeshes env s).gMeshRec3.vaoRec3 = env.vaoRec3 ∧
      (createMeshes env s).gMeshRec3.nVertices = 36) := by
  simp only [createMeshes, UCreateMeshPlane, UCreateMeshPyr, UCreateMeshCube, UCreateMeshRec,
    UCreateMeshRec2, UCreateMeshRec3, vertexCount, sizeofVerts, UCreateMeshPlane_verts_length,
    UCreateMeshPyr_verts_length, UCreateMeshCube_verts_length, UCreateMeshRec_verts_length,
    UCreateMeshRec2_verts_length, UCreateMeshRec3_verts_length, sizeofFloat, floatsPerVertex,
    floatsPerColor]
  decide

/-- C12: the OpenGL calls of one iteration of the render loop, restricted to clears, vertex
array binds, draws and buffer swaps, are: one clear of the colour and depth buffers, first;
then for each of plane, pyramid, cube, `Rec`, `Rec2`, `Rec3`, in this order, the bind of that
mesh's own vertex array followed by `glDrawArrays(GL_TRIANGLES, 0, n)` with that mesh's own
`nVertices`; then the unbind and one buffer swap, after the sixth draw. The iteration leaves
the meshes as they are, and after the six `UCreateMesh*` calls each mesh holds the vertex array
generated for it and the vertex count of its own data. -/
theorem C12_frame_draw_sequence [FloatRounding α] (m : MathOps α) (f : FrameInput α)
    (s : App α) (env : Env) :
    (frame m f s).gl = s.gl ++ frameCommands m f s ∧
    (frameCommands m f s).filter GLCommand.isDrawStep =
      [GLCommand.clear true true,
       GLCommand.bindVertexArray s.gMeshPlane.vaoPlane,
       GLCommand.drawArrays 0 s.gMeshPlane.nVertices,
       GLCommand.bindVertexArray s.gMeshPyr.vaoPyr,
       GLCommand.drawArrays 0 s.gMeshPyr.nVertices,
       GLCommand.bindVertexArray s.gMeshCube.vaoCube,
       GLCommand.drawArrays 0 s.gMeshCube.nVertices,
       GLCommand.bindVertexArray s.gMeshRec.vaoRec,
       GLCommand.drawArrays 0 s.gMeshRec.nVertices,
       GLCommand.bindVertexArray s.gMeshRec2.vaoRec2,
       GLCommand.drawArrays 0 s.gMeshRec2.nVertices,
       GLCommand.bindVertexArray s.gMeshRec3.vaoRec3,
       GLCommand.drawArrays 0 s.gMeshRec3.nVertices,
       GLCommand.bindVertexArray 0,
       GLCommand.swapBuffers] ∧
    ((frame m f s).gMeshPlane = s.gMeshPlane ∧ (frame m f s).gMeshPyr = s.gMeshPyr ∧
      (frame m f s).gMeshCube = s.gMeshCube ∧ (frame m f s).gMeshRec = s.gMeshRec ∧
      (frame m f s).gMeshRec2 = s.gMeshRec2 ∧ (frame m f s).gMeshRec3 = s.gMeshRec3) ∧
    (((createMeshes env s).gMeshPlane.vaoPlane = env.vaoPlane ∧
        (createMeshes env s).gMeshPlane.nVertices = 6) ∧
      ((createMeshes env s).gMeshPyr.vaoPyr = env.vaoPyr ∧
        (createMeshes env s).gMeshPyr.nVertices = 18) ∧
      ((createMeshes env s).gMeshCube.vaoCube = env.vaoCube ∧
        (createMeshes env s).gMeshCube.nVertices = 36) ∧
      ((createMeshes env s).gMeshRec.vaoRec = env.vaoRec ∧
        (createMeshes env s).gMeshRec.nVertices = 36) ∧
      ((createMeshes env s).gMeshRec2.vaoRec2 = env.vaoRec2 ∧
        (createMeshes env s).gMeshRec2.nVertices = 36) ∧
      ((createMeshes env s).gMeshRec3.vaoRec3 = env.vaoRec3 ∧
        (createMeshes env s).gMeshRec3.nVertices = 36)) := by
  obtain ⟨h1, h2, h3, h4, h5, h6, _⟩ := frame_meshes m f s
  refine ⟨frame_gl m f s, ?_, ⟨h1, h2, h3, h4, h5, h6⟩, createMeshes_meshes env s⟩
  rw [frameCommands_eq, List.filter_append, resizeCommands_filter_isDrawStep, List.append_nil,
    renderCommands_filter_isDrawStep]
  simp only [frameInput]

omit [LinearOrderedField α] in
theorem resizeCommands_upload (name : Uniform) (events : List (Event α)) :
    (resizeCommands events).filterMap (GLCommand.upload name) = [] := by
  induction events with
  | nil => rfl
  | cons e rest ih =>
    rw [resizeCommands_cons, List.filterMap_append, ih]
    cases e <;> simp [resizeCommands, GLCommand.upload]

theorem renderCommands_viewUploads (m : MathOps α) (s : App α) :
    viewUploads (renderCommands m s) =
      List.replicate 6 (s.globals.gCamera.GetViewMatrix m) := by
  simp only [viewUploads, renderCommands, renderAll, URenderPlane, URenderPyr, URenderCube,
    URenderRec, URenderRec2, URenderRec3, drawObject, App.emit, List.append_assoc,
    List.nil_append, List.cons_append, List.filterMap_cons, List.filterMap_nil,
    GLCommand.upload]
  simp [List.replicate]

theorem renderCommands_projectionUploads (m : MathOps α) (s : App α) :
    projectionUploads (renderCommands m s) =
      List.replicate 6
        (perspective m (m.radians s.globals.gCamera.Zoom)
          ((WINDOW_WIDTH : α) / (WINDOW_HEIGHT : α)) 0.1 100) := by
  simp only [projectionUploads, renderCommands, renderAll, URenderPlane, URenderPyr,
    URenderCube, URenderRec, URenderRec2, URenderRec3, drawObject, App.emit,
    List.append_assoc, List.nil_append, List.cons_append, List.filterMap_cons,
    List.filterMap_nil, GLCommand.upload]
  simp [List.replicate]

theorem window_aspect : ((WINDOW_WIDTH : α) / (WINDOW_HEIGHT : α)) = 4 / 3 := by
  simp only [WINDOW_WIDTH, WINDOW_HEIGHT]
  norm_num

theorem dispatch_globals [FloatRounding α] (m : MathOps α) (e : Event α) (s t : App α)
    (h : s.globals = t.globals) : (dispatch m e s).globals = (dispatch m e t).globals := by
  cases e with
  | cursorPos xpos ypos => simp only [dispatch, h]
  | scroll xoffset yoffset => simp only [dispatch, h]
  | framebufferSize width height => exact h
  | mouseButton button action mods =>
    simp only [dispatch, UMouseButtonCallback]
    split_ifs <;> exact h
  | windowClose => simp only [dispatch, h]

theorem glfwPollEvents_globals [FloatRounding α] (m : MathOps α) (events : List (Event α))
    (s t : App α)
    (h : s.globals = t.globals) :
    (glfwPollEvents m events s).globals = (glfwPollEvents m events t).globals := by
  induction events generalizing s t with
  | nil => exact h
  | cons e rest ih =>
    have step1 : glfwPollEvents m (e :: rest) s = glfwPollEvents m rest (dispatch m e s) := rfl
    have step2 : glfwPollEvents m (e :: rest) t = glfwPollEvents m rest (dispatch m e t) := rfl
    rw [step1, step2]
    exact ih _ _ (dispatch_globals m e s t h)

/-- C19: none of the six render functions changes the globals, so within one iteration of the
loop the camera that the render calls see is the camera left by `UProcessInput`; the six view
matrices uploaded in the iteration are all the view matrix of that camera, and the six
projection matrices are all the perspective projection with field of view `Zoom` of that
camera, aspect `800 / 600`, near `0.1` and far `100`; the globals at the end of the iteration
are those left by `UProcessInput` as changed by the callbacks of `glfwPollEvents`. -/
theorem C19_one_camera_per_frame [FloatRounding α] (m : MathOps α) (f : FrameInput α)
    (s : App α) :
    ((URenderPlane m s).globals = s.globals ∧ (URenderPyr m s).globals = s.globals ∧
      (URenderCube m s).globals = s.globals ∧ (URenderRec m s).globals = s.globals ∧
      (URenderRec2 m s).globals = s.globals ∧ (URenderRec3 m s).globals = s.globals) ∧
    (frameInput f s).globals.gCamera =
      (UProcessInput f.pressed (frameTiming f.currentFrame s.globals)).gCamera ∧
    (renderAll m (frameInput f s)).globals = (frameInput f s).globals ∧
    viewUploads (frameCommands m f s) =
      List.replicate 6 ((frameInput f s).globals.gCamera.GetViewMatrix m) ∧
    projectionUploads (frameCommands m f s) =
      List.replicate 6
        (perspective m (m.radians (frameInput f s).globals.gCamera.Zoom) (800 / 600) 0.1 100) ∧
    (frame m f s).globals = (glfwPollEvents m f.events (frameInput f s)).globals := by
  refine ⟨?_, rfl, renderAll_globals m _, ?_, ?_, ?_⟩
  · simp only [URenderPlane, URenderPyr, URenderCube, URenderRec, URenderRec2, URenderRec3,
      drawObject_globals, App.emit, and_self]
  · rw [frameCommands_eq, viewUploads, List.filterMap_append, resizeCommands_upload,
      List.append_nil]
    exact renderCommands_viewUploads m _
  · rw [frameCommands_eq, projectionUploads, List.filterMap_append, resizeCommands_upload,
      List.append_nil]
    have h := renderCommands_projectionUploads m (frameInput f s)
    rw [projectionUploads, window_aspect] at h
    rw [h]
    norm_num
  · have h := glfwPollEvents_globals m f.events (renderAll m (frameInput f s)) (frameInput f s)
      (renderAll_globals m _)
    simp only [frame, h]

omit [LinearOrderedField α] in
theorem resizes_eq (sizes : List (Int × Int)) (s : App α) :
    resizes sizes s =
      { s with gl := s.gl ++ sizes.map (fun size => GLCommand.viewport 0 0 size.1 size.2) } := by
  induction sizes generalizing s with
  | nil => simp [resizes]
  | cons size rest ih =>
    have step : resizes (size :: rest) s = resizes rest (UResizeWindow size.1 size.2 s) := rfl
    rw [step, ih]
    simp [UResizeWindow, App.emit]

/-- C20: `UResizeWindow(width, height)` only issues `glViewport(0, 0, width, height)`; after any
sequence of resizes the globals, the camera among them, are unchanged, and the six projection
matrices that the render functions upload are still the perspective projection with aspect
`WINDOW_WIDTH / WINDOW_HEIGHT = 800 / 600 = 4 / 3`, the same as before the resizes. -/
theorem C20_resize_changes_viewport_only (m : MathOps α) (width height : Int)
    (sizes : List (Int × Int)) (s : App α) :
    UResizeWindow width height s =
      { s with gl := s.gl ++ [GLCommand.viewport 0 0 width height] } ∧
    resizes sizes s =
      { s with gl := s.gl ++ sizes.map (fun size => GLCommand.viewport 0 0 size.1 size.2) } ∧
    (resizes sizes s).globals = s.globals ∧
    (resizes sizes s).globals.gCamera = s.globals.gCamera ∧
    ((WINDOW_WIDTH : α) / (WINDOW_HEIGHT : α)) = 4 / 3 ∧
    projectionUploads (renderCommands m s) =
      List.replicate 6 (perspective m (m.radians s.globals.gCamera.Zoom) (4 / 3) 0.1 100) ∧
    projectionUploads (renderCommands m (resizes sizes s)) =
      List.replicate 6 (perspective m (m.radians s.globals.gCamera.Zoom) (4 / 3) 0.1 100) := by
  have hg : (resizes sizes s).globals = s.globals := by rw [resizes_eq]
  refine ⟨rfl, resizes_eq sizes s, hg, by rw [hg], window_aspect, ?_, ?_⟩
  · rw [renderCommands_projectionUploads, window_aspect]
  · rw [renderCommands_projectionUploads, window_aspect, hg]

end Frames

/-! ## Start-up failures -/

section Startup

variable {α : Type} [LinearOrderedField α]

omit [LinearOrderedField α] in
theorem UInitialize_iterations (env : Env) (s : App α) :
    (UInitialize env s).2.iterations = s.iterations := by
  simp only [UInitialize, App.print]
  split_ifs <;> rfl

omit [LinearOrderedField α] in
theorem UInitialize_fails_iff (env : Env) (s : App α) :
    (UInitialize env s).1 = false ↔ (env.windowCreated = false ∨ env.glewInitOk = false) := by
  simp only [UInitialize]
  cases env.windowCreated <;> cases env.glewInitOk <;> simp

omit [LinearOrderedField α] in
theorem UCreateShaderProgram_iterations (env : Env) (s : App α) :
    (UCreateShaderProgram env s).2.iterations = s.iterations := by
  simp only [UCreateShaderProgram, App.print, App.emit]
  split_ifs <;> rfl

omit [LinearOrderedField α] in
theorem UCreateShaderProgram_fails_iff (env : Env) (s : App α) :
    (UCreateShaderProgram env s).1 = false ↔
      (env.vertexCompiled = false ∨ env.fragmentCompiled = false ∨ env.linked = false) := by
  simp only [UCreateShaderProgram]
  cases env.vertexCompiled <;> cases env.fragmentCompiled <;> cases env.linked <;> simp

theorem createMeshes_iterations (env : Env) (s : App α) :
    (createMeshes env s).iterations = s.iterations := by
  simp only [createMeshes]

theorem main_status_failure_iff [FloatRounding α] (m : MathOps α) (speed sensitivity : α)
    (env : Env)
    (frames : List (FrameInput α)) :
    (main m speed sensitivity env frames).status = some EXIT_FAILURE ↔
      ((UInitialize env (App.init m speed sensitivity)).1 = false ∨
        (UCreateShaderProgram env
          (createMeshes env (UInitialize env (App.init m speed sensitivity)).2)).1 = false) := by
  simp only [main]
  cases h1 : (UInitialize env (App.init m speed sensitivity)).1
  · simp
  · cases h2 : (UCreateShaderProgram env
        (createMeshes env (UInitialize env (App.init m speed sensitivity)).2)).1
    · simp
    · simp only [Bool.not_true, Bool.false_eq_true, if_false, or_self, iff_false]
      split_ifs
      · simp [EXIT_SUCCESS, EXIT_FAILURE]
      · simp

theorem main_failure_iterations [FloatRounding α] (m : MathOps α) (speed sensitivity : α)
    (env : Env)
    (frames : List (FrameInput α))
    (h : (main m speed sensitivity env frames).status = some EXIT_FAILURE) :
    (main m speed sensitivity env frames).app.iterations = 0 := by
  have hiff := (main_status_failure_iff m speed sensitivity env frames).mp h
  simp only [main]
  cases h1 : (UInitialize env (App.init m speed sensitivity)).1
  · simp only [Bool.not_false, if_true, UInitialize_iterations]
    rfl
  · cases h2 : (UCreateShaderProgram env
        (createMeshes env (UInitialize env (App.init m speed sensitivity)).2)).1
    · simp only [Bool.not_true, Bool.false_eq_true, if_false, Bool.not_false, if_true,
        UCreateShaderProgram_iterations, createMeshes_iterations, UInitialize_iterations]
      rfl
    · rw [h1, h2] at hiff
      simp at hiff

/-- C15: with window creation, `glewInit`, the two shader compilations and the link as boolean
outcomes, `UInitialize` returns false exactly when window creation or `glewInit` fails,
`UCreateShaderProgram` returns false exactly when a compilation or the link fails, and `main`
returns `EXIT_FAILURE` having executed no iteration of the render loop if and only if at least
one of the five outcomes is a failure (a return of `EXIT_FAILURE` is always without an
iteration). -/
theorem C15_failure_exit [FloatRounding α] (m : MathOps α) (speed sensitivity : α) (env : Env)
    (frames : List (FrameInput α)) (s : App α) :
    ((UInitialize env s).1 = false ↔ (env.windowCreated = false ∨ env.glewInitOk = false)) ∧
    ((UCreateShaderProgram env s).1 = false ↔
      (env.vertexCompiled = false ∨ env.fragmentCompiled = false ∨ env.linked = false)) ∧
    (((main m speed sensitivity env frames).status = some EXIT_FAILURE ∧
        (main m speed sensitivity env frames).app.iterations = 0) ↔
      (env.windowCreated = false ∨ env.glewInitOk = false ∨ env.vertexCompiled = false ∨
        env.fragmentCompiled = false ∨ env.linked = false)) ∧
    ((main m speed sensitivity env frames).status = some EXIT_FAILURE →
      (main m speed sensitivity env frames).app.iterations = 0) := by
  refine ⟨UInitialize_fails_iff env s, UCreateShaderProgram_fails_iff env s, ?_,
    main_failure_iterations m speed sensitivity env frames⟩
  have hmain := main_status_failure_iff m speed sensitivity env frames
  rw [UInitialize_fails_iff, UCreateShaderProgram_fails_iff] at hmain
  constructor
  · rintro ⟨hst, _⟩
    rcases hmain.mp hst with (h | h) | h | h | h
    · exact Or.inl h
    · exact Or.inr (Or.inl h)
    · exact Or.inr (Or.inr (Or.inl h))
    · exact Or.inr (Or.inr (Or.inr (Or.inl h)))
    · exact Or.inr (Or.inr (Or.inr (Or.inr h)))
  · intro h
    have hst : (main m speed sensitivity env frames).status = some EXIT_FAILURE := by
      apply hmain.mpr
      rcases h with h | h | h | h | h
      · exact Or.inl (Or.inl h)
      · exact Or.inl (Or.inr h)
      · exact Or.inr (Or.inl h)
      · exact Or.inr (Or.inr (Or.inl h))
      · exact Or.inr (Or.inr (Or.inr h))
    exact ⟨hst, main_failure_iterations m speed sensitivity env frames hst⟩

/-- C16: `UCreateShaderProgram` prints exactly one message when it returns false and none when
it returns true, and the message names the first failing stage in the order vertex compile,
fragment compile, link; after a vertex compile failure the fragment shader is not compiled and
the program is not linked, after a fragment compile failure the program is not linked, and
`glUseProgram` is called only when all three stages succeed. -/
theorem C16_shader_diagnostics (env : Env) (s : App α) :
    (env.vertexCompiled = false →
      (UCreateShaderProgram env s).1 = false ∧
      (UCreateShaderProgram env s).2.out =
        s.out ++ ["ERROR::SHADER::VERTEX::COMPILATION_FAILED\n" ++ env.infoLog] ∧
      (UCreateShaderProgram env s).2.gl.filter GLCommand.isBuildStep =
        s.gl.filter GLCommand.isBuildStep ++ [GLCommand.compileShader env.vertexShaderId]) ∧
    (env.vertexCompiled = true → env.fragmentCompiled = false →
      (UCreateShaderProgram env s).1 = false ∧
      (UCreateShaderProgram env s).2.out =
        s.out ++ ["ERROR::SHADER::FRAGMENT::COMPILATION_FAILED\n" ++ env.infoLog] ∧
      (UCreateShaderProgram env s).2.gl.filter GLCommand.isBuildStep =
        s.gl.filter GLCommand.isBuildStep ++
          [GLCommand.compileShader env.vertexShaderId,
           GLCommand.compileShader env.fragmentShaderId]) ∧
    (env.vertexCompiled = true → env.fragmentCompiled = true → env.linked = false →
      (UCreateShaderProgram env s).1 = false ∧
      (UCreateShaderProgram env s).2.out =
        s.out ++ ["ERROR::SHADER::PROGRAM::LINKING_FAILED\n" ++ env.infoLog] ∧
      (UCreateShaderProgram env s).2.gl.filter GLCommand.isBuildStep =
        s.gl.filter GLCommand.isBuildStep ++
          [GLCommand.compileShader env.vertexShaderId,
           GLCommand.compileShader env.fragmentShaderId,
           GLCommand.linkProgram env.programId]) ∧
    (env.vertexCompiled = true → env.fragmentCompiled = true → env.linked = true →
      (UCreateShaderProgram env s).1 = true ∧
      (UCreateShaderProgram env s).2.out = s.out ∧
      (UCreateShaderProgram env s).2.gl.filter GLCommand.isBuildStep =
        s.gl.filter GLCommand.isBuildStep ++
          [GLCommand.compileShader env.vertexShaderId,
           GLCommand.compileShader env.fragmentShaderId,
           GLCommand.linkProgram env.programId,
           GLCommand.useProgram env.programId]) ∧
    (UCreateShaderProgram env s).2.out.length =
      s.out.length + (if (UCreateShaderProgram env s).1 then 0 else 1) := by
  refine ⟨?_, ?_, ?_, ?_, ?_⟩
  · intro hv
    simp [UCreateShaderProgram, hv, App.print, App.emit, List.filter_append,
      GLCommand.isBuildStep]
  · intro hv hf
    simp [UCreateShaderProgram, hv, hf, App.print, App.emit, List.filter_append,
      GLCommand.isBuildStep]
  · intro hv hf hl
    simp [UCreateShaderProgram, hv, hf, hl, App.print, App.emit, List.filter_append,
      GLCommand.isBuildStep]
  · intro hv hf hl
    simp [UCreateShaderProgram, hv, hf, hl, App.print, App.emit, List.filter_append,
      GLCommand.isBuildStep]
  · cases hv : env.vertexCompiled <;> cases hf : env.fragmentCompiled <;>
      cases hl : env.linked <;> simp [UCreateShaderProgram, hv, hf, hl, App.print, App.emit]

end Startup

/-! ## Model matrices -/

section Model

variable {α : Type} [LinearOrderedField α]

theorem transformPoint_model (m : MathOps α) (scaleBy position axis : Vec3 α) (angle : α)
    (v : Vec3 α) :
    transformPoint (translate position * rotate m angle axis * scale scaleBy) v =
      transformPoint (translate position)
        (transformPoint (rotate m angle axis) (transformPoint (scale scaleBy) v)) := by
  simp only [transformPoint, translate, rotate, scale, Matrix.mul_apply, Fin.sum_univ_four,
    Vec3.mk.injEq]
  simp only [Matrix.of_apply, Matrix.cons_val', Matrix.cons_val_zero, Matrix.cons_val_one,
    Matrix.cons_val_two, Matrix.cons_val_three, Matrix.head_cons, Matrix.tail_cons,
    Matrix.empty_val', Matrix.cons_val_fin_one, Matrix.head_fin_const]
  refine ⟨?_, ?_, ?_⟩ <;> ring

theorem rotate_zero (m : MathOps α) (hc : m.cos 0 = 1) (hs : m.sin 0 = 0) (axis : Vec3 α) :
    rotate m 0 axis = 1 := by
  ext i j
  fin_cases i <;> fin_cases j <;> first
    | (simp [rotate, hc, hs, Vec3.scale]; done)
    | (simp [rotate, hc, hs, Vec3.scale]; rfl)

theorem transformPoint_model_zero (m : MathOps α) (hc : m.cos 0 = 1) (hs : m.sin 0 = 0)
    (scaleBy position axis v : Vec3 α) :
    transformPoint (translate position * rotate m 0 axis * scale scaleBy) v =
      ⟨scaleBy.x * v.x + position.x, scaleBy.y * v.y + position.y,
       scaleBy.z * v.z + position.z⟩ := by
  rw [rotate_zero m hc hs, mul_one]
  simp only [transformPoint, translate, scale, Matrix.mul_apply, Fin.sum_univ_four,
    Vec3.mk.injEq]
  simp only [Matrix.of_apply, Matrix.cons_val', Matrix.cons_val_zero, Matrix.cons_val_one,
    Matrix.cons_val_two, Matrix.cons_val_three, Matrix.head_cons, Matrix.tail_cons,
    Matrix.empty_val', Matrix.cons_val_fin_one, Matrix.head_fin_const]
  refine ⟨?_, ?_, ?_⟩ <;> ring

theorem renderCommands_modelUploads (m : MathOps α) (s : App α) :
    modelUploads (renderCommands m s) =
      [translate ⟨0.0, 0.0, 0.0⟩ * rotate m 0.0 ⟨1.0, 1.0, 1.0⟩ * scale ⟨2.0, 2.0, 2.0⟩,
       translate ⟨-2.5, -3.86, 2.0⟩ * rotate m 45.5 ⟨1.0, 0.0, 0.0⟩ * scale ⟨0.25, 0.5, 0.25⟩,
       translate ⟨2.5, -3.5, -1.0⟩ * rotate m 10.0 ⟨0.0, 1.0, 0.0⟩ * scale ⟨1.0, 1.0, 1.0⟩,
       translate ⟨0.0, -3.9, 0.0⟩ * rotate m 0.0 ⟨1.0, 1.0, 1.0⟩ * scale ⟨3.0, 0.5, 5.0⟩,
       translate ⟨-2.5, -3.88, 0.25⟩ * rotate m 0.0 ⟨1.0, 1.0, 1.0⟩ * scale ⟨0.25, 0.5, 3.0⟩,
       translate ⟨2.5, -3.84, 0.78⟩ * rotate m 10.0 ⟨0.0, 1.0, 0.0⟩ *
         scale ⟨0.65, 0.65, 1.2⟩] := by
  simp only [modelUploads, renderCommands, renderAll, URenderPlane, URenderPyr, URenderCube,
    URenderRec, URenderRec2, URenderRec3, drawObject, App.emit, List.append_assoc,
    List.nil_append, List.cons_append, List.filterMap_cons, List.filterMap_nil,
    GLCommand.upload]
  simp

theorem plane_vertices_transformed (i : Nat) (hi : i < 6) :
    2 * (vertexPosition (UCreateMeshPlane.verts : List α) i).y = -4 ∧
    (2 * (vertexPosition (UCreateMeshPlane.verts : List α) i).x = -4 ∨
      2 * (vertexPosition (UCreateMeshPlane.verts : List α) i).x = 4) ∧
    (2 * (vertexPosition (UCreateMeshPlane.verts : List α) i).z = -4 ∨
      2 * (vertexPosition (UCreateMeshPlane.verts : List α) i).z = 4) := by
  interval_cases i <;>
    simp only [vertexPosition, UCreateMeshPlane.verts, List.getD_cons_zero,
      List.getD_cons_succ] <;>
    norm_num

/-- C17: each of the six render functions uploads `model = translation * rotation * scale`
with its own constants, and such a matrix applies the scale to a vertex first, then the
rotation, then the translation; when the elementary functions are exact at 0 (`cos 0 = 1`,
`sin 0 = 0`) the rotation by angle 0 is the identity whatever its axis, so for the plane, `Rec`
and `Rec2` the model matrix maps `(x, y, z)` to `(sx x + tx, sy y + ty, sz z + tz)`; every
vertex of the plane mesh is mapped to height `y = -4` with `x` and `z` in `{-4, 4}`. -/
theorem C17_model_transform (m : MathOps α) (s : App α) (hc : m.cos 0 = 1)
    (hs : m.sin 0 = 0) :
    modelUploads (renderCommands m s) =
      [translate ⟨0.0, 0.0, 0.0⟩ * rotate m 0.0 ⟨1.0, 1.0, 1.0⟩ * scale ⟨2.0, 2.0, 2.0⟩,
       translate ⟨-2.5, -3.86, 2.0⟩ * rotate m 45.5 ⟨1.0, 0.0, 0.0⟩ * scale ⟨0.25, 0.5, 0.25⟩,
       translate ⟨2.5, -3.5, -1.0⟩ * rotate m 10.0 ⟨0.0, 1.0, 0.0⟩ * scale ⟨1.0, 1.0, 1.0⟩,
       translate ⟨0.0, -3.9, 0.0⟩ * rotate m 0.0 ⟨1.0, 1.0, 1.0⟩ * scale ⟨3.0, 0.5, 5.0⟩,
       translate ⟨-2.5, -3.88, 0.25⟩ * rotate m 0.0 ⟨1.0, 1.0, 1.0⟩ * scale ⟨0.25, 0.5, 3.0⟩,
       translate ⟨2.5, -3.84, 0.78⟩ * rotate m 10.0 ⟨0.0, 1.0, 0.0⟩ *
         scale ⟨0.65, 0.65, 1.2⟩] ∧
    (∀ (scaleBy position axis : Vec3 α) (angle : α) (v : Vec3 α),
      transformPoint (translate position * rotate m angle axis * scale scaleBy) v =
        transformPoint (translate position)
          (transformPoint (rotate m angle axis) (transformPoint (scale scaleBy) v))) ∧
    (∀ axis : Vec3 α, rotate m 0.0 axis = 1) ∧
    (∀ scaleBy position axis v : Vec3 α,
      transformPoint (translate position * rotate m 0.0 axis * scale scaleBy) v =
        ⟨scaleBy.x * v.x + position.x, scaleBy.y * v.y + position.y,
         scaleBy.z * v.z + position.z⟩) ∧
    (∀ i, i < 6 →
      (transformPoint
          (translate ⟨0.0, 0.0, 0.0⟩ * rotate m 0.0 ⟨1.0, 1.0, 1.0⟩ * scale ⟨2.0, 2.0, 2.0⟩)
          (vertexPosition UCreateMeshPlane.verts i)).y = -4 ∧
      ((transformPoint
          (translate ⟨0.0, 0.0, 0.0⟩ * rotate m 0.0 ⟨1.0, 1.0, 1.0⟩ * scale ⟨2.0, 2.0, 2.0⟩)
          (vertexPosition UCreateMeshPlane.verts i)).x = -4 ∨
        (transformPoint
          (translate ⟨0.0, 0.0, 0.0⟩ * rotate m 0.0 ⟨1.0, 1.0, 1.0⟩ * scale ⟨2.0, 2.0, 2.0⟩)
          (vertexPosition UCreateMeshPlane.verts i)).x = 4) ∧
      ((transformPoint
          (translate ⟨0.0, 0.0, 0.0⟩ * rotate m 0.0 ⟨1.0, 1.0, 1.0⟩ * scale ⟨2.0, 2.0, 2.0⟩)
          (vertexPosition UCreateMeshPlane.verts i)).z = -4 ∨
        (transformPoint
          (translate ⟨0.0, 0.0, 0.0⟩ * rotate m 0.0 ⟨1.0, 1.0, 1.0⟩ * scale ⟨2.0, 2.0, 2.0⟩)
          (vertexPosition UCreateMeshPlane.verts i)).z = 4)) := by
  have h0 : (0.0 : α) = 0 := by norm_num
  have h2 : (2.0 : α) = 2 := by norm_num
  refine ⟨renderCommands_modelUploads m s, fun scaleBy position axis angle v =>
    transformPoint_model m scaleBy position axis angle v, ?_, ?_, ?_⟩
  · intro axis
    rw [h0]
    exact rotate_zero m hc hs axis
  · intro scaleBy position axis v
    rw [h0]
    exact transformPoint_model_zero m hc hs scaleBy position axis v
  · intro i hi
    obtain ⟨hy, hx, hz⟩ := plane_vertices_transformed (α := α) i hi
    rw [h0, transformPoint_model_zero m hc hs, h2]
    simp only [add_zero]
    exact ⟨hy, hx, hz⟩

/-- Witness of C17 over the reals, where `cos 0 = 1` and `sin 0 = 0`: the rotation by angle 0
about `(1, 1, 1)` is the identity. -/
theorem C17_model_transform_witness :
    realOps.cos 0 = 1 ∧ realOps.sin 0 = 0 ∧ rotate realOps 0.0 ⟨1.0, 1.0, 1.0⟩ = 1 :=
  ⟨Real.cos_zero, Real.sin_zero,
    (C17_model_transform realOps (App.init realOps 1 1) Real.cos_zero Real.sin_zero).2.2.1
      ⟨1.0, 1.0, 1.0⟩⟩

end Model

/-! ## Accumulated mouse offsets -/

section Offsets

variable {α : Type} [LinearOrderedField α]

theorem xOffsetSum_append_mouseMovement (calls : List (CameraCall α)) (x y : α) :
    xOffsetSum (calls ++ [CameraCall.mouseMovement x y]) = xOffsetSum calls + x := by
  induction calls with
  | nil => simp [xOffsetSum]
  | cons c rest ih =>
    cases c with
    | keyboard d dt =>
      show xOffsetSum (rest ++ [CameraCall.mouseMovement x y]) = xOffsetSum rest + x
      exact ih
    | mouseMovement a b =>
      show a + xOffsetSum (rest ++ [CameraCall.mouseMovement x y]) =
        a + xOffsetSum rest + x
      rw [ih]
      ring
    | mouseScroll a =>
      show xOffsetSum (rest ++ [CameraCall.mouseMovement x y]) = xOffsetSum rest + x
      exact ih

theorem yOffsetSum_append_mouseMovement (calls : List (CameraCall α)) (x y : α) :
    yOffsetSum (calls ++ [CameraCall.mouseMovement x y]) = yOffsetSum calls + y := by
  induction calls with
  | nil => simp [yOffsetSum]
  | cons c rest ih =>
    cases c with
    | keyboard d dt =>
      show yOffsetSum (rest ++ [CameraCall.mouseMovement x y]) = yOffsetSum rest + y
      exact ih
    | mouseMovement a b =>
      show b + yOffsetSum (rest ++ [CameraCall.mouseMovement x y]) =
        b + yOffsetSum rest + y
      rw [ih]
      ring
    | mouseScroll a =>
      show yOffsetSum (rest ++ [CameraCall.mouseMovement x y]) = yOffsetSum rest + y
      exact ih

theorem getLast_cons_eq_getLastD {β : Type} (l : List β) (d : β) :
    (d :: l).getLast (List.cons_ne_nil _ _) = l.getLastD d := by
  induction l generalizing d with
  | nil => rfl
  | cons e tail ih =>
    rw [List.getLast_cons_cons, List.getLastD_cons]
    exact ih e

theorem cursorEvents_calls_length [FloatRounding α] (m : MathOps α) (events : List (α × α))
    (g : Globals α) :
    (cursorEvents m events g).calls.length = g.calls.length + events.length := by
  induction events generalizing g with
  | nil => rfl
  | cons e rest ih =>
    have step : cursorEvents m (e :: rest) g =
        cursorEvents m rest (UMousePositionCallback m e.1 e.2 g) := rfl
    have hc : (UMousePositionCallback m e.1 e.2 g).calls.length = g.calls.length + 1 := by
      cases h : g.gFirstMouse <;> simp [UMousePositionCallback, h]
    rw [step, ih, hc, List.length_cons]
    omega

theorem cursorEvents_offsets [FloatRounding α] (m : MathOps α) (events : List (α × α))
    (g : Globals α) (h : g.gFirstMouse = false)
    (hm : ExactMoves (g.gLastX, g.gLastY) events) :
    xOffsetSum (cursorEvents m events g).calls =
        xOffsetSum g.calls + ((events.getLastD (g.gLastX, g.gLastY)).1 - g.gLastX) ∧
    yOffsetSum (cursorEvents m events g).calls =
        yOffsetSum g.calls + (g.gLastY - (events.getLastD (g.gLastX, g.gLastY)).2) := by
  induction events generalizing g with
  | nil => simp [cursorEvents]
  | cons e rest ih =>
    have step : cursorEvents m (e :: rest) g =
        cursorEvents m rest (UMousePositionCallback m e.1 e.2 g) := rfl
    simp only [ExactMoves] at hm
    obtain ⟨ex, ey, dx, dy, hrest⟩ := hm
    obtain ⟨hc, _, hx, hy, hf⟩ := UMousePositionCallback_later m e.1 e.2 g h
    rw [ex] at hx
    rw [ey] at hy
    rw [dx, dy] at hc
    have hrest2 : ExactMoves ((UMousePositionCallback m e.1 e.2 g).gLastX,
        (UMousePositionCallback m e.1 e.2 g).gLastY) rest := by
      rw [hx, hy]
      exact hrest
    obtain ⟨ix, iy⟩ := ih (UMousePositionCallback m e.1 e.2 g) hf hrest2
    rw [step, ix, iy, hc, hx, hy, xOffsetSum_append_mouseMovement,
      yOffsetSum_append_mouseMovement, List.getLastD_cons]
    exact ⟨by ring, by ring⟩

/-- C18: for `n ≥ 1` calls of `UMousePositionCallback` with positions `(x1, y1), ..., (xn, yn)`,
the first made with `gFirstMouse = true`, exactly `n` calls of `ProcessMouseMovement` are made,
whatever the initial `gLastX` and `gLastY`; and when the coordinates of the positions and the
differences of successive positions are `float` values (and zero is kept by the roundings), the
horizontal offsets passed to `ProcessMouseMovement` sum to `xn - x1` and the vertical offsets to
`y1 - yn`, whatever the intermediate positions and the initial `gLastX` and `gLastY`. The last
position `(xn, yn)` is `rest.getLastD (x1, y1)` for the positions `(x1, y1) :: rest`. -/
theorem C18_offsets_telescope [FloatRounding α] (m : MathOps α) (x1 y1 : α)
    (rest : List (α × α)) (g : Globals α) (h : g.gFirstMouse = true) :
    (cursorEvents m ((x1, y1) :: rest) g).calls.length = g.calls.length + (rest.length + 1) ∧
    ((x1, y1) :: rest).getLast (List.cons_ne_nil _ _) = rest.getLastD (x1, y1) ∧
    (toFloat (toDouble (0 : α)) = 0 → toFloat x1 = x1 → toFloat y1 = y1 →
      ExactMoves (x1, y1) rest →
      xOffsetSum (cursorEvents m ((x1, y1) :: rest) g).calls =
        xOffsetSum g.calls + ((rest.getLastD (x1, y1)).1 - x1) ∧
      yOffsetSum (cursorEvents m ((x1, y1) :: rest) g).calls =
        yOffsetSum g.calls + (y1 - (rest.getLastD (x1, y1)).2)) := by
  refine ⟨?_, getLast_cons_eq_getLastD rest (x1, y1), ?_⟩
  · rw [cursorEvents_calls_length, List.length_cons]
  · intro h0 ex ey hm
    have step : cursorEvents m ((x1, y1) :: rest) g =
        cursorEvents m rest (UMousePositionCallback m x1 y1 g) := rfl
    obtain ⟨hc, _, hx, hy, hf⟩ := UMousePositionCallback_first m x1 y1 g h
    rw [ex] at hx
    rw [ey] at hy
    rw [ex, ey, sub_self, sub_self, h0] at hc
    have hm2 : ExactMoves ((UMousePositionCallback m x1 y1 g).gLastX,
        (UMousePositionCallback m x1 y1 g).gLastY) rest := by
      rw [hx, hy]
      exact hm
    obtain ⟨ix, iy⟩ := cursorEvents_offsets m rest (UMousePositionCallback m x1 y1 g) hf hm2
    rw [step, ix, iy, hc, hx, hy, xOffsetSum_append_mouseMovement,
      yOffsetSum_append_mouseMovement]
    exact ⟨by ring, by ring⟩

/-- Witness of C18 on the scenario globals (`gLastX = 400`, `gLastY = 300`), for the positions
`(10, 20)`, `(500, -7)`, `(13, 29)`, whose coordinates and differences are `float` values: the
offsets sum to `(3, -9)`. -/
theorem C18_offsets_telescope_witness :
    scenarioGlobals.gFirstMouse = true ∧
    ExactMoves ((10 : ℚ), (20 : ℚ)) [(500, -7), (13, 29)] ∧
    xOffsetSum (cursorEvents sampleOps [(10, 20), (500, -7), (13, 29)] scenarioGlobals).calls =
      xOffsetSum scenarioGlobals.calls + 3 ∧
    yOffsetSum (cursorEvents sampleOps [(10, 20), (500, -7), (13, 29)] scenarioGlobals).calls =
      yOffsetSum scenarioGlobals.calls + -9 :=
  have h0 : toFloat (toDouble (0 : ℚ)) = 0 := by
    rw [toDouble_rat, float64_zero, toFloat_rat, float32_zero]
  have int : ∀ n : ℤ, -2 ^ 24 < n → n < 2 ^ 24 →
      toFloat (n : ℚ) = n ∧ toFloat (toDouble (n : ℚ)) = n := by
    intro n h1 h2
    refine ⟨(exact_intCast n h1 h2).1, ?_⟩
    rw [(exact_intCast n h1 h2).2, (exact_intCast n h1 h2).1]
  have ex : toFloat (10 : ℚ) = 10 := by
    exact_mod_cast (int 10 (by norm_num) (by norm_num)).1
  have ey : toFloat (20 : ℚ) = 20 := by
    exact_mod_cast (int 20 (by norm_num) (by norm_num)).1
  have hm : ExactMoves ((10 : ℚ), (20 : ℚ)) [(500, -7), (13, 29)] := by
    simp only [ExactMoves]
    refine ⟨?_, ?_, ?_, ?_, ?_, ?_, ?_, ?_, trivial⟩
    · exact_mod_cast (int 500 (by norm_num) (by norm_num)).1
    · exact_mod_cast (int (-7) (by norm_num) (by norm_num)).1
    · rw [show (500 - 10 : ℚ) = ((490 : ℤ) : ℚ) by norm_num]
      exact (int 490 (by norm_num) (by norm_num)).2
    · rw [show (20 - -7 : ℚ) = ((27 : ℤ) : ℚ) by norm_num]
      exact (int 27 (by norm_num) (by norm_num)).2
    · exact_mod_cast (int 13 (by norm_num) (by norm_num)).1
    · exact_mod_cast (int 29 (by norm_num) (by norm_num)).1
    · rw [show (13 - 500 : ℚ) = ((-487 : ℤ) : ℚ) by norm_num]
      exact (int (-487) (by norm_num) (by norm_num)).2
    · rw [show (-7 - 29 : ℚ) = ((-36 : ℤ) : ℚ) by norm_num]
      exact (int (-36) (by norm_num) (by norm_num)).2
  have h := (C18_offsets_telescope sampleOps 10 20 [(500, -7), (13, 29)] scenarioGlobals
    rfl).2.2 h0 ex ey hm
  ⟨rfl, hm, by rw [h.1]; norm_num, by rw [h.2]; norm_num⟩

/-- The claim of C18 fails for the two positions `(0, 0)` and `(1 + 2⁻³⁰, 0)`: the horizontal
offsets passed to `ProcessMouseMovement` are `0` and `1`, which sum to `1`, not to
`xn - x1 = 1 + 2⁻³⁰`. -/
theorem C18_offsets_telescope_counterexample :
    scenarioGlobals.gFirstMouse = true ∧
    (cursorEvents sampleOps [(0, 0), (1 + 1 / 2 ^ 30, 0)] scenarioGlobals).calls =
      scenarioGlobals.calls ++
        [CameraCall.mouseMovement 0 0, CameraCall.mouseMovement 1 0] ∧
    xOffsetSum (cursorEvents sampleOps [(0, 0), (1 + 1 / 2 ^ 30, 0)] scenarioGlobals).calls =
      xOffsetSum scenarioGlobals.calls + 1 ∧
    xOffsetSum (cursorEvents sampleOps [(0, 0), (1 + 1 / 2 ^ 30, 0)] scenarioGlobals).calls ≠
      xOffsetSum scenarioGlobals.calls +
        ((([(1 + 1 / 2 ^ 30, 0)] : List (ℚ × ℚ)).getLastD (0, 0)).1 - 0) := by
  have f0 : toFloat (0 : ℚ) = 0 := float32_zero
  have d0 : toDouble (0 : ℚ) = 0 := float64_zero
  have dx : toDouble (1 + 1 / 2 ^ 30 : ℚ) = 1 + 1 / 2 ^ 30 := by
    rw [toDouble_rat, float64_eq_of_near (1 + 1 / 2 ^ 30) 0 (2 ^ 52 + 2 ^ 22) (by norm_num)
      (by norm_num) (by norm_num) (by norm_num)]
    norm_num
  have sx : toFloat (1 + 1 / 2 ^ 30 : ℚ) = 1 := by
    rw [toFloat_rat, float32_eq_of_near (1 + 1 / 2 ^ 30) 0 (2 ^ 23) (by norm_num)
      (by norm_num) (by norm_num) (by norm_num)]
    norm_num
  have step : cursorEvents sampleOps [(0, 0), (1 + 1 / 2 ^ 30, 0)] scenarioGlobals =
      UMousePositionCallback sampleOps (1 + 1 / 2 ^ 30) 0
        (UMousePositionCallback sampleOps 0 0 scenarioGlobals) := rfl
  obtain ⟨hc1, _, hx1, hy1, hf1⟩ := UMousePositionCallback_first sampleOps 0 0 scenarioGlobals rfl
  obtain ⟨hc2, _, _, _, _⟩ := UMousePositionCallback_later sampleOps (1 + 1 / 2 ^ 30) 0
    (UMousePositionCallback sampleOps 0 0 scenarioGlobals) hf1
  have hcalls : (cursorEvents sampleOps [(0, 0), (1 + 1 / 2 ^ 30, 0)] scenarioGlobals).calls =
      scenarioGlobals.calls ++
        [CameraCall.mouseMovement 0 0, CameraCall.mouseMovement 1 0] := by
    rw [step, hc2, hc1, hx1, hy1, f0, sub_self, sub_zero, d0, f0, dx, sx]
    rfl
  refine ⟨rfl, hcalls, ?_, ?_⟩
  · rw [hcalls]
    norm_num [scenarioGlobals, xOffsetSum]
  · rw [hcalls]
    norm_num [scenarioGlobals, xOffsetSum]

end Offsets

/-! ## Closed surfaces -/

section Surfaces

variable {α : Type} [LinearOrderedField α]

theorem triangles_pyr :
    triangles (UCreateMeshPyr.verts : List α) =
      pyramidTriangles.map (mapTriangle pyramidCorner) := by
  simp only [triangles, vertexCount, sizeofVerts, UCreateMeshPyr_verts_length, sizeofFloat,
    floatsPerVertex, floatsPerColor]
  simp only [vertexPosition, UCreateMeshPyr.verts, List.getD_cons_zero, List.getD_cons_succ,
    pyramidTriangles, mapTriangle, pyramidCorner, List.map, List.range, List.range.loop]
  norm_num

set_option maxRecDepth 8000 in
theorem triangles_cube :
    triangles (UCreateMeshCube.verts : List α) =
      boxTriangles.map (mapTriangle (boxCorner 0.5 0.5 0.5)) := by
  simp only [triangles, vertexCount, sizeofVerts, UCreateMeshCube_verts_length, sizeofFloat,
    floatsPerVertex, floatsPerColor]
  simp only [vertexPosition, UCreateMeshCube.verts, List.getD_cons_zero, List.getD_cons_succ,
    boxTriangles, mapTriangle, boxCorner, List.map, List.range, List.range.loop]
  norm_num

set_option maxRecDepth 8000 in
theorem triangles_rec :
    triangles (UCreateMeshRec.verts : List α) =
      boxTriangles.map (mapTriangle (boxCorner 0.5 0.25 0.5)) := by
  simp only [triangles, vertexCount, sizeofVerts, UCreateMeshRec_verts_length, sizeofFloat,
    floatsPerVertex, floatsPerColor]
  simp only [vertexPosition, UCreateMeshRec.verts, List.getD_cons_zero, List.getD_cons_succ,
    boxTriangles, mapTriangle, boxCorner, List.map, List.range, List.range.loop]
  norm_num

set_option maxRecDepth 8000 in
theorem triangles_rec2 :
    triangles (UCreateMeshRec2.verts : List α) =
      boxTriangles.map (mapTriangle (boxCorner 0.5 0.25 0.5)) := by
  simp only [triangles, vertexCount, sizeofVerts, UCreateMeshRec2_verts_length, sizeofFloat,
    floatsPerVertex, floatsPerColor]
  simp only [vertexPosition, UCreateMeshRec2.verts, List.getD_cons_zero, List.getD_cons_succ,
    boxTriangles, mapTriangle, boxCorner, List.map, List.range, List.range.loop]
  norm_num

set_option maxRecDepth 8000 in
theorem triangles_rec3 :
    triangles (UCreateMeshRec3.verts : List α) =
      boxTriangles.map (mapTriangle (boxCorner 0.5 0.25 0.5)) := by
  simp only [triangles, vertexCount, sizeofVerts, UCreateMeshRec3_verts_length, sizeofFloat,
    floatsPerVertex, floatsPerColor]
  simp only [vertexPosition, UCreateMeshRec3.verts, List.getD_cons_zero, List.getD_cons_succ,
    boxTriangles, mapTriangle, boxCorner, List.map, List.range, List.range.loop]
  norm_num

theorem boxCorner_injective (hx hy hz : α) (h1 : 0 < hx) (h2 : 0 < hy) (h3 : 0 < hz) :
    Function.Injective (boxCorner hx hy hz) := by
  have a1 : -hx ≠ hx := by intro h; linarith
  have a2 : -hy ≠ hy := by intro h; linarith
  have a3 : -hz ≠ hz := by intro h; linarith
  have b1 : hx ≠ -hx := by intro h; linarith
  have b2 : hy ≠ -hy := by intro h; linarith
  have b3 : hz ≠ -hz := by intro h; linarith
  intro i j h
  fin_cases i <;> fin_cases j <;> simp [boxCorner, a1, a2, a3, b1, b2, b3] at h ⊢

theorem pyramidCorner_injective : Function.Injective (pyramidCorner : Fin 5 → Vec3 α) := by
  intro i j h
  fin_cases i <;> fin_cases j <;> first
    | rfl
    | (exfalso; simp only [pyramidCorner, Vec3.mk.injEq] at h; norm_num at h)

theorem closedSurface_boxTriangles : closedSurface boxTriangles = true := by decide

theorem closedSurface_pyramidTriangles : closedSurface pyramidTriangles = true := by decide

theorem sameEdge_map {ι β : Type} [DecidableEq ι] [DecidableEq β] (f : ι → β)
    (hf : Function.Injective f) (e e2 : ι × ι) :
    sameEdge (f e.1, f e.2) (f e2.1, f e2.2) = sameEdge e e2 := by
  simp only [sameEdge, hf.eq_iff]

theorem hasEdge_map {ι β : Type} [DecidableEq ι] [DecidableEq β] (f : ι → β)
    (hf : Function.Injective f) (e : ι × ι) (t : ι × ι × ι) :
    hasEdge (f e.1, f e.2) (mapTriangle f t) = hasEdge e t := by
  have h1 := sameEdge_map f hf e (t.1, t.2.1)
  have h2 := sameEdge_map f hf e (t.2.1, t.2.2)
  have h3 := sameEdge_map f hf e (t.2.2, t.1)
  simp only [hasEdge, triangleEdges, mapTriangle, List.any_cons, List.any_nil] at h1 h2 h3 ⊢
  rw [h1, h2, h3]

theorem edgeCount_map {ι β : Type} [DecidableEq ι] [DecidableEq β] (f : ι → β)
    (hf : Function.Injective f) (ts : List (ι × ι × ι)) (e : ι × ι) :
    edgeCount (ts.map (mapTriangle f)) (f e.1, f e.2) = edgeCount ts e := by
  simp only [edgeCount, List.countP_map]
  congr 1
  funext t
  exact hasEdge_map f hf e t

theorem distinctCorners_map {ι β : Type} [DecidableEq ι] [DecidableEq β] (f : ι → β)
    (hf : Function.Injective f) (t : ι × ι × ι) :
    distinctCorners (mapTriangle f t) = distinctCorners t := by
  simp only [distinctCorners, mapTriangle, ne_eq, hf.eq_iff]

theorem closedSurface_map {ι β : Type} [DecidableEq ι] [DecidableEq β] (f : ι → β)
    (hf : Function.Injective f) (ts : List (ι × ι × ι)) :
    closedSurface (ts.map (mapTriangle f)) = closedSurface ts := by
  have key : ((fun t => distinctCorners t &&
        (triangleEdges t).all fun e => edgeCount (ts.map (mapTriangle f)) e == 2) ∘
      mapTriangle f) =
      (fun t => distinctCorners t && (triangleEdges t).all fun e => edgeCount ts e == 2) := by
    funext t
    have h1 := edgeCount_map f hf ts (t.1, t.2.1)
    have h2 := edgeCount_map f hf ts (t.2.1, t.2.2)
    have h3 := edgeCount_map f hf ts (t.2.2, t.1)
    have h4 := distinctCorners_map f hf t
    simp only [Function.comp, triangleEdges, mapTriangle, List.all_cons, List.all_nil]
      at h1 h2 h3 h4 ⊢
    rw [h1, h2, h3, h4]
  have gen : ∀ (p : β × β × β → Bool) (l : List (ι × ι × ι)),
      (l.map (mapTriangle f)).all p = l.all (p ∘ mapTriangle f) := by
    intro p l
    induction l with
    | nil => rfl
    | cons t rest ih => simp only [List.map_cons, List.all_cons, ih, Function.comp]
  unfold closedSurface
  rw [gen, key]

theorem closedSurface_spec {β : Type} [DecidableEq β] (ts : List (β × β × β))
    (h : closedSurface ts = true) :
    ∀ t ∈ ts, (t.1 ≠ t.2.1 ∧ t.2.1 ≠ t.2.2 ∧ t.1 ≠ t.2.2) ∧
      ∀ e ∈ triangleEdges t, edgeCount ts e = 2 := by
  intro t ht
  simp only [closedSurface, List.all_eq_true, Bool.and_eq_true, distinctCorners,
    decide_eq_true_eq, beq_iff_eq] at h
  exact h t ht

theorem mapTriangle_corner {ι β : Type} (f : ι → β) (ts : List (ι × ι × ι)) (t : β × β × β)
    (ht : t ∈ ts.map (mapTriangle f)) (p : β) (hp : p ∈ [t.1, t.2.1, t.2.2]) :
    ∃ i, p = f i := by
  obtain ⟨u, _, rfl⟩ := List.mem_map.mp ht
  simp only [mapTriangle, List.mem_cons, List.mem_singleton, List.not_mem_nil, or_false] at hp
  rcases hp with h | h | h
  · exact ⟨_, h⟩
  · exact ⟨_, h⟩
  · exact ⟨_, h⟩

theorem boxCorner_coordinates (hx hy hz : α) (i : Fin 8) :
    ((boxCorner hx hy hz i).x = -hx ∨ (boxCorner hx hy hz i).x = hx) ∧
    ((boxCorner hx hy hz i).y = -hy ∨ (boxCorner hx hy hz i).y = hy) ∧
    ((boxCorner hx hy hz i).z = -hz ∨ (boxCorner hx hy hz i).z = hz) := by
  fin_cases i <;> simp [boxCorner]

theorem pyramidCorner_mem (i : Fin 5) :
    (pyramidCorner i : Vec3 α) ∈
      ([⟨-0.5, -0.5, -0.5⟩, ⟨0.5, -0.5, -0.5⟩, ⟨-0.5, -0.5, 0.5⟩, ⟨0.5, -0.5, 0.5⟩,
        ⟨0.0, 0.5, 0.0⟩] : List (Vec3 α)) := by
  fin_cases i <;> simp [pyramidCorner]

theorem box_surface (verts : List α) (hy : α) (h : 0 < hy)
    (ht : triangles verts = boxTriangles.map (mapTriangle (boxCorner 0.5 hy 0.5))) :
    (triangles verts).length = 12 ∧
    triangles verts = boxTriangles.map (mapTriangle (boxCorner 0.5 hy 0.5)) ∧
    (∀ t ∈ triangles verts,
      (t.1 ≠ t.2.1 ∧ t.2.1 ≠ t.2.2 ∧ t.1 ≠ t.2.2) ∧
      ∀ e ∈ triangleEdges t, edgeCount (triangles verts) e = 2) ∧
    (∀ t ∈ triangles verts, ∀ p ∈ [t.1, t.2.1, t.2.2],
      (p.x = -0.5 ∨ p.x = 0.5) ∧ (p.y = -hy ∨ p.y = hy) ∧ (p.z = -0.5 ∨ p.z = 0.5)) := by
  have half : (0 : α) < 0.5 := by norm_num
  have hclosed : closedSurface (triangles verts) = true := by
    rw [ht, closedSurface_map _ (boxCorner_injective 0.5 hy 0.5 half h half)]
    exact closedSurface_boxTriangles
  refine ⟨by rw [ht]; rfl, ht, closedSurface_spec _ hclosed, ?_⟩
  intro t htm p hp
  rw [ht] at htm
  obtain ⟨i, rfl⟩ := mapTriangle_corner _ _ t htm p hp
  exact boxCorner_coordinates 0.5 hy 0.5 i

/-- C21: each of the five solid meshes (pyramid, cube, `Rec`, `Rec2`, `Rec3`), read as the list
of triangles of three consecutive vertex positions that the draw call reads, is a closed
surface: every triangle has three distinct corners and every undirected edge of a triangle
belongs to exactly two triangles of the mesh; the pyramid has 6 triangles and uses only its
four base corners and the apex `(0, 0.5, 0)`; the cube and the three boxes have 12 triangles
and use only the 8 corners of their bounding box (half extents `0.5` in x and z, and `0.5` in
y for the cube, `0.25` for the boxes). -/
theorem C21_closed_surfaces :
    ((triangles (UCreateMeshPyr.verts : List α)).length = 6 ∧
      triangles (UCreateMeshPyr.verts : List α) =
        pyramidTriangles.map (mapTriangle pyramidCorner) ∧
      (∀ t ∈ triangles (UCreateMeshPyr.verts : List α),
        (t.1 ≠ t.2.1 ∧ t.2.1 ≠ t.2.2 ∧ t.1 ≠ t.2.2) ∧
        ∀ e ∈ triangleEdges t, edgeCount (triangles (UCreateMeshPyr.verts : List α)) e = 2) ∧
      (∀ t ∈ triangles (UCreateMeshPyr.verts : List α), ∀ p ∈ [t.1, t.2.1, t.2.2],
        p ∈ ([⟨-0.5, -0.5, -0.5⟩, ⟨0.5, -0.5, -0.5⟩, ⟨-0.5, -0.5, 0.5⟩, ⟨0.5, -0.5, 0.5⟩,
          ⟨0.0, 0.5, 0.0⟩] : List (Vec3 α)))) ∧
    ((triangles (UCreateMeshCube.verts : List α)).length = 12 ∧
      triangles (UCreateMeshCube.verts : List α) =
        boxTriangles.map (mapTriangle (boxCorner 0.5 0.5 0.5)) ∧
      (∀ t ∈ triangles (UCreateMeshCube.verts : List α),
        (t.1 ≠ t.2.1 ∧ t.2.1 ≠ t.2.2 ∧ t.1 ≠ t.2.2) ∧
        ∀ e ∈ triangleEdges t, edgeCount (triangles (UCreateMeshCube.verts : List α)) e = 2) ∧
      (∀ t ∈ triangles (UCreateMeshCube.verts : List α), ∀ p ∈ [t.1, t.2.1, t.2.2],
        (p.x = -0.5 ∨ p.x = 0.5) ∧ (p.y = -0.5 ∨ p.y = 0.5) ∧ (p.z = -0.5 ∨ p.z = 0.5))) ∧
    ((triangles (UCreateMeshRec.verts : List α)).length = 12 ∧
      triangles (UCreateMeshRec.verts : List α) =
        boxTriangles.map (mapTriangle (boxCorner 0.5 0.25 0.5)) ∧
      (∀ t ∈ triangles (UCreateMeshRec.verts : List α),
        (t.1 ≠ t.2.1 ∧ t.2.1 ≠ t.2.2 ∧ t.1 ≠ t.2.2) ∧
        ∀ e ∈ triangleEdges t, edgeCount (triangles (UCreateMeshRec.verts : List α)) e = 2) ∧
      (∀ t ∈ triangles (UCreateMeshRec.verts : List α), ∀ p ∈ [t.1, t.2.1, t.2.2],
        (p.x = -0.5 ∨ p.x = 0.5) ∧ (p.y = -0.25 ∨ p.y = 0.25) ∧ (p.z = -0.5 ∨ p.z = 0.5))) ∧
    ((triangles (UCreateMeshRec2.verts : List α)).length = 12 ∧
      triangles (UCreateMeshRec2.verts : List α) =
        boxTriangles.map (mapTriangle (boxCorner 0.5 0.25 0.5)) ∧
      (∀ t ∈ triangles (UCreateMeshRec2.verts : List α),
        (t.1 ≠ t.2.1 ∧ t.2.1 ≠ t.2.2 ∧ t.1 ≠ t.2.2) ∧
        ∀ e ∈ triangleEdges t, edgeCount (triangles (UCreateMeshRec2.verts : List α)) e = 2) ∧
      (∀ t ∈ triangles (UCreateMeshRec2.verts : List α), ∀ p ∈ [t.1, t.2.1, t.2.2],
        (p.x = -0.5 ∨ p.x = 0.5) ∧ (p.y = -0.25 ∨ p.y = 0.25) ∧ (p.z = -0.5 ∨ p.z = 0.5))) ∧
    ((triangles (UCreateMeshRec3.verts : List α)).length = 12 ∧
      triangles (UCreateMeshRec3.verts : List α) =
        boxTriangles.map (mapTriangle (boxCorner 0.5 0.25 0.5)) ∧
      (∀ t ∈ triangles (UCreateMeshRec3.verts : List α),
        (t.1 ≠ t.2.1 ∧ t.2.1 ≠ t.2.2 ∧ t.1 ≠ t.2.2) ∧
        ∀ e ∈ triangleEdges t, edgeCount (triangles (UCreateMeshRec3.verts : List α)) e = 2) ∧
      (∀ t ∈ triangles (UCreateMeshRec3.verts : List α), ∀ p ∈ [t.1, t.2.1, t.2.2],
        (p.x = -0.5 ∨ p.x = 0.5) ∧ (p.y = -0.25 ∨ p.y = 0.25) ∧ (p.z = -0.5 ∨ p.z = 0.5))) := by
  have half : (0 : α) < 0.5 := by norm_num
  have quarter : (0 : α) < 0.25 := by norm_num
  refine ⟨?_, box_surface _ 0.5 half triangles_cube, box_surface _ 0.25 quarter triangles_rec,
    box_surface _ 0.25 quarter triangles_rec2, box_surface _ 0.25 quarter triangles_rec3⟩
  have hclosed : closedSurface (triangles (UCreateMeshPyr.verts : List α)) = true := by
    rw [triangles_pyr, closedSurface_map _ pyramidCorner_injective]
    exact closedSurface_pyramidTriangles
  refine ⟨by rw [triangles_pyr]; rfl, triangles_pyr, closedSurface_spec _ hclosed, ?_⟩
  intro t htm p hp
  rw [triangles_pyr] at htm
  obtain ⟨i, rfl⟩ := mapTriangle_corner _ _ t htm p hp
  exact pyramidCorner_mem i

end Surfaces

end Scene
